import Mathlib

/-!
# PositionTrackerAI: the rule-based form-analysis engine of `src/app.js`

A shallow embedding of `calculateAngle`, `analyzeKneeTracking`, `analyzeSquat`,
`analyzePushup` and of the rate-limited driver `detectPose`.

JavaScript numbers are modelled by an ordered field `α`; NaN and the infinities
are not represented.  What the runtime does to numbers is collected in a record
`JSMath α` that every function takes as its first argument: the built-ins the
source calls (`Math.atan2`, `Math.sqrt`, `Math.PI`, `Number.prototype.toFixed`)
and the rounding `round` of an exact result to a number of the runtime.  Two
runtimes over `ℝ` are defined: `realMath`, exact arithmetic with the mathematical
functions, and `binary64Math`, where results are rounded to IEEE 754 binary64
(`toBinary64`).

The rounding is applied where the outcome of a comparison depends on it: to the
quotient and the thresholds of `analyzeKneeTracking` and to every operation of
the rate limiter in `detectPose`.  The angle computations of `calculateAngle` and
of the analyzers use the operations of the field; the theorems about them are
either stated for the angles the analyzers compute, whatever the runtime, or for
`realMath`.
-/

namespace PositionTracker

/-! ## Definitions -/

/-- A coordinate pair, an object with the fields `x` and `y`. -/
structure Point (α : Type) where
  x : α
  y : α

/-- A detected landmark: a position and a confidence `score`. -/
structure Keypoint (α : Type) extends Point α where
  score : α

/-- The built-ins of the JavaScript runtime that the source uses on numbers. -/
structure JSMath (α : Type) where
  /-- The built-in `Math.atan2(y, x)`. -/
  atan2 : α → α → α
  /-- The built-in `Math.sqrt(x)`. -/
  sqrt : α → α
  /-- The constant `Math.PI`. -/
  PI : α
  /-- The method `x.toFixed(digits)`. -/
  toFixed : α → Nat → String
  /-- The rounding of an exact value to a number of the runtime: the result of an
  arithmetic operator is `round` of the exact result, and a decimal literal
  denotes `round` of its decimal value. -/
  round : α → α

/-- The two-argument arctangent of real numbers, as ECMAScript specifies
`Math.atan2(y, x)`: the angle in `(-π, π]` of the point `(x, y)`, and `0` at the
origin. -/
noncomputable def atan2 (y x : ℝ) : ℝ :=
  if 0 < x then Real.arctan (y / x)
  else if x < 0 then
    if 0 ≤ y then Real.arctan (y / x) + Real.pi else Real.arctan (y / x) - Real.pi
  else if 0 < y then Real.pi / 2
  else if y < 0 then -(Real.pi / 2)
  else 0

/-- The decimal digits of `n`, padded with zeros on the left to at least `width`
digits. -/
def padDigits (n width : Nat) : String :=
  let s := toString n
  String.mk (List.replicate (width - s.length) '0') ++ s

/-- The specification of `Number.prototype.toFixed` in exact arithmetic, for
`|x| < 10^21`: the integer `n` with `n / 10^digits` closest to `|x|` (the larger
one on a tie), written with `digits` decimals, and a minus sign when `x < 0`. -/
def toFixed {α : Type} [LinearOrderedField α] [FloorRing α] (x : α) (digits : Nat) : String :=
  let n : Nat := ⌊|x| * 10 ^ digits + 1 / 2⌋₊
  let s := padDigits n (digits + 1)
  let body :=
    if digits = 0 then s
    else String.mk (s.toList.take (s.length - digits)) ++ "." ++
      String.mk (s.toList.drop (s.length - digits))
  if x < 0 then "-" ++ body else body

/-- The runtime over the real numbers in exact arithmetic: nothing is rounded. -/
noncomputable def realMath : JSMath ℝ where
  atan2 := atan2
  sqrt := Real.sqrt
  PI := Real.pi
  toFixed := toFixed
  round := id

/-- The integer nearest to `y`, the even one of the two nearest when `y` lies
half-way between them. -/
def roundHalfEven {α : Type} [LinearOrderedField α] [FloorRing α] (y : α) : ℤ :=
  let f := ⌊y⌋
  if y - f < 1 / 2 then f
  else if 1 / 2 < y - f then f + 1
  else if f % 2 = 0 then f
  else f + 1

/-- The rounding of IEEE 754 binary64 (round to nearest, ties to even) for values
in the normal range: the nearest multiple of `2 ^ (e - 52)`, where
`2 ^ e ≤ |x| < 2 ^ (e + 1)`.  Overflow and subnormal numbers are not modelled. -/
def toBinary64 {α : Type} [LinearOrderedField α] [FloorRing α] (x : α) : α :=
  if x = 0 then 0
  else
    let ulp : α := 2 ^ (Int.log 2 |x| - 52)
    (roundHalfEven (x / ulp) : α) * ulp

/-- The runtime over the real numbers with binary64 rounding: the numbers are the
reals that binary64 represents, every operation is rounded by `toBinary64`, and
the built-ins return the binary64 number nearest to the exact result, as
IEEE 754 requires of the square root. -/
noncomputable def binary64Math : JSMath ℝ where
  atan2 := fun y x => toBinary64 (atan2 y x)
  sqrt := fun x => toBinary64 (Real.sqrt x)
  PI := toBinary64 Real.pi
  toFixed := toFixed
  round := toBinary64

section Source

variable {α : Type} [LinearOrderedField α]

/-- The function `calculateAngle(a, b, c)` of `src/app.js`: the angle at `b` in
degrees. -/
def calculateAngle (M : JSMath α) (a b c : Point α) : α :=
  let radians := M.atan2 (c.y - b.y) (c.x - b.x) - M.atan2 (a.y - b.y) (a.x - b.x)
  let angle := |radians * 180 / M.PI|
  if angle > 180 then 360 - angle else angle

/-- A pose: the 17 keypoints of MoveNet, indexed as in `KEYPOINTS`. -/
abbrev Frame (α : Type) := Fin 17 → Keypoint α

namespace KEYPOINTS

def NOSE : Fin 17 := 0
def LEFT_EYE : Fin 17 := 1
def RIGHT_EYE : Fin 17 := 2
def LEFT_EAR : Fin 17 := 3
def RIGHT_EAR : Fin 17 := 4
def LEFT_SHOULDER : Fin 17 := 5
def RIGHT_SHOULDER : Fin 17 := 6
def LEFT_ELBOW : Fin 17 := 7
def RIGHT_ELBOW : Fin 17 := 8
def LEFT_WRIST : Fin 17 := 9
def RIGHT_WRIST : Fin 17 := 10
def LEFT_HIP : Fin 17 := 11
def LEFT_KNEE : Fin 17 := 13
def LEFT_ANKLE : Fin 17 := 15
def RIGHT_HIP : Fin 17 := 12
def RIGHT_KNEE : Fin 17 := 14
def RIGHT_ANKLE : Fin 17 := 16

end KEYPOINTS

/-- The object returned by `analyzeKneeTracking`. -/
structure KneeTracking (α : Type) where
  issue : String
  severity : String
  ratio : α
  isGood : Bool

/-- The function `analyzeKneeTracking(keypoints)` of `src/app.js`; `none` is
`null`.  The quotient is rounded by `M.round` and the thresholds are the numbers
that the literals `0.85` and `1.5` denote in the runtime; the comparison of a
score with `0.3` has the same outcome for the literal as for the decimal.  The
differences, products and sums under the square roots are those of the field.
Where `hipWidth` is 0 JavaScript yields `Infinity` or `NaN`, which the model
does not represent, so statements about the ratio are made for a computed hip
width other than 0. -/
def analyzeKneeTracking (M : JSMath α) (keypoints : Frame α) : Option (KneeTracking α) :=
  let leftKnee := keypoints KEYPOINTS.LEFT_KNEE
  let rightKnee := keypoints KEYPOINTS.RIGHT_KNEE
  let leftHip := keypoints KEYPOINTS.LEFT_HIP
  let rightHip := keypoints KEYPOINTS.RIGHT_HIP
  if leftKnee.score > 0.3 ∧ rightKnee.score > 0.3 ∧
      leftHip.score > 0.3 ∧ rightHip.score > 0.3 then
    let kneeDx := rightKnee.x - leftKnee.x
    let kneeDy := rightKnee.y - leftKnee.y
    let kneeDistance := M.sqrt (kneeDx * kneeDx + kneeDy * kneeDy)
    let hipDx := rightHip.x - leftHip.x
    let hipDy := rightHip.y - leftHip.y
    let hipWidth := M.sqrt (hipDx * hipDx + hipDy * hipDy)
    let kneeToHipRatio := M.round (kneeDistance / hipWidth)
    if kneeToHipRatio < M.round 0.85 then
      some { issue := "⚠️ Knees caving in", severity := "high",
             ratio := kneeToHipRatio, isGood := false }
    else if kneeToHipRatio > M.round 1.5 then
      some { issue := "⚠️ Stance too wide", severity := "medium",
             ratio := kneeToHipRatio, isGood := false }
    else
      some { issue := "✓ Good knee tracking", severity := "none",
             ratio := kneeToHipRatio, isGood := true }
  else none

/-- The value of the local `hipWidth` of `analyzeKneeTracking`. -/
def hipWidth (M : JSMath α) (keypoints : Frame α) : α :=
  let leftHip := keypoints KEYPOINTS.LEFT_HIP
  let rightHip := keypoints KEYPOINTS.RIGHT_HIP
  let hipDx := rightHip.x - leftHip.x
  let hipDy := rightHip.y - leftHip.y
  M.sqrt (hipDx * hipDx + hipDy * hipDy)

/-- The value of the local `kneeDistance` of `analyzeKneeTracking`. -/
def kneeDistance (M : JSMath α) (keypoints : Frame α) : α :=
  let leftKnee := keypoints KEYPOINTS.LEFT_KNEE
  let rightKnee := keypoints KEYPOINTS.RIGHT_KNEE
  let kneeDx := rightKnee.x - leftKnee.x
  let kneeDy := rightKnee.y - leftKnee.y
  M.sqrt (kneeDx * kneeDx + kneeDy * kneeDy)

/-- The value of the local `kneeToHipRatio` of `analyzeKneeTracking`. -/
def kneeToHipRatio (M : JSMath α) (keypoints : Frame α) : α :=
  M.round (kneeDistance M keypoints / hipWidth M keypoints)

/-- The two accumulators of an analyzer, `formIssues` and `formScore`. -/
structure Form where
  formIssues : List String
  formScore : Nat

/-- The statement `formIssues.push(s)`. -/
def Form.push (f : Form) (s : String) : Form :=
  { f with formIssues := f.formIssues ++ [s] }

/-- The statement `formScore += n`. -/
def Form.add (f : Form) (n : Nat) : Form :=
  { f with formScore := f.formScore + n }

/-- The method `formIssues.join(sep)` of arrays of strings. -/
def join (sep : String) : List String → String
  | [] => ""
  | [s] => s
  | s :: t => s ++ sep ++ join sep t

/-- What the page shows: the text and the class of `feedbackElement`, and the
lines last drawn by `displayMetrics`. -/
structure Display where
  textContent : String
  className : String
  metrics : List String

/-- The angles `analyzeSquat` measures (lines 216-238). -/
structure SquatMetrics (α : Type) where
  avgKneeAngle : α
  avgHipAngle : α
  backLeanAngle : α
  avgAnkleAngle : α
  kneeTracking : Option (KneeTracking α)

/-- The condition of the `if` of `analyzeSquat` (lines 212-214). -/
abbrev squatGate (keypoints : Frame α) : Prop :=
  (keypoints KEYPOINTS.LEFT_HIP).score > 0.3 ∧ (keypoints KEYPOINTS.LEFT_KNEE).score > 0.3 ∧
  (keypoints KEYPOINTS.LEFT_ANKLE).score > 0.3 ∧
  (keypoints KEYPOINTS.RIGHT_HIP).score > 0.3 ∧ (keypoints KEYPOINTS.RIGHT_KNEE).score > 0.3 ∧
  (keypoints KEYPOINTS.RIGHT_ANKLE).score > 0.3 ∧
  (keypoints KEYPOINTS.LEFT_SHOULDER).score > 0.3 ∧
  (keypoints KEYPOINTS.RIGHT_SHOULDER).score > 0.3

/-- Lines 216-238 of `analyzeSquat`: the measured angles and the knee tracking. -/
def squatMetrics (M : JSMath α) (keypoints : Frame α) : SquatMetrics α :=
  let leftHip := keypoints KEYPOINTS.LEFT_HIP
  let leftKnee := keypoints KEYPOINTS.LEFT_KNEE
  let leftAnkle := keypoints KEYPOINTS.LEFT_ANKLE
  let rightHip := keypoints KEYPOINTS.RIGHT_HIP
  let rightKnee := keypoints KEYPOINTS.RIGHT_KNEE
  let rightAnkle := keypoints KEYPOINTS.RIGHT_ANKLE
  let leftShoulder := keypoints KEYPOINTS.LEFT_SHOULDER
  let rightShoulder := keypoints KEYPOINTS.RIGHT_SHOULDER
  let leftKneeAngle := calculateAngle M leftHip.toPoint leftKnee.toPoint leftAnkle.toPoint
  let rightKneeAngle := calculateAngle M rightHip.toPoint rightKnee.toPoint rightAnkle.toPoint
  let avgKneeAngle := (leftKneeAngle + rightKneeAngle) / 2
  let leftHipAngle := calculateAngle M leftShoulder.toPoint leftHip.toPoint leftKnee.toPoint
  let rightHipAngle := calculateAngle M rightShoulder.toPoint rightHip.toPoint rightKnee.toPoint
  let avgHipAngle := (leftHipAngle + rightHipAngle) / 2
  let avgShoulderX := (leftShoulder.x + rightShoulder.x) / 2
  let avgShoulderY := (leftShoulder.y + rightShoulder.y) / 2
  let avgHipX := (leftHip.x + rightHip.x) / 2
  let avgHipY := (leftHip.y + rightHip.y) / 2
  let backLeanRadians := M.atan2 (avgShoulderX - avgHipX) (avgHipY - avgShoulderY)
  let backLeanAngle := |backLeanRadians * 180 / M.PI|
  let leftFloorPoint : Point α := { x := leftAnkle.x, y := leftAnkle.y + 100 }
  let rightFloorPoint : Point α := { x := rightAnkle.x, y := rightAnkle.y + 100 }
  let leftAnkleAngle := calculateAngle M leftKnee.toPoint leftAnkle.toPoint leftFloorPoint
  let rightAnkleAngle := calculateAngle M rightKnee.toPoint rightAnkle.toPoint rightFloorPoint
  let avgAnkleAngle := (leftAnkleAngle + rightAnkleAngle) / 2
  let kneeTracking := analyzeKneeTracking M keypoints
  { avgKneeAngle := avgKneeAngle, avgHipAngle := avgHipAngle, backLeanAngle := backLeanAngle,
    avgAnkleAngle := avgAnkleAngle, kneeTracking := kneeTracking }

/-- Lines 243-251 of `analyzeSquat`: the knee-depth check. -/
def squatKneeCheck (avgKneeAngle : α) (f : Form) : Form :=
  if avgKneeAngle > 160 then f.push "Start squatting"
  else if avgKneeAngle ≥ 90 ∧ avgKneeAngle ≤ 160 then (f.push "Go lower").add 1
  else (f.push "Great depth").add 3

/-- Lines 253-259 of `analyzeSquat`: the hip check. -/
def squatHipCheck (avgHipAngle : α) (f : Form) : Form :=
  if avgHipAngle < 45 then f.push "⚠️ Hips too low"
  else if avgHipAngle > 100 then f.push "⚠️ Hinge at hips more"
  else f.add 2

/-- Lines 261-268 of `analyzeSquat`: the back-lean check. -/
def squatBackCheck (backLeanAngle : α) (f : Form) : Form :=
  if backLeanAngle > 45 then f.push "⚠️ Keep chest up"
  else if backLeanAngle < 10 then (f.push "✓ Good back position").add 2
  else f.add 1

/-- Lines 270-276 of `analyzeSquat`: the ankle check. -/
def squatAnkleCheck (avgAnkleAngle : α) (f : Form) : Form :=
  if avgAnkleAngle < 70 then f.push "⚠️ Heels lifting"
  else if avgAnkleAngle > 110 then f.push "⚠️ Lean Forward"
  else f.add 1

/-- Lines 278-285 of `analyzeSquat`: the knee-tracking check. -/
def squatTrackingCheck (kneeTracking : Option (KneeTracking α)) (f : Form) : Form :=
  match kneeTracking with
  | some kneeTracking => if kneeTracking.isGood then f.add 2 else f.push kneeTracking.issue
  | none => f

/-- Lines 240-285 of `analyzeSquat`: the issues and the score, accumulated check
by check from an empty list and 0. -/
def squatForm (m : SquatMetrics α) : Form :=
  let f : Form := { formIssues := [], formScore := 0 }
  let f := squatKneeCheck m.avgKneeAngle f
  let f := squatHipCheck m.avgHipAngle f
  let f := squatBackCheck m.backLeanAngle f
  let f := squatAnkleCheck m.avgAnkleAngle f
  squatTrackingCheck m.kneeTracking f

/-- Lines 287-298 of `analyzeSquat`: the text and the class given to
`feedbackElement`. -/
def squatFeedback (m : SquatMetrics α) (f : Form) : String × String :=
  if m.avgKneeAngle > 160 then ("Start Squatting", "start")
  else if f.formScore ≥ 9 then ("🏆 Perfect Form!", "good")
  else (if f.formIssues.length > 0 then join " • " f.formIssues else "Keep going!", "lower")

/-- Lines 300-311 of `analyzeSquat`: the lines handed to `displayMetrics`. -/
def squatMetricsToDisplay (M : JSMath α) (m : SquatMetrics α) (f : Form) : List String :=
  let metricsToDisplay :=
    [ "Knee Angle: " ++ M.toFixed m.avgKneeAngle 0 ++ "°",
      "Hip: " ++ M.toFixed m.avgHipAngle 0 ++ "°",
      "Back Lean: " ++ M.toFixed m.backLeanAngle 0 ++ "°",
      "Ankle: " ++ M.toFixed m.avgAnkleAngle 0 ++ "°" ]
  let metricsToDisplay :=
    match m.kneeTracking with
    | some kneeTracking =>
      metricsToDisplay ++ ["Knee Width: " ++ M.toFixed kneeTracking.ratio 2 ++ "x"]
    | none => metricsToDisplay
  metricsToDisplay ++ ["Score: " ++ toString f.formScore ++ "/10"]

/-- What one run of an analyzer produces when its gate passes. -/
structure Assessment where
  formIssues : List String
  formScore : Nat
  textContent : String
  className : String
  metricsToDisplay : List String

/-- The body of `analyzeSquat`: `none` when the confidence gate fails and the
function does nothing, otherwise what it computes and shows. -/
def squatAssessment (M : JSMath α) (keypoints : Frame α) : Option Assessment :=
  if squatGate keypoints then
    let m := squatMetrics M keypoints
    let f := squatForm m
    some { formIssues := f.formIssues, formScore := f.formScore,
           textContent := (squatFeedback m f).1, className := (squatFeedback m f).2,
           metricsToDisplay := squatMetricsToDisplay M m f }
  else none

/-- The effect of an analyzer on the page: nothing without an assessment. -/
def Display.update (d : Display) : Option Assessment → Display
  | some r => { textContent := r.textContent, className := r.className,
                metrics := r.metricsToDisplay }
  | none => d

/-- The function `analyzeSquat(keypoints)` of `src/app.js`, as a transformer of
the page. -/
def analyzeSquat (M : JSMath α) (keypoints : Frame α) (d : Display) : Display :=
  d.update (squatAssessment M keypoints)

/-- The angles `analyzePushup` measures (lines 340-365). -/
structure PushupMetrics (α : Type) where
  avgElbowAngle : α
  avgShoulderAngle : α
  avgBackAngle : α
  avgKneeAngle : α
  avgBodyAlignment : α

/-- The condition of the `if` of `analyzePushup` (lines 333-338). -/
abbrev pushupGate (keypoints : Frame α) : Prop :=
  (keypoints KEYPOINTS.LEFT_SHOULDER).score > 0.3 ∧
  (keypoints KEYPOINTS.RIGHT_SHOULDER).score > 0.3 ∧
  (keypoints KEYPOINTS.LEFT_ELBOW).score > 0.3 ∧ (keypoints KEYPOINTS.RIGHT_ELBOW).score > 0.3 ∧
  (keypoints KEYPOINTS.LEFT_WRIST).score > 0.3 ∧ (keypoints KEYPOINTS.RIGHT_WRIST).score > 0.3 ∧
  (keypoints KEYPOINTS.LEFT_HIP).score > 0.3 ∧ (keypoints KEYPOINTS.RIGHT_HIP).score > 0.3 ∧
  (keypoints KEYPOINTS.LEFT_KNEE).score > 0.3 ∧ (keypoints KEYPOINTS.RIGHT_KNEE).score > 0.3 ∧
  (keypoints KEYPOINTS.LEFT_ANKLE).score > 0.3 ∧ (keypoints KEYPOINTS.RIGHT_ANKLE).score > 0.3

/-- Lines 340-365 of `analyzePushup`: the measured angles. -/
def pushupMetrics (M : JSMath α) (keypoints : Frame α) : PushupMetrics α :=
  let leftShoulder := keypoints KEYPOINTS.LEFT_SHOULDER
  let rightShoulder := keypoints KEYPOINTS.RIGHT_SHOULDER
  let leftElbow := keypoints KEYPOINTS.LEFT_ELBOW
  let rightElbow := keypoints KEYPOINTS.RIGHT_ELBOW
  let leftWrist := keypoints KEYPOINTS.LEFT_WRIST
  let rightWrist := keypoints KEYPOINTS.RIGHT_WRIST
  let leftHip := keypoints KEYPOINTS.LEFT_HIP
  let rightHip := keypoints KEYPOINTS.RIGHT_HIP
  let leftKnee := keypoints KEYPOINTS.LEFT_KNEE
  let rightKnee := keypoints KEYPOINTS.RIGHT_KNEE
  let leftAnkle := keypoints KEYPOINTS.LEFT_ANKLE
  let rightAnkle := keypoints KEYPOINTS.RIGHT_ANKLE
  let leftElbowAngle := calculateAngle M leftShoulder.toPoint leftElbow.toPoint leftWrist.toPoint
  let rightElbowAngle :=
    calculateAngle M rightShoulder.toPoint rightElbow.toPoint rightWrist.toPoint
  let avgElbowAngle := (leftElbowAngle + rightElbowAngle) / 2
  let leftShoulderAngle := calculateAngle M leftElbow.toPoint leftShoulder.toPoint leftHip.toPoint
  let rightShoulderAngle :=
    calculateAngle M rightElbow.toPoint rightShoulder.toPoint rightHip.toPoint
  let avgShoulderAngle := (leftShoulderAngle + rightShoulderAngle) / 2
  let leftBackAngle := calculateAngle M leftShoulder.toPoint leftHip.toPoint leftKnee.toPoint
  let rightBackAngle := calculateAngle M rightShoulder.toPoint rightHip.toPoint rightKnee.toPoint
  let avgBackAngle := (leftBackAngle + rightBackAngle) / 2
  let leftKneeAngle := calculateAngle M leftHip.toPoint leftKnee.toPoint leftAnkle.toPoint
  let rightKneeAngle := calculateAngle M rightHip.toPoint rightKnee.toPoint rightAnkle.toPoint
  let avgKneeAngle := (leftKneeAngle + rightKneeAngle) / 2
  let leftBodyAlignment :=
    calculateAngle M leftShoulder.toPoint leftHip.toPoint leftAnkle.toPoint
  let rightBodyAlignment :=
    calculateAngle M rightShoulder.toPoint rightHip.toPoint rightAnkle.toPoint
  let avgBodyAlignment := (leftBodyAlignment + rightBodyAlignment) / 2
  { avgElbowAngle := avgElbowAngle, avgShoulderAngle := avgShoulderAngle,
    avgBackAngle := avgBackAngle, avgKneeAngle := avgKneeAngle,
    avgBodyAlignment := avgBodyAlignment }

/-- Lines 370-382 of `analyzePushup`: the elbow-depth check. -/
def pushupElbowCheck (avgElbowAngle : α) (f : Form) : Form :=
  if avgElbowAngle > 140 then f.push "Start push-up"
  else if avgElbowAngle ≥ 100 ∧ avgElbowAngle ≤ 140 then (f.push "Go lower").add 1
  else if avgElbowAngle ≥ 80 ∧ avgElbowAngle < 100 then (f.push "Good depth").add 2
  else (f.push "Perfect depth").add 3

/-- Lines 384-395 of `analyzePushup`: the shoulder check. -/
def pushupShoulderCheck (avgShoulderAngle : α) (f : Form) : Form :=
  if avgShoulderAngle < 60 then f.push "⚠️ Shoulders too forward"
  else if avgShoulderAngle > 120 then f.push "⚠️ Shoulders too back"
  else if avgShoulderAngle ≥ 70 ∧ avgShoulderAngle ≤ 100 then
    (f.push "✓ Good shoulder position").add 2
  else f.add 1

/-- Lines 397-406 of `analyzePushup`: the back-straightness check. -/
def pushupBackCheck (avgBackAngle : α) (f : Form) : Form :=
  if avgBackAngle < 160 then f.push "⚠️ Hips sagging"
  else if avgBackAngle > 200 then f.push "⚠️ Hips too high"
  else (f.push "✓ Straight back").add 2

/-- Lines 408-417 of `analyzePushup`: the knee check. -/
def pushupKneeCheck (avgKneeAngle : α) (f : Form) : Form :=
  if avgKneeAngle < 160 then f.push "⚠️ Knees bent"
  else if avgKneeAngle ≥ 160 ∧ avgKneeAngle ≤ 200 then (f.push "✓ Straight legs").add 2
  else f.add 1

/-- Lines 419-422 of `analyzePushup`: the body-alignment check. -/
def pushupAlignmentCheck (avgBodyAlignment : α) (f : Form) : Form :=
  if avgBodyAlignment ≥ 165 ∧ avgBodyAlignment ≤ 195 then f.add 1 else f

/-- Lines 367-422 of `analyzePushup`: the issues and the score, accumulated check
by check from an empty list and 0. -/
def pushupForm (m : PushupMetrics α) : Form :=
  let f : Form := { formIssues := [], formScore := 0 }
  let f := pushupElbowCheck m.avgElbowAngle f
  let f := pushupShoulderCheck m.avgShoulderAngle f
  let f := pushupBackCheck m.avgBackAngle f
  let f := pushupKneeCheck m.avgKneeAngle f
  pushupAlignmentCheck m.avgBodyAlignment f

/-- Lines 424-436 of `analyzePushup`: the text and the class given to
`feedbackElement`. -/
def pushupFeedback (m : PushupMetrics α) (f : Form) : String × String :=
  if m.avgElbowAngle > 140 then ("Start Push-up", "start")
  else if f.formScore ≥ 9 then ("🏆 Perfect Form!", "good")
  else (if f.formIssues.length > 0 then join " • " f.formIssues else "Keep going!", "lower")

/-- Lines 438-446 of `analyzePushup`: the lines handed to `displayMetrics`. -/
def pushupMetricsToDisplay (M : JSMath α) (m : PushupMetrics α) (f : Form) : List String :=
  [ "Elbow: " ++ M.toFixed m.avgElbowAngle 0 ++ "°",
    "Shoulder: " ++ M.toFixed m.avgShoulderAngle 0 ++ "°",
    "Back: " ++ M.toFixed m.avgBackAngle 0 ++ "°",
    "Knee: " ++ M.toFixed m.avgKneeAngle 0 ++ "°",
    "Body: " ++ M.toFixed m.avgBodyAlignment 0 ++ "°",
    "Score: " ++ toString f.formScore ++ "/10" ]

/-- The body of `analyzePushup`: `none` when the confidence gate fails and the
function does nothing, otherwise what it computes and shows. -/
def pushupAssessment (M : JSMath α) (keypoints : Frame α) : Option Assessment :=
  if pushupGate keypoints then
    let m := pushupMetrics M keypoints
    let f := pushupForm m
    some { formIssues := f.formIssues, formScore := f.formScore,
           textContent := (pushupFeedback m f).1, className := (pushupFeedback m f).2,
           metricsToDisplay := pushupMetricsToDisplay M m f }
  else none

/-- The function `analyzePushup(keypoints)` of `src/app.js`, as a transformer of
the page. -/
def analyzePushup (M : JSMath α) (keypoints : Frame α) (d : Display) : Display :=
  d.update (pushupAssessment M keypoints)

/-- The 8 landmarks the squat analyzer requires, as the specification lists
them: left and right hip, knee, ankle and shoulder. -/
def squatRequired : List (Fin 17) :=
  [KEYPOINTS.LEFT_HIP, KEYPOINTS.RIGHT_HIP, KEYPOINTS.LEFT_KNEE, KEYPOINTS.RIGHT_KNEE,
   KEYPOINTS.LEFT_ANKLE, KEYPOINTS.RIGHT_ANKLE, KEYPOINTS.LEFT_SHOULDER,
   KEYPOINTS.RIGHT_SHOULDER]

/-- The 12 landmarks the push-up analyzer requires, as the specification lists
them: left and right shoulder, elbow, wrist, hip, knee and ankle. -/
def pushupRequired : List (Fin 17) :=
  [KEYPOINTS.LEFT_SHOULDER, KEYPOINTS.RIGHT_SHOULDER, KEYPOINTS.LEFT_ELBOW,
   KEYPOINTS.RIGHT_ELBOW, KEYPOINTS.LEFT_WRIST, KEYPOINTS.RIGHT_WRIST,
   KEYPOINTS.LEFT_HIP, KEYPOINTS.RIGHT_HIP, KEYPOINTS.LEFT_KNEE, KEYPOINTS.RIGHT_KNEE,
   KEYPOINTS.LEFT_ANKLE, KEYPOINTS.RIGHT_ANKLE]

/-- A frame with every landmark at the origin and the given scores. -/
def frameOfScores (score : Fin 17 → α) : Frame α :=
  fun i => { x := 0, y := 0, score := score i }

/-! ### The scoring tables of the specification

Second definitions, written from the tables of the specification and not from
the source, to which `squatForm` and `pushupForm` are compared. -/

/-- The mark the code puts before a warning. -/
def warning (text : String) : String := "⚠️ " ++ text

/-- The mark the code puts before a positive remark. -/
def positive (text : String) : String := "✓ " ++ text

namespace SquatSpec

/-- Left/right average of angle(hip, knee, ankle). -/
def K (M : JSMath α) (kps : Frame α) : α :=
  (calculateAngle M (kps KEYPOINTS.LEFT_HIP).toPoint (kps KEYPOINTS.LEFT_KNEE).toPoint
      (kps KEYPOINTS.LEFT_ANKLE).toPoint +
    calculateAngle M (kps KEYPOINTS.RIGHT_HIP).toPoint (kps KEYPOINTS.RIGHT_KNEE).toPoint
      (kps KEYPOINTS.RIGHT_ANKLE).toPoint) / 2

/-- Left/right average of angle(shoulder, hip, knee). -/
def H (M : JSMath α) (kps : Frame α) : α :=
  (calculateAngle M (kps KEYPOINTS.LEFT_SHOULDER).toPoint (kps KEYPOINTS.LEFT_HIP).toPoint
      (kps KEYPOINTS.LEFT_KNEE).toPoint +
    calculateAngle M (kps KEYPOINTS.RIGHT_SHOULDER).toPoint (kps KEYPOINTS.RIGHT_HIP).toPoint
      (kps KEYPOINTS.RIGHT_KNEE).toPoint) / 2

/-- Left/right average of angle(knee, ankle, ankle + (0, 100)). -/
def A (M : JSMath α) (kps : Frame α) : α :=
  (calculateAngle M (kps KEYPOINTS.LEFT_KNEE).toPoint (kps KEYPOINTS.LEFT_ANKLE).toPoint
      ⟨(kps KEYPOINTS.LEFT_ANKLE).x + 0, (kps KEYPOINTS.LEFT_ANKLE).y + 100⟩ +
    calculateAngle M (kps KEYPOINTS.RIGHT_KNEE).toPoint (kps KEYPOINTS.RIGHT_ANKLE).toPoint
      ⟨(kps KEYPOINTS.RIGHT_ANKLE).x + 0, (kps KEYPOINTS.RIGHT_ANKLE).y + 100⟩) / 2

/-- The midpoint of two landmarks. -/
def mid (p q : Keypoint α) : Point α := ⟨(p.x + q.x) / 2, (p.y + q.y) / 2⟩

/-- Back lean: `|atan2(avgShoulder.x - avgHip.x, avgHip.y - avgShoulder.y)|` in
degrees, of the shoulder and hip midpoints. -/
def B (M : JSMath α) (kps : Frame α) : α :=
  |M.atan2
      ((mid (kps KEYPOINTS.LEFT_SHOULDER) (kps KEYPOINTS.RIGHT_SHOULDER)).x -
        (mid (kps KEYPOINTS.LEFT_HIP) (kps KEYPOINTS.RIGHT_HIP)).x)
      ((mid (kps KEYPOINTS.LEFT_HIP) (kps KEYPOINTS.RIGHT_HIP)).y -
        (mid (kps KEYPOINTS.LEFT_SHOULDER) (kps KEYPOINTS.RIGHT_SHOULDER)).y) * 180 / M.PI|

/-- Knee points: 0 if `K > 160`, 1 if `90 ≤ K ≤ 160`, 3 if `K < 90`. -/
def kneePts (K : α) : Nat := if K < 90 then 3 else if K ≤ 160 then 1 else 0

/-- Knee issue: Start squatting, Go lower or Great depth. -/
def kneeIssue (K : α) : List String :=
  if K < 90 then ["Great depth"] else if K ≤ 160 then ["Go lower"] else ["Start squatting"]

/-- Hip points: 2 if `45 ≤ H ≤ 100`, else 0. -/
def hipPts (H : α) : Nat := if 45 ≤ H ∧ H ≤ 100 then 2 else 0

/-- Hip issue: Hips too low if `H < 45`, Hinge at hips more if `H > 100`. -/
def hipIssue (H : α) : List String :=
  if H < 45 then [warning "Hips too low"]
  else if H > 100 then [warning "Hinge at hips more"] else []

/-- Back points: 0 if `B > 45`, 2 if `B < 10`, 1 if `10 ≤ B ≤ 45`. -/
def backPts (B : α) : Nat := if B > 45 then 0 else if B < 10 then 2 else 1

/-- Back issue: Keep chest up above 45, Good back position below 10. -/
def backIssue (B : α) : List String :=
  if B > 45 then [warning "Keep chest up"]
  else if B < 10 then [positive "Good back position"] else []

/-- Ankle points: 1 if `70 ≤ A ≤ 110`, else 0. -/
def anklePts (A : α) : Nat := if 70 ≤ A ∧ A ≤ 110 then 1 else 0

/-- Ankle issue: Heels lifting if `A < 70`, Lean Forward if `A > 110`. -/
def ankleIssue (A : α) : List String :=
  if A < 70 then [warning "Heels lifting"]
  else if A > 110 then [warning "Lean Forward"] else []

/-- Knee tracking is good: there is a result and its `isGood` is true. -/
def trackingGood (kt : Option (KneeTracking α)) : Bool :=
  match kt with
  | some t => t.isGood
  | none => false

/-- Tracking points: 2 if knee tracking is good, else 0. -/
def trackPts (kt : Option (KneeTracking α)) : Nat := if trackingGood kt then 2 else 0

/-- Tracking issue: the issue of the knee-tracking result when it is not good. -/
def trackIssue (kt : Option (KneeTracking α)) : List String :=
  match kt with
  | some t => if t.isGood then [] else [t.issue]
  | none => []

end SquatSpec

namespace PushupSpec

/-- Left/right average of angle(shoulder, elbow, wrist). -/
def E (M : JSMath α) (kps : Frame α) : α :=
  (calculateAngle M (kps KEYPOINTS.LEFT_SHOULDER).toPoint (kps KEYPOINTS.LEFT_ELBOW).toPoint
      (kps KEYPOINTS.LEFT_WRIST).toPoint +
    calculateAngle M (kps KEYPOINTS.RIGHT_SHOULDER).toPoint (kps KEYPOINTS.RIGHT_ELBOW).toPoint
      (kps KEYPOINTS.RIGHT_WRIST).toPoint) / 2

/-- Left/right average of angle(elbow, shoulder, hip). -/
def S (M : JSMath α) (kps : Frame α) : α :=
  (calculateAngle M (kps KEYPOINTS.LEFT_ELBOW).toPoint (kps KEYPOINTS.LEFT_SHOULDER).toPoint
      (kps KEYPOINTS.LEFT_HIP).toPoint +
    calculateAngle M (kps KEYPOINTS.RIGHT_ELBOW).toPoint (kps KEYPOINTS.RIGHT_SHOULDER).toPoint
      (kps KEYPOINTS.RIGHT_HIP).toPoint) / 2

/-- Left/right average of angle(shoulder, hip, knee). -/
def Bk (M : JSMath α) (kps : Frame α) : α :=
  (calculateAngle M (kps KEYPOINTS.LEFT_SHOULDER).toPoint (kps KEYPOINTS.LEFT_HIP).toPoint
      (kps KEYPOINTS.LEFT_KNEE).toPoint +
    calculateAngle M (kps KEYPOINTS.RIGHT_SHOULDER).toPoint (kps KEYPOINTS.RIGHT_HIP).toPoint
      (kps KEYPOINTS.RIGHT_KNEE).toPoint) / 2

/-- Left/right average of angle(hip, knee, ankle). -/
def K (M : JSMath α) (kps : Frame α) : α :=
  (calculateAngle M (kps KEYPOINTS.LEFT_HIP).toPoint (kps KEYPOINTS.LEFT_KNEE).toPoint
      (kps KEYPOINTS.LEFT_ANKLE).toPoint +
    calculateAngle M (kps KEYPOINTS.RIGHT_HIP).toPoint (kps KEYPOINTS.RIGHT_KNEE).toPoint
      (kps KEYPOINTS.RIGHT_ANKLE).toPoint) / 2

/-- Left/right average of angle(shoulder, hip, ankle). -/
def Al (M : JSMath α) (kps : Frame α) : α :=
  (calculateAngle M (kps KEYPOINTS.LEFT_SHOULDER).toPoint (kps KEYPOINTS.LEFT_HIP).toPoint
      (kps KEYPOINTS.LEFT_ANKLE).toPoint +
    calculateAngle M (kps KEYPOINTS.RIGHT_SHOULDER).toPoint (kps KEYPOINTS.RIGHT_HIP).toPoint
      (kps KEYPOINTS.RIGHT_ANKLE).toPoint) / 2

/-- Elbow points: 0 if `E > 140`, 1 if `100 ≤ E ≤ 140`, 2 if `80 ≤ E < 100`, 3 if
`E < 80`. -/
def elbowPts (E : α) : Nat :=
  if E < 80 then 3 else if E < 100 then 2 else if E ≤ 140 then 1 else 0

/-- Elbow issue: Start push-up, Go lower, Good depth or Perfect depth. -/
def elbowIssue (E : α) : List String :=
  if E < 80 then ["Perfect depth"] else if E < 100 then ["Good depth"]
  else if E ≤ 140 then ["Go lower"] else ["Start push-up"]

/-- Shoulder points: 0 if `S < 60` or `S > 120`, 2 if `70 ≤ S ≤ 100`, 1
otherwise. -/
def shoulderPts (S : α) : Nat :=
  if S < 60 ∨ S > 120 then 0 else if 70 ≤ S ∧ S ≤ 100 then 2 else 1

/-- Shoulder issue: too forward below 60, too back above 120, good in
`[70, 100]`, none in between. -/
def shoulderIssue (S : α) : List String :=
  if S < 60 then [warning "Shoulders too forward"]
  else if S > 120 then [warning "Shoulders too back"]
  else if 70 ≤ S ∧ S ≤ 100 then [positive "Good shoulder position"] else []

/-- Back points: 2 if `160 ≤ Bk ≤ 200`, else 0. -/
def backPts (Bk : α) : Nat := if 160 ≤ Bk ∧ Bk ≤ 200 then 2 else 0

/-- Back issue: Hips sagging below 160, Hips too high above 200, else Straight
back. -/
def backIssue (Bk : α) : List String :=
  if Bk < 160 then [warning "Hips sagging"]
  else if Bk > 200 then [warning "Hips too high"] else [positive "Straight back"]

/-- Knee points: 0 if `K < 160`, 2 if `160 ≤ K ≤ 200`, 1 if `K > 200`. -/
def kneePts (K : α) : Nat := if K < 160 then 0 else if K ≤ 200 then 2 else 1

/-- Knee issue: Knees bent below 160, Straight legs in `[160, 200]`, none
above. -/
def kneeIssue (K : α) : List String :=
  if K < 160 then [warning "Knees bent"]
  else if K ≤ 200 then [positive "Straight legs"] else []

/-- Alignment points: 1 if `165 ≤ Al ≤ 195`, else 0 (no issue text). -/
def alignPts (Al : α) : Nat := if 165 ≤ Al ∧ Al ≤ 195 then 1 else 0

end PushupSpec

/-- A frame with every score 1 and every landmark at the origin, except the
right knee at `(kneeGap, 0)` and the right hip at `(hipGap, 0)`. -/
def stanceFrame (kneeGap hipGap : α) : Frame α :=
  fun i =>
    if i = KEYPOINTS.RIGHT_KNEE then { x := kneeGap, y := 0, score := 1 }
    else if i = KEYPOINTS.RIGHT_HIP then { x := hipGap, y := 0, score := 1 }
    else { x := 0, y := 0, score := 1 }

/-- A frame with every score 1 and every landmark at the origin, except the
right knee at `(6, 9)` and the right hip at `(4, 6)`: the knees are exactly 1.5
times as far apart as the hips. -/
def slantedStanceFrame : Frame α :=
  fun i =>
    if i = KEYPOINTS.RIGHT_KNEE then { x := 6, y := 9, score := 1 }
    else if i = KEYPOINTS.RIGHT_HIP then { x := 4, y := 6, score := 1 }
    else { x := 0, y := 0, score := 1 }

/-- A frame with every score 1 and the given positions. -/
def frameOfPoints (points : Fin 17 → Point α) : Frame α :=
  fun i => { toPoint := points i, score := 1 }

/-- A person standing upright with the arms hanging straight, seen from the
front (image coordinates, `y` grows downwards). -/
def standingFrame : Frame α :=
  frameOfPoints fun i =>
    match i.val with
    | 5 => ⟨0, 0⟩
    | 6 => ⟨2, 0⟩
    | 7 => ⟨-1, 2⟩
    | 8 => ⟨3, 2⟩
    | 9 => ⟨-2, 4⟩
    | 10 => ⟨4, 4⟩
    | 11 => ⟨0, 4⟩
    | 12 => ⟨2, 4⟩
    | 13 => ⟨0, 7⟩
    | 14 => ⟨2, 7⟩
    | 15 => ⟨0, 10⟩
    | 16 => ⟨2, 10⟩
    | _ => ⟨1, -1⟩

/-- A frame with upright torso, thighs at 45 degrees, and level shins: the knee
and hip angles are 45, the ankle angle is 90 and the back lean is 0. -/
def deepSquatFrame : Frame α :=
  frameOfPoints fun i =>
    match i.val with
    | 5 => ⟨0, -4⟩
    | 6 => ⟨2, -4⟩
    | 11 => ⟨0, 0⟩
    | 12 => ⟨2, 0⟩
    | 13 => ⟨1, -1⟩
    | 14 => ⟨3, -1⟩
    | 15 => ⟨-2, -1⟩
    | 16 => ⟨0, -1⟩
    | _ => ⟨1, -5⟩

/-- A push-up seen from the side, both sides of the body at the same positions:
body in one line, upper arms vertical, forearms level. -/
def plankFrame : Frame α :=
  frameOfPoints fun i =>
    match i.val with
    | 5 => ⟨0, 0⟩
    | 6 => ⟨0, 0⟩
    | 7 => ⟨0, 2⟩
    | 8 => ⟨0, 2⟩
    | 9 => ⟨2, 2⟩
    | 10 => ⟨2, 2⟩
    | 11 => ⟨4, 0⟩
    | 12 => ⟨4, 0⟩
    | 13 => ⟨7, 0⟩
    | 14 => ⟨7, 0⟩
    | 15 => ⟨10, 0⟩
    | 16 => ⟨10, 0⟩
    | _ => ⟨-1, 0⟩

/-- A good knee-tracking result with ratio 1, as `analyzeKneeTracking` returns
it. -/
def goodKneeTracking : KneeTracking α :=
  { issue := "✓ Good knee tracking", severity := "none", ratio := 1, isGood := true }

/-- A squat with upright torso, thighs at 45 degrees and vertical shins (each
knee straight above its ankle): the knee and hip angles are 45, the back lean
is 0 and the ankle angle is 180. -/
def uprightShinFrame : Frame α :=
  frameOfPoints fun i =>
    match i.val with
    | 5 => ⟨0, -4⟩
    | 6 => ⟨2, -4⟩
    | 11 => ⟨0, 0⟩
    | 12 => ⟨2, 0⟩
    | 13 => ⟨1, -1⟩
    | 14 => ⟨3, -1⟩
    | 15 => ⟨1, 2⟩
    | 16 => ⟨3, 2⟩
    | _ => ⟨1, -5⟩

/-- A half squat with upright torso, thighs at 45 degrees and level shins in
front of the knees: the knee angle is 135, the hip angle 45, the back lean 0 and
the ankle angle 90. -/
def halfSquatFrame : Frame α :=
  frameOfPoints fun i =>
    match i.val with
    | 5 => ⟨0, -4⟩
    | 6 => ⟨2, -4⟩
    | 11 => ⟨0, 0⟩
    | 12 => ⟨2, 0⟩
    | 13 => ⟨1, -1⟩
    | 14 => ⟨3, -1⟩
    | 15 => ⟨4, -1⟩
    | 16 => ⟨6, -1⟩
    | _ => ⟨1, -5⟩

/-- The push-up of `plankFrame` with the knees bent at a right angle: the lower
legs point straight down from the knees. -/
def bentKneePlankFrame : Frame α :=
  frameOfPoints fun i =>
    match i.val with
    | 5 => ⟨0, 0⟩
    | 6 => ⟨0, 0⟩
    | 7 => ⟨0, 2⟩
    | 8 => ⟨0, 2⟩
    | 9 => ⟨2, 2⟩
    | 10 => ⟨2, 2⟩
    | 11 => ⟨4, 0⟩
    | 12 => ⟨4, 0⟩
    | 13 => ⟨7, 0⟩
    | 14 => ⟨7, 0⟩
    | 15 => ⟨7, 3⟩
    | 16 => ⟨7, 3⟩
    | _ => ⟨-1, 0⟩

/-- The landmark on the other side of the body: the indices 5 and 6, 7 and 8, 9
and 10, 11 and 12, 13 and 14, 15 and 16 are exchanged. -/
def mirror (i : Fin 17) : Fin 17 :=
  match i with
  | 5 => 6
  | 6 => 5
  | 7 => 8
  | 8 => 7
  | 9 => 10
  | 10 => 9
  | 11 => 12
  | 12 => 11
  | 13 => 14
  | 14 => 13
  | 15 => 16
  | 16 => 15
  | j => j

/-- The frame with each left keypoint exchanged with its right counterpart. -/
def swapSides (kps : Frame α) : Frame α := fun i => kps (mirror i)

end Source

namespace KneeSpec

/-- The 4 landmarks knee tracking requires: left and right knee and hip. -/
def required : List (Fin 17) :=
  [KEYPOINTS.LEFT_KNEE, KEYPOINTS.RIGHT_KNEE, KEYPOINTS.LEFT_HIP, KEYPOINTS.RIGHT_HIP]

/-- The Euclidean distance between two landmarks. -/
noncomputable def distance (p q : Keypoint ℝ) : ℝ :=
  Real.sqrt ((q.x - p.x) ^ 2 + (q.y - p.y) ^ 2)

/-- The distance between the knees divided by the distance between the hips. -/
noncomputable def ratio (kps : Frame ℝ) : ℝ :=
  distance (kps KEYPOINTS.LEFT_KNEE) (kps KEYPOINTS.RIGHT_KNEE) /
    distance (kps KEYPOINTS.LEFT_HIP) (kps KEYPOINTS.RIGHT_HIP)

end KneeSpec

/-! ### The frame pipeline driver -/

section Driver

variable {α : Type} [LinearOrderedField α] [FloorRing α]

/-- The constant `TARGET_FPS`. -/
def TARGET_FPS : α := 30

/-- The constant `FRAME_INTERVAL`, in milliseconds: the quotient `1000 / TARGET_FPS`
as the runtime rounds it. -/
def FRAME_INTERVAL (M : JSMath α) : α := M.round (1000 / TARGET_FPS)

/-- The operator `a % b` of JavaScript: what is left of `a` after taking out `b`
times the quotient `a / b` truncated towards zero.  It is not rounded: the
remainder of two numbers of the runtime is a number of the runtime. -/
def jsRem (a b : α) : α :=
  a - b * ((if 0 ≤ a / b then ⌊a / b⌋ else ⌈a / b⌉ : ℤ) : α)

/-- The globals `detectPose` reads and writes: whether `detector` has been
created, `currentExercise` (`none` is `null`), `lastFrameTime`, and the page. -/
structure PoseState (α : Type) where
  detector : Bool
  currentExercise : Option String
  lastFrameTime : α
  display : Display

/-- The globals when `initCamera` starts the loop: the detector exists and
`lastFrameTime` still has its initial value 0. -/
def initialState (currentExercise : Option String) (display : Display) : PoseState α :=
  { detector := true, currentExercise := currentExercise, lastFrameTime := 0,
    display := display }

/-- One call of `detectPose()` of `src/app.js` at the time `currentTime` read from
`performance.now()`; `poses` is what `detector.estimatePoses` resolves to when it
is called.  The result is the new globals and whether the estimator was called.
The two subtractions are rounded by `M.round`.  Clearing the canvas erases the metrics drawn before; the drawing of the video
frame and of the skeleton is not modelled. -/
def detectPose (M : JSMath α) (s : PoseState α) (currentTime : α) (poses : List (Frame α)) :
    PoseState α × Bool :=
  if s.detector = false then (s, false)
  else
    let elapsed := M.round (currentTime - s.lastFrameTime)
    if elapsed < FRAME_INTERVAL M then (s, false)
    else
      let lastFrameTime := M.round (currentTime - jsRem elapsed (FRAME_INTERVAL M))
      let display : Display := { s.display with metrics := [] }
      let display :=
        match poses with
        | pose :: _ =>
          let keypoints := pose
          if s.currentExercise = some "squat" then analyzeSquat M keypoints display
          else if s.currentExercise = some "pushup" then analyzePushup M keypoints display
          else display
        | [] => { display with textContent := "No pose detected - step back", className := "" }
      ({ s with lastFrameTime := lastFrameTime, display := display }, true)

/-- One callback of a run: the call of `detectPose` at the time `input.1` with the
estimator answering `input.2`, and, when the estimator was called, the callback
time and the `lastFrameTime` it set added to the record of invocations. -/
def runStep (M : JSMath α) (acc : PoseState α × List (α × α)) (input : α × List (Frame α)) :
    PoseState α × List (α × α) :=
  let r := detectPose M acc.1 input.1 input.2
  (r.1, if r.2 = true then acc.2 ++ [(input.1, r.1.lastFrameTime)] else acc.2)

/-- A run of the loop that `requestAnimationFrame(detectPose)` drives: the
callbacks in order, each with its time and the estimator's answer.  The result
is the final globals and the record of the estimator's invocations. -/
def run (M : JSMath α) (s : PoseState α) (inputs : List (α × List (Frame α))) :
    PoseState α × List (α × α) :=
  inputs.foldl (runStep M) (s, [])

/-- The schedule of `n` callbacks at the times `d, 2d, ..., nd`, the estimator
answering `poses k` at the callback number `k`. -/
def fixedStepSchedule (d : α) (poses : Nat → List (Frame α)) (n : Nat) :
    List (α × List (Frame α)) :=
  (List.range n).map fun (k : Nat) => (((k : α) + 1) * d, poses k)

/-- The relation of two successive estimator invocations `p` and `q`, each a
callback time with the `lastFrameTime` it set: at the callback of `q` the elapsed
time that `detectPose` computes since the `lastFrameTime` set by `p` is at least
`FRAME_INTERVAL`. -/
def PhaseSeparated (M : JSMath α) (p q : α × α) : Prop :=
  FRAME_INTERVAL M ≤ M.round (q.1 - p.2)

end Driver

/-! ## Theorems -/

theorem atan2_eq_arg_of_pos (y x : ℝ) (hx : 0 < x) :
    Real.arctan (y / x) = Complex.arg ⟨x, y⟩ := by
  have h := (Complex.abs_arg_lt_pi_div_two_iff (z := (⟨x, y⟩ : ℂ))).mpr (Or.inl hx)
  rw [abs_lt] at h
  have ht := Complex.tan_arg (⟨x, y⟩ : ℂ)
  simp only at ht
  rw [← ht, Real.arctan_tan h.1 h.2]

/-- The model of `Math.atan2` is the argument of the complex number `x + y i`. -/
theorem atan2_eq_arg (y x : ℝ) : atan2 y x = Complex.arg ⟨x, y⟩ := by
  unfold atan2
  rcases lt_trichotomy x 0 with hx | hx | hx
  · have hx2 : ¬ 0 < x := not_lt.mpr hx.le
    have hneg : Real.arctan (y / x) = Complex.arg (-(⟨x, y⟩ : ℂ)) := by
      have := atan2_eq_arg_of_pos (-y) (-x) (neg_pos.mpr hx)
      rw [neg_div_neg_eq] at this
      rw [this]
      congr 1
    rw [if_neg hx2, if_pos hx]
    rcases lt_trichotomy y 0 with hy | hy | hy
    · rw [if_neg (not_le.mpr hy), hneg,
        Complex.arg_neg_eq_arg_add_pi_of_im_neg (x := (⟨x, y⟩ : ℂ)) hy]
      ring
    · subst hy
      have h1 : Complex.arg (⟨x, 0⟩ : ℂ) = Real.pi :=
        Complex.arg_eq_pi_iff.mpr ⟨hx, rfl⟩
      rw [if_pos le_rfl, h1, zero_div, Real.arctan_zero, zero_add]
    · rw [if_pos hy.le, hneg,
        Complex.arg_neg_eq_arg_sub_pi_of_im_pos (x := (⟨x, y⟩ : ℂ)) hy]
      ring
  · subst hx
    rw [if_neg (lt_irrefl _), if_neg (lt_irrefl _)]
    rcases lt_trichotomy y 0 with hy | hy | hy
    · rw [if_neg (not_lt.mpr hy.le), if_pos hy]
      exact (Complex.arg_eq_neg_pi_div_two_iff.mpr ⟨rfl, hy⟩).symm
    · subst hy
      rw [if_neg (lt_irrefl _), if_neg (lt_irrefl _)]
      exact Complex.arg_zero.symm
    · rw [if_pos hy]
      exact (Complex.arg_eq_pi_div_two_iff.mpr ⟨rfl, hy⟩).symm
  · rw [if_pos hx]
    exact atan2_eq_arg_of_pos y x hx

theorem atan2_le_pi (y x : ℝ) : atan2 y x ≤ Real.pi := by
  have hpi := Real.pi_pos
  have h1 := Real.arctan_lt_pi_div_two (y / x)
  unfold atan2
  split_ifs with hx hx2 hy hy2 hy3
  · linarith
  · have : y / x ≤ 0 := div_nonpos_of_nonneg_of_nonpos hy hx2.le
    have := Real.arctan_strictMono.monotone this
    rw [Real.arctan_zero] at this
    linarith
  · linarith
  · linarith
  · linarith
  · linarith

theorem neg_pi_lt_atan2 (y x : ℝ) : -Real.pi < atan2 y x := by
  have hpi := Real.pi_pos
  have h1 := Real.neg_pi_div_two_lt_arctan (y / x)
  unfold atan2
  split_ifs with hx hx2 hy hy2 hy3
  · linarith
  · linarith
  · have : 0 < y / x := div_pos_of_neg_of_neg (not_le.mp hy) hx2
    have := Real.arctan_strictMono this
    rw [Real.arctan_zero] at this
    linarith
  · linarith
  · linarith
  · linarith

theorem calculateAngle_bounds (a b c : Point ℝ) :
    0 ≤ calculateAngle realMath a b c ∧ calculateAngle realMath a b c ≤ 180 := by
  have hpi := Real.pi_pos
  have hc1 := atan2_le_pi (c.y - b.y) (c.x - b.x)
  have hc2 := neg_pi_lt_atan2 (c.y - b.y) (c.x - b.x)
  have ha1 := atan2_le_pi (a.y - b.y) (a.x - b.x)
  have ha2 := neg_pi_lt_atan2 (a.y - b.y) (a.x - b.x)
  simp only [calculateAngle, realMath]
  set r := atan2 (c.y - b.y) (c.x - b.x) - atan2 (a.y - b.y) (a.x - b.x) with hr
  have hlt : |r * 180 / Real.pi| < 360 := by
    rw [abs_lt]
    constructor
    · rw [lt_div_iff₀ hpi]; nlinarith
    · rw [div_lt_iff₀ hpi]; nlinarith
  have hnn : 0 ≤ |r * 180 / Real.pi| := abs_nonneg _
  split_ifs with h
  · constructor <;> linarith
  · exact ⟨hnn, not_lt.mp h⟩

/-- C1: for all points `a`, `b`, `c` with real coordinates `calculateAngle`
returns a value between 0 and 180, and that value is the absolute difference of
the two polar angles in degrees, replaced by 360 minus itself when it exceeds
180. -/
theorem calculateAngle_range (a b c : Point ℝ) :
    (0 ≤ calculateAngle realMath a b c ∧ calculateAngle realMath a b c ≤ 180) ∧
    calculateAngle realMath a b c =
      (if |(atan2 (c.y - b.y) (c.x - b.x) - atan2 (a.y - b.y) (a.x - b.x)) * 180 / Real.pi| > 180
       then 360 - |(atan2 (c.y - b.y) (c.x - b.x) - atan2 (a.y - b.y) (a.x - b.x)) * 180 / Real.pi|
       else |(atan2 (c.y - b.y) (c.x - b.x) - atan2 (a.y - b.y) (a.x - b.x)) * 180 / Real.pi|) :=
  ⟨calculateAngle_bounds a b c, rfl⟩

theorem atan2_mul_pos (k y x : ℝ) (hk : 0 < k) : atan2 (k * y) (k * x) = atan2 y x := by
  have hd : k * y / (k * x) = y / x := mul_div_mul_left y x hk.ne.symm
  have h1 : 0 < k * x ↔ 0 < x := by
    constructor
    · intro h; by_contra hx; nlinarith [mul_nonneg hk.le (neg_nonneg.mpr (not_lt.mp hx))]
    · intro h; exact mul_pos hk h
  have h2 : k * x < 0 ↔ x < 0 := by
    constructor
    · intro h; by_contra hx; nlinarith [mul_nonneg hk.le (not_lt.mp hx)]
    · intro h; nlinarith [mul_pos hk (neg_pos.mpr h)]
  have h3 : 0 < k * y ↔ 0 < y := by
    constructor
    · intro h; by_contra hy; nlinarith [mul_nonneg hk.le (neg_nonneg.mpr (not_lt.mp hy))]
    · intro h; exact mul_pos hk h
  have h4 : k * y < 0 ↔ y < 0 := by
    constructor
    · intro h; by_contra hy; nlinarith [mul_nonneg hk.le (not_lt.mp hy)]
    · intro h; nlinarith [mul_pos hk (neg_pos.mpr h)]
  have h5 : 0 ≤ k * y ↔ 0 ≤ y := by
    rw [← not_lt, ← not_lt, h4]
  unfold atan2
  simp only [hd, h1, h2, h3, h4, h5]

theorem atan2_neg_neg (y x : ℝ) (h : x ≠ 0 ∨ y ≠ 0) :
    |atan2 (-y) (-x) - atan2 y x| = Real.pi := by
  have hpi := Real.pi_pos
  have hd : -y / -x = y / x := neg_div_neg_eq y x
  unfold atan2
  rw [hd]
  rcases lt_trichotomy x 0 with hx | hx | hx
  · have e1 : ¬ (0 < x) := not_lt.mpr hx.le
    have e2 : 0 < -x := neg_pos.mpr hx
    by_cases hy : 0 ≤ y
    · simp only [e1, e2, hx, hy, if_true, if_false]
      rw [show Real.arctan (y / x) - (Real.arctan (y / x) + Real.pi) = -Real.pi by ring,
        abs_neg, abs_of_pos hpi]
    · simp only [e1, e2, hx, hy, if_true, if_false]
      rw [show Real.arctan (y / x) - (Real.arctan (y / x) - Real.pi) = Real.pi by ring,
        abs_of_pos hpi]
  · subst hx
    have hy0 : y ≠ 0 := by
      rcases h with h | h
      · exact absurd rfl h
      · exact h
    rcases lt_or_gt_of_ne hy0 with hy | hy
    · have e1 : ¬ (0 < y) := not_lt.mpr hy.le
      have e2 : 0 < -y := neg_pos.mpr hy
      simp only [neg_zero, lt_irrefl, e1, e2, hy, if_true, if_false]
      rw [show Real.pi / 2 - -(Real.pi / 2) = Real.pi by ring, abs_of_pos hpi]
    · have e1 : ¬ (y < 0) := not_lt.mpr hy.le
      have e2 : -y < 0 := neg_neg_of_pos hy
      have e3 : ¬ (0 < -y) := not_lt.mpr e2.le
      simp only [neg_zero, lt_irrefl, e1, e2, e3, hy, if_true, if_false]
      rw [show -(Real.pi / 2) - Real.pi / 2 = -Real.pi by ring, abs_neg, abs_of_pos hpi]
  · have e1 : ¬ (x < 0) := not_lt.mpr hx.le
    have e2 : -x < 0 := neg_neg_of_pos hx
    have e3 : ¬ (0 < -x) := not_lt.mpr e2.le
    by_cases hy : 0 < y
    · have e4 : ¬ (0 ≤ -y) := by
        intro h0; linarith
      simp only [e1, e2, e3, e4, hx, if_true, if_false]
      rw [show Real.arctan (y / x) - Real.pi - Real.arctan (y / x) = -Real.pi by ring,
        abs_neg, abs_of_pos hpi]
    · have e4 : 0 ≤ -y := by linarith
      simp only [e1, e2, e3, e4, hx, if_true, if_false]
      rw [show Real.arctan (y / x) + Real.pi - Real.arctan (y / x) = Real.pi by ring,
        abs_of_pos hpi]

theorem Point.sub_ne_zero_of_ne {a b : Point ℝ} (h : a ≠ b) :
    a.x - b.x ≠ 0 ∨ a.y - b.y ≠ 0 := by
  by_contra hc
  push_neg at hc
  apply h
  cases a; cases b
  simp only [Point.mk.injEq]
  simp only at hc
  exact ⟨by linarith [hc.1], by linarith [hc.2]⟩

theorem calculateAngle_of_neg_mul (a b c : Point ℝ) (k : ℝ) (hab : a ≠ b) (hk : k < 0)
    (hx : c.x - b.x = k * (a.x - b.x)) (hy : c.y - b.y = k * (a.y - b.y)) :
    calculateAngle realMath a b c = 180 := by
  have hpi := Real.pi_pos
  have hv := Point.sub_ne_zero_of_ne hab
  have hk2 : 0 < -k := neg_pos.mpr hk
  have e : |atan2 (c.y - b.y) (c.x - b.x) - atan2 (a.y - b.y) (a.x - b.x)| = Real.pi := by
    rw [hx, hy, show k * (a.y - b.y) = -k * -(a.y - b.y) by ring,
      show k * (a.x - b.x) = -k * -(a.x - b.x) by ring, atan2_mul_pos _ _ _ hk2]
    exact atan2_neg_neg _ _ hv
  simp only [calculateAngle, realMath]
  rw [abs_div, abs_mul, e, abs_of_pos hpi, abs_of_pos (by norm_num : (0:ℝ) < 180),
    mul_comm, mul_div_assoc, div_self hpi.ne.symm]
  norm_num

theorem calculateAngle_of_pos_mul (a b c : Point ℝ) (k : ℝ) (hk : 0 < k)
    (hx : c.x - b.x = k * (a.x - b.x)) (hy : c.y - b.y = k * (a.y - b.y)) :
    calculateAngle realMath a b c = 0 := by
  simp only [calculateAngle, realMath]
  rw [hx, hy, atan2_mul_pos _ _ _ hk]
  norm_num

/-- C2: for points with `a ≠ b` and `c ≠ b`, when `c - b` is a negative multiple
of `a - b` (so `b` lies between `a` and `c`) `calculateAngle` returns exactly
180, and when `c - b` is a positive multiple of `a - b` (same ray from `b`) it
returns exactly 0. -/
theorem calculateAngle_collinear (a b c : Point ℝ) (hab : a ≠ b) (_hcb : c ≠ b) :
    ((∃ k : ℝ, k < 0 ∧ c.x - b.x = k * (a.x - b.x) ∧ c.y - b.y = k * (a.y - b.y)) →
      calculateAngle realMath a b c = 180) ∧
    ((∃ k : ℝ, 0 < k ∧ c.x - b.x = k * (a.x - b.x) ∧ c.y - b.y = k * (a.y - b.y)) →
      calculateAngle realMath a b c = 0) := by
  constructor
  · rintro ⟨k, hk, hx, hy⟩
    exact calculateAngle_of_neg_mul a b c k hab hk hx hy
  · rintro ⟨k, hk, hx, hy⟩
    exact calculateAngle_of_pos_mul a b c k hk hx hy

/-- Witness for C2: `(1,0)`, `(0,0)`, `(-1,0)` are collinear with the vertex between
them, and `(1,0)`, `(0,0)`, `(2,0)` lie on one ray. -/
theorem calculateAngle_collinear_witness :
    calculateAngle realMath ⟨1, 0⟩ ⟨0, 0⟩ ⟨-1, 0⟩ = 180 ∧
    calculateAngle realMath ⟨1, 0⟩ ⟨0, 0⟩ ⟨2, 0⟩ = 0 :=
  ⟨(calculateAngle_collinear ⟨1, 0⟩ ⟨0, 0⟩ ⟨-1, 0⟩
      (by simp [Point.mk.injEq]) (by simp [Point.mk.injEq])).1
      ⟨-1, by norm_num, by norm_num, by norm_num⟩,
   (calculateAngle_collinear ⟨1, 0⟩ ⟨0, 0⟩ ⟨2, 0⟩
      (by simp [Point.mk.injEq]) (by simp [Point.mk.injEq])).2
      ⟨2, by norm_num, by norm_num, by norm_num⟩⟩

section Gating

variable {α : Type} [LinearOrderedField α]

theorem frameOfPoints_score (points : Fin 17 → Point α) (i : Fin 17) :
    (frameOfPoints points i).score = 1 := rfl

theorem squatGate_iff (kps : Frame α) :
    squatGate kps ↔ ∀ i ∈ squatRequired, (kps i).score > 0.3 := by
  simp only [squatGate, squatRequired, List.forall_mem_cons, List.not_mem_nil,
    IsEmpty.forall_iff, implies_true, and_true]
  tauto

theorem pushupGate_iff (kps : Frame α) :
    pushupGate kps ↔ ∀ i ∈ pushupRequired, (kps i).score > 0.3 := by
  simp only [pushupGate, pushupRequired, List.forall_mem_cons, List.not_mem_nil,
    IsEmpty.forall_iff, implies_true, and_true]

theorem squatAssessment_of_gate (M : JSMath α) (kps : Frame α) (h : squatGate kps) :
    squatAssessment M kps = some
      { formIssues := (squatForm (squatMetrics M kps)).formIssues,
        formScore := (squatForm (squatMetrics M kps)).formScore,
        textContent := (squatFeedback (squatMetrics M kps) (squatForm (squatMetrics M kps))).1,
        className := (squatFeedback (squatMetrics M kps) (squatForm (squatMetrics M kps))).2,
        metricsToDisplay :=
          squatMetricsToDisplay M (squatMetrics M kps) (squatForm (squatMetrics M kps)) } := by
  unfold squatAssessment
  rw [if_pos h]

theorem pushupAssessment_of_gate (M : JSMath α) (kps : Frame α) (h : pushupGate kps) :
    pushupAssessment M kps = some
      { formIssues := (pushupForm (pushupMetrics M kps)).formIssues,
        formScore := (pushupForm (pushupMetrics M kps)).formScore,
        textContent :=
          (pushupFeedback (pushupMetrics M kps) (pushupForm (pushupMetrics M kps))).1,
        className :=
          (pushupFeedback (pushupMetrics M kps) (pushupForm (pushupMetrics M kps))).2,
        metricsToDisplay :=
          pushupMetricsToDisplay M (pushupMetrics M kps) (pushupForm (pushupMetrics M kps)) } := by
  unfold pushupAssessment
  rw [if_pos h]

/-- C3: when one of the 8 landmarks `analyzeSquat` requires has score at most 0.3
the function produces no assessment and leaves the page (feedback text, class,
metrics) as it was, and likewise `analyzePushup` for its 12 landmarks; when all
required scores exceed 0.3 an assessment is produced and shown. -/
theorem confidence_gating (M : JSMath α) (kps : Frame α) (d : Display) :
    ((∃ i ∈ squatRequired, (kps i).score ≤ 0.3) →
      squatAssessment M kps = none ∧ analyzeSquat M kps d = d) ∧
    ((∃ i ∈ pushupRequired, (kps i).score ≤ 0.3) →
      pushupAssessment M kps = none ∧ analyzePushup M kps d = d) ∧
    ((∀ i ∈ squatRequired, (kps i).score > 0.3) →
      ∃ r : Assessment, squatAssessment M kps = some r ∧
        analyzeSquat M kps d =
          { textContent := r.textContent, className := r.className,
            metrics := r.metricsToDisplay }) ∧
    ((∀ i ∈ pushupRequired, (kps i).score > 0.3) →
      ∃ r : Assessment, pushupAssessment M kps = some r ∧
        analyzePushup M kps d =
          { textContent := r.textContent, className := r.className,
            metrics := r.metricsToDisplay }) := by
  refine ⟨?_, ?_, ?_, ?_⟩
  · rintro ⟨i, hi, hs⟩
    have hg : ¬ squatGate kps := fun hg =>
      absurd ((squatGate_iff kps).mp hg i hi) (not_lt.mpr hs)
    have hn : squatAssessment M kps = none := by
      unfold squatAssessment
      rw [if_neg hg]
    exact ⟨hn, by rw [analyzeSquat, hn]; rfl⟩
  · rintro ⟨i, hi, hs⟩
    have hg : ¬ pushupGate kps := fun hg =>
      absurd ((pushupGate_iff kps).mp hg i hi) (not_lt.mpr hs)
    have hn : pushupAssessment M kps = none := by
      unfold pushupAssessment
      rw [if_neg hg]
    exact ⟨hn, by rw [analyzePushup, hn]; rfl⟩
  · intro h
    have hg := (squatGate_iff kps).mpr h
    exact ⟨_, squatAssessment_of_gate M kps hg, by
      rw [analyzeSquat, squatAssessment_of_gate M kps hg]; rfl⟩
  · intro h
    have hg := (pushupGate_iff kps).mpr h
    exact ⟨_, pushupAssessment_of_gate M kps hg, by
      rw [analyzePushup, pushupAssessment_of_gate M kps hg]; rfl⟩

/-- Witness for C3: a frame whose left knee has score 0.2 changes nothing on the
page under either analyzer, and the standing frame, with all scores 1, is
assessed by both. -/
theorem confidence_gating_witness :
    (analyzeSquat realMath
        (frameOfScores (fun i => if i = KEYPOINTS.LEFT_KNEE then 0.2 else 1))
        { textContent := "Ready!", className := "", metrics := [] } =
      { textContent := "Ready!", className := "", metrics := [] }) ∧
    (analyzePushup realMath
        (frameOfScores (fun i => if i = KEYPOINTS.LEFT_KNEE then 0.2 else 1))
        { textContent := "Ready!", className := "", metrics := [] } =
      { textContent := "Ready!", className := "", metrics := [] }) ∧
    (squatAssessment realMath (standingFrame : Frame ℝ)).isSome = true ∧
    (pushupAssessment realMath (standingFrame : Frame ℝ)).isSome = true := by
  refine ⟨?_, ?_, ?_, ?_⟩
  · exact ((confidence_gating realMath _ _).1
      ⟨KEYPOINTS.LEFT_KNEE, by simp [squatRequired], by norm_num [frameOfScores]⟩).2
  · exact ((confidence_gating realMath _ _).2.1
      ⟨KEYPOINTS.LEFT_KNEE, by simp [pushupRequired], by norm_num [frameOfScores]⟩).2
  · obtain ⟨r, hr, _⟩ := (confidence_gating realMath (standingFrame : Frame ℝ)
      { textContent := "", className := "", metrics := [] }).2.2.1
      (by intro i _; rw [standingFrame, frameOfPoints_score]; norm_num)
    rw [hr]; rfl
  · obtain ⟨r, hr, _⟩ := (confidence_gating realMath (standingFrame : Frame ℝ)
      { textContent := "", className := "", metrics := [] }).2.2.2
      (by intro i _; rw [standingFrame, frameOfPoints_score]; norm_num)
    rw [hr]; rfl

end Gating

theorem squatTrackingCheck_eq {β : Type} (kt : Option (KneeTracking β)) (f : Form) :
    squatTrackingCheck kt f =
      { formIssues := f.formIssues ++ SquatSpec.trackIssue kt,
        formScore := f.formScore + SquatSpec.trackPts kt } := by
  unfold squatTrackingCheck SquatSpec.trackIssue SquatSpec.trackPts SquatSpec.trackingGood
  rcases kt with _ | t
  · simp
  · by_cases hg : t.isGood <;> simp [hg, Form.push, Form.add]

section Scores

variable {α : Type} [LinearOrderedField α]

theorem Form.formScore_push (f : Form) (s : String) : (f.push s).formScore = f.formScore := rfl

theorem Form.formIssues_push (f : Form) (s : String) :
    (f.push s).formIssues = f.formIssues ++ [s] := rfl

theorem Form.formScore_add (f : Form) (n : Nat) : (f.add n).formScore = f.formScore + n := rfl

theorem Form.formIssues_add (f : Form) (n : Nat) : (f.add n).formIssues = f.formIssues := rfl

theorem squatKneeCheck_eq (K : α) (f : Form) :
    squatKneeCheck K f =
      { formIssues := f.formIssues ++ SquatSpec.kneeIssue K,
        formScore := f.formScore + SquatSpec.kneePts K } := by
  unfold squatKneeCheck SquatSpec.kneeIssue SquatSpec.kneePts
  by_cases h1 : K > 160
  · have h2 : ¬ K < 90 := by intro h; linarith
    have h3 : ¬ K ≤ 160 := not_le.mpr h1
    simp [h1, h2, h3, Form.push]
  · have h3 : K ≤ 160 := not_lt.mp h1
    by_cases h2 : K < 90
    · have h4 : ¬ (K ≥ 90 ∧ K ≤ 160) := fun h => absurd h2 (not_lt.mpr h.1)
      simp [h1, h2, h4, Form.push, Form.add]
    · have h4 : K ≥ 90 ∧ K ≤ 160 := ⟨not_lt.mp h2, h3⟩
      simp [h1, h2, h3, h4, Form.push, Form.add]

theorem squatHipCheck_eq (H : α) (f : Form) :
    squatHipCheck H f =
      { formIssues := f.formIssues ++ SquatSpec.hipIssue H,
        formScore := f.formScore + SquatSpec.hipPts H } := by
  unfold squatHipCheck SquatSpec.hipIssue SquatSpec.hipPts
  by_cases h1 : H < 45
  · have h2 : ¬ (45 ≤ H ∧ H ≤ 100) := fun h => absurd h1 (not_lt.mpr h.1)
    simp [h1, h2, Form.push, warning]
  · by_cases h3 : H > 100
    · have h2 : ¬ (45 ≤ H ∧ H ≤ 100) := fun h => absurd h3 (not_lt.mpr h.2)
      simp [h1, h2, h3, Form.push, warning]
    · have h2 : 45 ≤ H ∧ H ≤ 100 := ⟨not_lt.mp h1, not_lt.mp h3⟩
      simp [h1, h2, h3, Form.add]

theorem squatBackCheck_eq (B : α) (f : Form) :
    squatBackCheck B f =
      { formIssues := f.formIssues ++ SquatSpec.backIssue B,
        formScore := f.formScore + SquatSpec.backPts B } := by
  unfold squatBackCheck SquatSpec.backIssue SquatSpec.backPts
  split_ifs <;> simp [Form.push, Form.add, warning, positive]

theorem squatAnkleCheck_eq (A : α) (f : Form) :
    squatAnkleCheck A f =
      { formIssues := f.formIssues ++ SquatSpec.ankleIssue A,
        formScore := f.formScore + SquatSpec.anklePts A } := by
  unfold squatAnkleCheck SquatSpec.ankleIssue SquatSpec.anklePts
  by_cases h1 : A < 70
  · have h2 : ¬ (70 ≤ A ∧ A ≤ 110) := fun h => absurd h1 (not_lt.mpr h.1)
    simp [h1, h2, Form.push, warning]
  · by_cases h3 : A > 110
    · have h2 : ¬ (70 ≤ A ∧ A ≤ 110) := fun h => absurd h3 (not_lt.mpr h.2)
      simp [h1, h2, h3, Form.push, warning]
    · have h2 : 70 ≤ A ∧ A ≤ 110 := ⟨not_lt.mp h1, not_lt.mp h3⟩
      simp [h1, h2, h3, Form.add]

theorem squatForm_eq (m : SquatMetrics α) :
    squatForm m =
      { formIssues := SquatSpec.kneeIssue m.avgKneeAngle ++ SquatSpec.hipIssue m.avgHipAngle ++
          SquatSpec.backIssue m.backLeanAngle ++ SquatSpec.ankleIssue m.avgAnkleAngle ++
          SquatSpec.trackIssue m.kneeTracking,
        formScore := SquatSpec.kneePts m.avgKneeAngle + SquatSpec.hipPts m.avgHipAngle +
          SquatSpec.backPts m.backLeanAngle + SquatSpec.anklePts m.avgAnkleAngle +
          SquatSpec.trackPts m.kneeTracking } := by
  unfold squatForm
  simp only [squatKneeCheck_eq, squatHipCheck_eq, squatBackCheck_eq, squatAnkleCheck_eq,
    squatTrackingCheck_eq, List.nil_append, Nat.zero_add]

theorem squatForm_formScore_le (m : SquatMetrics α) : (squatForm m).formScore ≤ 10 := by
  rw [squatForm_eq]
  have h1 : SquatSpec.kneePts m.avgKneeAngle ≤ 3 := by
    unfold SquatSpec.kneePts; split_ifs <;> decide
  have h2 : SquatSpec.hipPts m.avgHipAngle ≤ 2 := by
    unfold SquatSpec.hipPts; split_ifs <;> decide
  have h3 : SquatSpec.backPts m.backLeanAngle ≤ 2 := by
    unfold SquatSpec.backPts; split_ifs <;> decide
  have h4 : SquatSpec.anklePts m.avgAnkleAngle ≤ 1 := by
    unfold SquatSpec.anklePts; split_ifs <;> decide
  have h5 : SquatSpec.trackPts m.kneeTracking ≤ 2 := by
    unfold SquatSpec.trackPts; split_ifs <;> decide
  show _ + _ + _ + _ + _ ≤ 10
  omega

theorem pushupElbowCheck_eq (E : α) (f : Form) :
    pushupElbowCheck E f =
      { formIssues := f.formIssues ++ PushupSpec.elbowIssue E,
        formScore := f.formScore + PushupSpec.elbowPts E } := by
  unfold pushupElbowCheck PushupSpec.elbowIssue PushupSpec.elbowPts
  by_cases h1 : E > 140
  · have h2 : ¬ E < 80 := by intro h; linarith
    have h3 : ¬ E < 100 := by intro h; linarith
    have h4 : ¬ E ≤ 140 := not_le.mpr h1
    simp [h1, h2, h3, h4, Form.push]
  · have h4 : E ≤ 140 := not_lt.mp h1
    by_cases h3 : E < 100
    · have h5 : ¬ (E ≥ 100 ∧ E ≤ 140) := fun h => absurd h3 (not_lt.mpr h.1)
      by_cases h2 : E < 80
      · have h6 : ¬ (E ≥ 80 ∧ E < 100) := fun h => absurd h2 (not_lt.mpr h.1)
        simp [h1, h2, h5, h6, Form.push, Form.add]
      · have h6 : E ≥ 80 ∧ E < 100 := ⟨not_lt.mp h2, h3⟩
        simp [h1, h2, h3, h5, h6, Form.push, Form.add]
    · have h5 : E ≥ 100 ∧ E ≤ 140 := ⟨not_lt.mp h3, h4⟩
      have h2 : ¬ E < 80 := by intro h; linarith [h5.1]
      simp [h1, h2, h3, h4, h5, Form.push, Form.add]

theorem pushupShoulderCheck_eq (S : α) (f : Form) :
    pushupShoulderCheck S f =
      { formIssues := f.formIssues ++ PushupSpec.shoulderIssue S,
        formScore := f.formScore + PushupSpec.shoulderPts S } := by
  unfold pushupShoulderCheck PushupSpec.shoulderIssue PushupSpec.shoulderPts
  by_cases h1 : S < 60
  · simp [h1, Form.push, warning]
  · by_cases h2 : S > 120
    · simp [h1, h2, Form.push, warning]
    · have h3 : ¬ (S < 60 ∨ S > 120) := by
        rintro (h | h)
        · exact h1 h
        · exact h2 h
      by_cases h4 : S ≥ 70 ∧ S ≤ 100
      · simp [h1, h2, h3, h4.1, h4.2, Form.push, Form.add, positive]
      · have h5 : ¬ (70 ≤ S ∧ S ≤ 100) := h4
        simp [h1, h2, h3, h4, h5, Form.add]

theorem pushupBackCheck_eq (Bk : α) (f : Form) :
    pushupBackCheck Bk f =
      { formIssues := f.formIssues ++ PushupSpec.backIssue Bk,
        formScore := f.formScore + PushupSpec.backPts Bk } := by
  unfold pushupBackCheck PushupSpec.backIssue PushupSpec.backPts
  by_cases h1 : Bk < 160
  · have h2 : ¬ (160 ≤ Bk ∧ Bk ≤ 200) := fun h => absurd h1 (not_lt.mpr h.1)
    simp [h1, h2, Form.push, warning]
  · by_cases h3 : Bk > 200
    · have h2 : ¬ (160 ≤ Bk ∧ Bk ≤ 200) := fun h => absurd h3 (not_lt.mpr h.2)
      simp [h1, h2, h3, Form.push, warning]
    · have h2 : 160 ≤ Bk ∧ Bk ≤ 200 := ⟨not_lt.mp h1, not_lt.mp h3⟩
      simp [h1, h2, h3, Form.push, Form.add, positive]

theorem pushupKneeCheck_eq (K : α) (f : Form) :
    pushupKneeCheck K f =
      { formIssues := f.formIssues ++ PushupSpec.kneeIssue K,
        formScore := f.formScore + PushupSpec.kneePts K } := by
  unfold pushupKneeCheck PushupSpec.kneeIssue PushupSpec.kneePts
  by_cases h1 : K < 160
  · simp [h1, Form.push, warning]
  · by_cases h3 : K ≤ 200
    · have h2 : K ≥ 160 ∧ K ≤ 200 := ⟨not_lt.mp h1, h3⟩
      simp [h1, h2, h3, Form.push, Form.add, positive]
    · have h2 : ¬ (K ≥ 160 ∧ K ≤ 200) := fun h => h3 h.2
      simp [h1, h2, h3, Form.add]

theorem pushupAlignmentCheck_eq (Al : α) (f : Form) :
    pushupAlignmentCheck Al f =
      { formIssues := f.formIssues, formScore := f.formScore + PushupSpec.alignPts Al } := by
  unfold pushupAlignmentCheck PushupSpec.alignPts
  by_cases h : Al ≥ 165 ∧ Al ≤ 195
  · have h2 : 165 ≤ Al ∧ Al ≤ 195 := h
    simp [h, h2, Form.add]
  · have h2 : ¬ (165 ≤ Al ∧ Al ≤ 195) := h
    simp [h, h2]

theorem pushupForm_eq (m : PushupMetrics α) :
    pushupForm m =
      { formIssues := PushupSpec.elbowIssue m.avgElbowAngle ++
          PushupSpec.shoulderIssue m.avgShoulderAngle ++ PushupSpec.backIssue m.avgBackAngle ++
          PushupSpec.kneeIssue m.avgKneeAngle,
        formScore := PushupSpec.elbowPts m.avgElbowAngle +
          PushupSpec.shoulderPts m.avgShoulderAngle + PushupSpec.backPts m.avgBackAngle +
          PushupSpec.kneePts m.avgKneeAngle + PushupSpec.alignPts m.avgBodyAlignment } := by
  unfold pushupForm
  simp only [pushupElbowCheck_eq, pushupShoulderCheck_eq, pushupBackCheck_eq,
    pushupKneeCheck_eq, pushupAlignmentCheck_eq, List.nil_append, Nat.zero_add]

theorem pushupForm_formScore_le (m : PushupMetrics α) : (pushupForm m).formScore ≤ 10 := by
  rw [pushupForm_eq]
  have h1 : PushupSpec.elbowPts m.avgElbowAngle ≤ 3 := by
    unfold PushupSpec.elbowPts; split_ifs <;> decide
  have h2 : PushupSpec.shoulderPts m.avgShoulderAngle ≤ 2 := by
    unfold PushupSpec.shoulderPts; split_ifs <;> decide
  have h3 : PushupSpec.backPts m.avgBackAngle ≤ 2 := by
    unfold PushupSpec.backPts; split_ifs <;> decide
  have h4 : PushupSpec.kneePts m.avgKneeAngle ≤ 2 := by
    unfold PushupSpec.kneePts; split_ifs <;> decide
  have h5 : PushupSpec.alignPts m.avgBodyAlignment ≤ 1 := by
    unfold PushupSpec.alignPts; split_ifs <;> decide
  show _ + _ + _ + _ + _ ≤ 10
  omega

/-- C4: for every frame whose required landmarks all have score above 0.3, the
form score computed by `analyzeSquat` is a natural number at most 10, and so is
the form score computed by `analyzePushup`. -/
theorem formScore_bounds (M : JSMath α) (kps : Frame α) :
    ((∀ i ∈ squatRequired, (kps i).score > 0.3) →
      ∃ r : Assessment, squatAssessment M kps = some r ∧ 0 ≤ r.formScore ∧ r.formScore ≤ 10) ∧
    ((∀ i ∈ pushupRequired, (kps i).score > 0.3) →
      ∃ r : Assessment, pushupAssessment M kps = some r ∧ 0 ≤ r.formScore ∧ r.formScore ≤ 10) := by
  constructor
  · intro h
    exact ⟨_, squatAssessment_of_gate M kps ((squatGate_iff kps).mpr h), Nat.zero_le _,
      squatForm_formScore_le _⟩
  · intro h
    exact ⟨_, pushupAssessment_of_gate M kps ((pushupGate_iff kps).mpr h), Nat.zero_le _,
      pushupForm_formScore_le _⟩

/-- Witness for C4: the standing frame, with all scores 1. -/
theorem formScore_bounds_witness :
    (∃ r : Assessment, squatAssessment realMath (standingFrame : Frame ℝ) = some r ∧
      0 ≤ r.formScore ∧ r.formScore ≤ 10) ∧
    (∃ r : Assessment, pushupAssessment realMath (standingFrame : Frame ℝ) = some r ∧
      0 ≤ r.formScore ∧ r.formScore ≤ 10) :=
  ⟨(formScore_bounds realMath (standingFrame : Frame ℝ)).1
      (by intro i _; rw [standingFrame, frameOfPoints_score]; norm_num),
   (formScore_bounds realMath (standingFrame : Frame ℝ)).2
      (by intro i _; rw [standingFrame, frameOfPoints_score]; norm_num)⟩

end Scores

section Binary64

variable {α : Type} [LinearOrderedField α] [FloorRing α]

theorem roundHalfEven_of_near (y : α) (n : ℤ) (h1 : (n : α) - 1 / 2 < y)
    (h2 : y < (n : α) + 1 / 2) : roundHalfEven y = n := by
  unfold roundHalfEven
  by_cases h : (n : α) ≤ y
  · have hf : ⌊y⌋ = n := by
      rw [Int.floor_eq_iff]
      exact ⟨h, by linarith⟩
    simp only [hf]
    rw [if_pos (by linarith)]
  · have h' := not_le.mp h
    have hf : ⌊y⌋ = n - 1 := by
      rw [Int.floor_eq_iff]
      push_cast
      exact ⟨by linarith, by linarith⟩
    simp only [hf]
    push_cast
    rw [if_neg (by linarith), if_pos (by linarith)]
    ring

theorem roundHalfEven_tie (y : α) (n : ℤ) (hn : n % 2 = 0)
    (h : y = (n : α) + 1 / 2 ∨ y = (n : α) - 1 / 2) : roundHalfEven y = n := by
  unfold roundHalfEven
  rcases h with h | h
  · have hf : ⌊y⌋ = n := by
      rw [Int.floor_eq_iff]
      exact ⟨by linarith, by linarith⟩
    simp only [hf]
    rw [if_neg (by linarith), if_neg (by linarith), if_pos hn]
  · have hf : ⌊y⌋ = n - 1 := by
      rw [Int.floor_eq_iff]
      push_cast
      exact ⟨by linarith, by linarith⟩
    simp only [hf]
    push_cast
    have hodd : ¬ (n - 1) % 2 = 0 := by omega
    rw [if_neg (by linarith), if_neg (by linarith), if_neg hodd]
    ring

theorem roundHalfEven_cases (y : α) :
    (roundHalfEven y = ⌊y⌋ ∧ y - ⌊y⌋ ≤ 1 / 2) ∨ (roundHalfEven y = ⌊y⌋ + 1 ∧ 1 / 2 ≤ y - ⌊y⌋) := by
  unfold roundHalfEven
  by_cases h1 : y - ⌊y⌋ < 1 / 2
  · left
    simp only [if_pos h1]
    exact ⟨trivial, h1.le⟩
  · by_cases h2 : 1 / 2 < y - ⌊y⌋
    · right
      simp only [if_neg h1, if_pos h2]
      exact ⟨trivial, h2.le⟩
    · have he : y - ⌊y⌋ = 1 / 2 := le_antisymm (not_lt.mp h2) (not_lt.mp h1)
      by_cases h3 : ⌊y⌋ % 2 = 0
      · left
        simp only [if_neg h1, if_neg h2, if_pos h3]
        exact ⟨trivial, he.le⟩
      · right
        simp only [if_neg h1, if_neg h2, if_neg h3]
        exact ⟨trivial, he.ge⟩

theorem roundHalfEven_error (y : α) : |(roundHalfEven y : α) - y| ≤ 1 / 2 := by
  have hf1 := Int.floor_le y
  have hf2 := Int.lt_floor_add_one y
  rw [abs_le]
  rcases roundHalfEven_cases y with ⟨h, hb⟩ | ⟨h, hb⟩
  · rw [h]; constructor <;> linarith
  · rw [h]; push_cast; constructor <;> linarith

theorem roundHalfEven_mono (a b : α) (hab : a ≤ b) : roundHalfEven a ≤ roundHalfEven b := by
  have hfl : ⌊a⌋ ≤ ⌊b⌋ := Int.floor_mono hab
  rcases lt_or_eq_of_le hfl with hlt | heq
  · have h1 : roundHalfEven a ≤ ⌊a⌋ + 1 := by
      rcases roundHalfEven_cases a with ⟨h, -⟩ | ⟨h, -⟩ <;> omega
    have h2 : ⌊b⌋ ≤ roundHalfEven b := by
      rcases roundHalfEven_cases b with ⟨h, -⟩ | ⟨h, -⟩ <;> omega
    omega
  · unfold roundHalfEven
    simp only [heq]
    by_cases hb1 : b - ⌊b⌋ < 1 / 2
    · have ha1 : a - ⌊b⌋ < 1 / 2 := by linarith
      rw [if_pos hb1, if_pos ha1]
    · rw [if_neg hb1]
      by_cases hb2 : 1 / 2 < b - ⌊b⌋
      · rw [if_pos hb2]
        split_ifs <;> omega
      · rw [if_neg hb2]
        have hbe : b - ⌊b⌋ = 1 / 2 := le_antisymm (not_lt.mp hb2) (not_lt.mp hb1)
        by_cases ha1 : a - ⌊b⌋ < 1 / 2
        · rw [if_pos ha1]
          split_ifs <;> omega
        · have ha2 : ¬ (1 / 2 < a - ⌊b⌋) := by
            intro h; linarith
          rw [if_neg ha1, if_neg ha2]

theorem roundHalfEven_intCast (n : ℤ) : roundHalfEven (n : α) = n :=
  roundHalfEven_of_near _ _ (by linarith) (by linarith)

theorem roundHalfEven_neg (y : α) : roundHalfEven (-y) = -roundHalfEven y := by
  have hf1 := Int.floor_le y
  have hf2 := Int.lt_floor_add_one y
  by_cases hint : y = ⌊y⌋
  · rw [hint, ← Int.cast_neg, roundHalfEven_intCast, roundHalfEven_intCast]
  · have hlt : (⌊y⌋ : α) < y := lt_of_le_of_ne hf1 (Ne.symm hint)
    have hfn : ⌊-y⌋ = -⌊y⌋ - 1 := by
      rw [Int.floor_eq_iff]
      push_cast
      constructor <;> linarith
    unfold roundHalfEven
    simp only [hfn]
    push_cast
    by_cases h1 : y - ⌊y⌋ < 1 / 2
    · rw [if_pos h1, if_neg (by linarith), if_pos (by linarith)]
      ring
    · rw [if_neg h1]
      by_cases h2 : 1 / 2 < y - ⌊y⌋
      · rw [if_pos h2, if_pos (by linarith)]
        ring
      · rw [if_neg h2]
        have he : y - ⌊y⌋ = 1 / 2 := le_antisymm (not_lt.mp h2) (not_lt.mp h1)
        rw [if_neg (by linarith), if_neg (by linarith)]
        by_cases h3 : ⌊y⌋ % 2 = 0
        · have h4 : ¬ (-⌊y⌋ - 1) % 2 = 0 := by omega
          rw [if_pos h3, if_neg h4]
          ring
        · have h4 : (-⌊y⌋ - 1) % 2 = 0 := by omega
          rw [if_neg h3, if_pos h4]
          ring

theorem log_two_eq (x : α) (k : ℤ) (h1 : (2 : α) ^ k ≤ x) (h2 : x < (2 : α) ^ (k + 1)) :
    Int.log 2 x = k := by
  have hx : 0 < x := lt_of_lt_of_le (zpow_pos (by norm_num) k) h1
  have a : k ≤ Int.log 2 x := by
    rw [← Int.zpow_le_iff_le_log (by norm_num) hx]
    exact_mod_cast h1
  have b : Int.log 2 x < k + 1 := by
    rw [← Int.lt_zpow_iff_log_lt (by norm_num) hx]
    exact_mod_cast h2
  omega

theorem log_two_bounds (x : α) (hx : 0 < x) :
    (2 : α) ^ Int.log 2 x ≤ x ∧ x < (2 : α) ^ (Int.log 2 x + 1) := by
  have h1 := Int.zpow_log_le_self (b := 2) (by norm_num) hx
  have h2 := Int.lt_zpow_succ_log_self (b := 2) (by norm_num) x
  constructor
  · exact_mod_cast h1
  · exact_mod_cast h2

theorem toBinary64_eq (x : α) (k n : ℤ) (h1 : (2 : α) ^ (k + 52) ≤ x)
    (h2 : x < (2 : α) ^ (k + 52 + 1)) (hn : roundHalfEven (x / (2 : α) ^ k) = n) :
    toBinary64 x = (n : α) * (2 : α) ^ k := by
  have hx : 0 < x := lt_of_lt_of_le (zpow_pos (by norm_num) _) h1
  unfold toBinary64
  rw [if_neg hx.ne', abs_of_pos hx, log_two_eq x (k + 52) h1 h2]
  have : k + 52 - 52 = k := by ring
  simp only [this, hn]

theorem toBinary64_of_pos (x : α) (hx : 0 < x) :
    toBinary64 x = (roundHalfEven (x / (2 : α) ^ (Int.log 2 x - 52)) : α) *
      (2 : α) ^ (Int.log 2 x - 52) := by
  unfold toBinary64
  rw [if_neg hx.ne', abs_of_pos hx]

theorem toBinary64_neg (x : α) : toBinary64 (-x) = -toBinary64 x := by
  unfold toBinary64
  by_cases h : x = 0
  · rw [if_pos h, if_pos (by rw [h, neg_zero]), neg_zero]
  · rw [if_neg h, if_neg (neg_ne_zero.mpr h), abs_neg]
    simp only [neg_div, roundHalfEven_neg, Int.cast_neg, neg_mul]

theorem scaled_bounds (x : α) (hx : 0 < x) :
    (2 : α) ^ (52 : ℤ) ≤ x / (2 : α) ^ (Int.log 2 x - 52) ∧
      x / (2 : α) ^ (Int.log 2 x - 52) < (2 : α) ^ (53 : ℤ) := by
  obtain ⟨h1, h2⟩ := log_two_bounds x hx
  have hp : (0 : α) < (2 : α) ^ (Int.log 2 x - 52) := zpow_pos (by norm_num) _
  have e1 : (2 : α) ^ (52 : ℤ) * (2 : α) ^ (Int.log 2 x - 52) = (2 : α) ^ Int.log 2 x := by
    rw [← zpow_add₀ (by norm_num : (2 : α) ≠ 0)]
    congr 1
    ring
  have e2 : (2 : α) ^ (53 : ℤ) * (2 : α) ^ (Int.log 2 x - 52) = (2 : α) ^ (Int.log 2 x + 1) := by
    rw [← zpow_add₀ (by norm_num : (2 : α) ≠ 0)]
    congr 1
    ring
  constructor
  · rw [le_div_iff₀ hp, e1]; exact h1
  · rw [div_lt_iff₀ hp, e2]; exact h2

theorem toBinary64_bounds (x : α) (hx : 0 < x) :
    (2 : α) ^ Int.log 2 x ≤ toBinary64 x ∧ toBinary64 x ≤ (2 : α) ^ (Int.log 2 x + 1) := by
  obtain ⟨h1, h2⟩ := scaled_bounds x hx
  have hp : (0 : α) < (2 : α) ^ (Int.log 2 x - 52) := zpow_pos (by norm_num) _
  have e1 : (2 : α) ^ (52 : ℤ) * (2 : α) ^ (Int.log 2 x - 52) = (2 : α) ^ Int.log 2 x := by
    rw [← zpow_add₀ (by norm_num : (2 : α) ≠ 0)]
    congr 1
    ring
  have e2 : (2 : α) ^ (53 : ℤ) * (2 : α) ^ (Int.log 2 x - 52) = (2 : α) ^ (Int.log 2 x + 1) := by
    rw [← zpow_add₀ (by norm_num : (2 : α) ≠ 0)]
    congr 1
    ring
  have c52 : (((2 : ℤ) ^ (52 : ℕ) : ℤ) : α) = (2 : α) ^ (52 : ℤ) := by norm_num
  have c53 : (((2 : ℤ) ^ (53 : ℕ) : ℤ) : α) = (2 : α) ^ (53 : ℤ) := by norm_num
  have r1 : ((2 : ℤ) ^ (52 : ℕ) : ℤ) ≤ roundHalfEven (x / (2 : α) ^ (Int.log 2 x - 52)) := by
    have := roundHalfEven_mono _ _ (by rw [c52]; exact h1 :
      (((2 : ℤ) ^ (52 : ℕ) : ℤ) : α) ≤ x / (2 : α) ^ (Int.log 2 x - 52))
    rwa [roundHalfEven_intCast] at this
  have r2 : roundHalfEven (x / (2 : α) ^ (Int.log 2 x - 52)) ≤ ((2 : ℤ) ^ (53 : ℕ) : ℤ) := by
    have := roundHalfEven_mono _ _ (by rw [c53]; exact h2.le :
      x / (2 : α) ^ (Int.log 2 x - 52) ≤ (((2 : ℤ) ^ (53 : ℕ) : ℤ) : α))
    rwa [roundHalfEven_intCast] at this
  have r1' : (2 : α) ^ (52 : ℤ) ≤ (roundHalfEven (x / (2 : α) ^ (Int.log 2 x - 52)) : α) := by
    rw [← c52]; exact_mod_cast r1
  have r2' : (roundHalfEven (x / (2 : α) ^ (Int.log 2 x - 52)) : α) ≤ (2 : α) ^ (53 : ℤ) := by
    rw [← c53]; exact_mod_cast r2
  rw [toBinary64_of_pos x hx, ← e1, ← e2]
  exact ⟨mul_le_mul_of_nonneg_right r1' hp.le, mul_le_mul_of_nonneg_right r2' hp.le⟩

theorem toBinary64_mono_pos (x y : α) (hx : 0 < x) (hxy : x ≤ y) :
    toBinary64 x ≤ toBinary64 y := by
  have hy : 0 < y := lt_of_lt_of_le hx hxy
  have hlog : Int.log 2 x ≤ Int.log 2 y := Int.log_mono_right hx hxy
  rcases lt_or_eq_of_le hlog with hlt | heq
  · have h1 := (toBinary64_bounds x hx).2
    have h2 := (toBinary64_bounds y hy).1
    have h3 : (2 : α) ^ (Int.log 2 x + 1) ≤ (2 : α) ^ Int.log 2 y :=
      zpow_le_zpow_right₀ (by norm_num) (by omega)
    linarith
  · rw [toBinary64_of_pos x hx, toBinary64_of_pos y hy, heq]
    have hp : (0 : α) < (2 : α) ^ (Int.log 2 y - 52) := zpow_pos (by norm_num) _
    apply mul_le_mul_of_nonneg_right _ hp.le
    have := roundHalfEven_mono (x / (2 : α) ^ (Int.log 2 y - 52))
      (y / (2 : α) ^ (Int.log 2 y - 52)) (div_le_div_of_nonneg_right hxy hp.le)
    exact_mod_cast this

theorem toBinary64_zero : toBinary64 (0 : α) = 0 := by
  unfold toBinary64
  rw [if_pos rfl]

theorem toBinary64_pos (x : α) (hx : 0 < x) : 0 < toBinary64 x :=
  lt_of_lt_of_le (zpow_pos (by norm_num) _) (toBinary64_bounds x hx).1

theorem toBinary64_mono : Monotone (toBinary64 : α → α) := by
  intro x y hxy
  rcases lt_trichotomy 0 x with hx | hx | hx
  · exact toBinary64_mono_pos x y hx hxy
  · rw [← hx, toBinary64_zero]
    rcases lt_or_eq_of_le (hx ▸ hxy : (0 : α) ≤ y) with hy | hy
    · exact (toBinary64_pos y hy).le
    · rw [← hy, toBinary64_zero]
  · have hnx : toBinary64 x < 0 := by
      have := toBinary64_pos (-x) (by linarith)
      rw [toBinary64_neg] at this
      linarith
    rcases lt_trichotomy 0 y with hy | hy | hy
    · exact le_trans hnx.le (toBinary64_pos y hy).le
    · rw [← hy, toBinary64_zero]; exact hnx.le
    · have := toBinary64_mono_pos (-y) (-x) (by linarith) (by linarith)
      rw [toBinary64_neg, toBinary64_neg] at this
      linarith

theorem toBinary64_error_pos (x : α) (hx : 0 < x) :
    |toBinary64 x - x| ≤ (2 : α) ^ (-53 : ℤ) * x := by
  obtain ⟨h1, -⟩ := log_two_bounds x hx
  have hp : (0 : α) < (2 : α) ^ (Int.log 2 x - 52) := zpow_pos (by norm_num) _
  have herr := roundHalfEven_error (x / (2 : α) ^ (Int.log 2 x - 52))
  have hx' : x = x / (2 : α) ^ (Int.log 2 x - 52) * (2 : α) ^ (Int.log 2 x - 52) := by
    field_simp
  have e : toBinary64 x - x =
      ((roundHalfEven (x / (2 : α) ^ (Int.log 2 x - 52)) : α) -
        x / (2 : α) ^ (Int.log 2 x - 52)) * (2 : α) ^ (Int.log 2 x - 52) := by
    rw [toBinary64_of_pos x hx, sub_mul, ← hx']
  rw [e, abs_mul, abs_of_pos hp]
  have e3 : (1 / 2 : α) * (2 : α) ^ (Int.log 2 x - 52) =
      (2 : α) ^ (-53 : ℤ) * (2 : α) ^ Int.log 2 x := by
    rw [show (1 / 2 : α) = (2 : α) ^ (-1 : ℤ) by norm_num,
      ← zpow_add₀ (by norm_num : (2 : α) ≠ 0), ← zpow_add₀ (by norm_num : (2 : α) ≠ 0)]
    congr 1
    ring
  calc |(roundHalfEven (x / (2 : α) ^ (Int.log 2 x - 52)) : α) -
          x / (2 : α) ^ (Int.log 2 x - 52)| * (2 : α) ^ (Int.log 2 x - 52)
      ≤ 1 / 2 * (2 : α) ^ (Int.log 2 x - 52) := mul_le_mul_of_nonneg_right herr hp.le
    _ = (2 : α) ^ (-53 : ℤ) * (2 : α) ^ Int.log 2 x := e3
    _ ≤ (2 : α) ^ (-53 : ℤ) * x := mul_le_mul_of_nonneg_left h1 (zpow_pos (by norm_num) _).le

theorem toBinary64_error (x : α) : |toBinary64 x - x| ≤ (2 : α) ^ (-53 : ℤ) * |x| := by
  rcases lt_trichotomy 0 x with hx | hx | hx
  · rw [abs_of_pos hx]; exact toBinary64_error_pos x hx
  · rw [← hx, toBinary64_zero]; simp
  · have h := toBinary64_error_pos (-x) (by linarith)
    rw [toBinary64_neg] at h
    rw [abs_of_neg hx]
    have e : -toBinary64 x - -x = -(toBinary64 x - x) := by ring
    rw [e, abs_neg] at h
    exact h

theorem toBinary64_natCast (n : ℕ) (hn : n < 2 ^ 53) : toBinary64 (n : α) = (n : α) := by
  rcases Nat.eq_zero_or_pos n with h0 | hpos
  · rw [h0, Nat.cast_zero, toBinary64_zero]
  · have hx : (0 : α) < (n : α) := by exact_mod_cast hpos
    obtain ⟨b1, b2⟩ := log_two_bounds (n : α) hx
    have hl1 : Int.log 2 (n : α) < 53 := by
      rw [← Int.lt_zpow_iff_log_lt (by norm_num) hx]
      rw [show (53 : ℤ) = ((53 : ℕ) : ℤ) by rfl, zpow_natCast]
      exact_mod_cast hn
    obtain ⟨j, hj⟩ := Int.eq_ofNat_of_zero_le (by omega : (0 : ℤ) ≤ 52 - Int.log 2 (n : α))
    have hj2 : Int.log 2 (n : α) - 52 = -(j : ℤ) := by omega
    have hp : (0 : α) < (2 : α) ^ j := pow_pos (by norm_num) j
    have hq : (n : α) / ((2 : α) ^ j)⁻¹ = (((n * 2 ^ j : ℕ) : ℤ) : α) := by
      rw [div_inv_eq_mul]
      push_cast
      ring
    rw [toBinary64_of_pos _ hx, hj2, zpow_neg, zpow_natCast, hq, roundHalfEven_intCast]
    push_cast
    field_simp

end Binary64

theorem sqrt_bounds (a lo hi : ℝ) (hlo : 0 ≤ lo) (hhi : 0 < hi) (h1 : lo ^ 2 < a)
    (h2 : a < hi ^ 2) : lo < Real.sqrt a ∧ Real.sqrt a < hi :=
  ⟨(Real.lt_sqrt hlo).mpr h1, (Real.sqrt_lt' hhi).mpr h2⟩

section KneeTrackingReference

theorem analyzeKneeTracking_eq {α : Type} [LinearOrderedField α] (M : JSMath α)
    (kps : Frame α)
    (hg : (kps KEYPOINTS.LEFT_KNEE).score > 0.3 ∧ (kps KEYPOINTS.RIGHT_KNEE).score > 0.3 ∧
      (kps KEYPOINTS.LEFT_HIP).score > 0.3 ∧ (kps KEYPOINTS.RIGHT_HIP).score > 0.3) :
    analyzeKneeTracking M kps =
      if kneeToHipRatio M kps < M.round 0.85 then
        some { issue := "⚠️ Knees caving in", severity := "high",
               ratio := kneeToHipRatio M kps, isGood := false }
      else if kneeToHipRatio M kps > M.round 1.5 then
        some { issue := "⚠️ Stance too wide", severity := "medium",
               ratio := kneeToHipRatio M kps, isGood := false }
      else
        some { issue := "✓ Good knee tracking", severity := "none",
               ratio := kneeToHipRatio M kps, isGood := true } := by
  simp only [analyzeKneeTracking]
  rw [if_pos hg]
  rfl

theorem kneeToHipRatio_real (kps : Frame ℝ) :
    kneeToHipRatio realMath kps = KneeSpec.ratio kps := by
  simp only [kneeToHipRatio, kneeDistance, hipWidth, KneeSpec.ratio, KneeSpec.distance,
    realMath, pow_two, id]

theorem hipWidth_real_ne_zero_iff (kps : Frame ℝ) :
    hipWidth realMath kps ≠ 0 ↔
      (kps KEYPOINTS.LEFT_HIP).toPoint ≠ (kps KEYPOINTS.RIGHT_HIP).toPoint := by
  have hnn : 0 ≤ ((kps KEYPOINTS.RIGHT_HIP).x - (kps KEYPOINTS.LEFT_HIP).x) *
        ((kps KEYPOINTS.RIGHT_HIP).x - (kps KEYPOINTS.LEFT_HIP).x) +
      ((kps KEYPOINTS.RIGHT_HIP).y - (kps KEYPOINTS.LEFT_HIP).y) *
        ((kps KEYPOINTS.RIGHT_HIP).y - (kps KEYPOINTS.LEFT_HIP).y) :=
    add_nonneg (mul_self_nonneg _) (mul_self_nonneg _)
  have hw : hipWidth realMath kps = Real.sqrt
      (((kps KEYPOINTS.RIGHT_HIP).x - (kps KEYPOINTS.LEFT_HIP).x) *
        ((kps KEYPOINTS.RIGHT_HIP).x - (kps KEYPOINTS.LEFT_HIP).x) +
      ((kps KEYPOINTS.RIGHT_HIP).y - (kps KEYPOINTS.LEFT_HIP).y) *
        ((kps KEYPOINTS.RIGHT_HIP).y - (kps KEYPOINTS.LEFT_HIP).y)) := rfl
  rw [hw, Ne, Real.sqrt_eq_zero hnn]
  constructor
  · intro h heq
    apply h
    have hx : (kps KEYPOINTS.LEFT_HIP).x = (kps KEYPOINTS.RIGHT_HIP).x :=
      congrArg Point.x heq
    have hy : (kps KEYPOINTS.LEFT_HIP).y = (kps KEYPOINTS.RIGHT_HIP).y :=
      congrArg Point.y heq
    rw [hx, hy]
    ring
  · intro h heq
    apply h
    have hx : (kps KEYPOINTS.RIGHT_HIP).x - (kps KEYPOINTS.LEFT_HIP).x = 0 := by
      nlinarith [mul_self_nonneg ((kps KEYPOINTS.RIGHT_HIP).x - (kps KEYPOINTS.LEFT_HIP).x),
        mul_self_nonneg ((kps KEYPOINTS.RIGHT_HIP).y - (kps KEYPOINTS.LEFT_HIP).y)]
    have hy : (kps KEYPOINTS.RIGHT_HIP).y - (kps KEYPOINTS.LEFT_HIP).y = 0 := by
      nlinarith [mul_self_nonneg ((kps KEYPOINTS.RIGHT_HIP).x - (kps KEYPOINTS.LEFT_HIP).x),
        mul_self_nonneg ((kps KEYPOINTS.RIGHT_HIP).y - (kps KEYPOINTS.LEFT_HIP).y)]
    cases hL : (kps KEYPOINTS.LEFT_HIP).toPoint with
    | mk x1 y1 =>
      cases hR : (kps KEYPOINTS.RIGHT_HIP).toPoint with
      | mk x2 y2 =>
        have e1 : (kps KEYPOINTS.LEFT_HIP).x = x1 := congrArg Point.x hL
        have e2 : (kps KEYPOINTS.LEFT_HIP).y = y1 := congrArg Point.y hL
        have e3 : (kps KEYPOINTS.RIGHT_HIP).x = x2 := congrArg Point.x hR
        have e4 : (kps KEYPOINTS.RIGHT_HIP).y = y2 := congrArg Point.y hR
        rw [e1, e3] at hx
        rw [e2, e4] at hy
        have hx' : x1 = x2 := by linarith
        have hy' : y1 = y2 := by linarith
        rw [hx', hy']

/-- C5, amended: `analyzeKneeTracking` returns `null` when one of left knee, right
knee, left hip, right hip has score at most 0.3; otherwise, when the hip width it
computes is not 0, it classifies the ratio it computes, the computed knee
distance over the computed hip width as the runtime rounds it, which is the
`ratio` it returns: "Knees caving in" (high, not good) exactly when that ratio
is below the runtime's 0.85, "Stance too wide" (medium, not good) exactly when it
is above 1.5, and "Good knee tracking" (none, good) exactly when it lies between
them, the two bounds included.  In exact real arithmetic the computed hip width
is not 0 exactly when the hips are at distinct positions, and the computed ratio
is the Euclidean knee distance over the Euclidean hip distance. -/
theorem analyzeKneeTracking_computed_ratio {α : Type} [LinearOrderedField α] (M : JSMath α)
    (kps : Frame α) :
    ((∃ i ∈ KneeSpec.required, (kps i).score ≤ 0.3) → analyzeKneeTracking M kps = none) ∧
    ((∀ i ∈ KneeSpec.required, (kps i).score > 0.3) → hipWidth M kps ≠ 0 →
      M.round 0.85 ≤ M.round 1.5 →
      ∃ t : KneeTracking α, analyzeKneeTracking M kps = some t ∧
        t.ratio = kneeToHipRatio M kps ∧
        ((t.issue = "⚠️ Knees caving in" ∧ t.severity = "high" ∧ t.isGood = false) ↔
          t.ratio < M.round 0.85) ∧
        ((t.issue = "⚠️ Stance too wide" ∧ t.severity = "medium" ∧ t.isGood = false) ↔
          t.ratio > M.round 1.5) ∧
        ((t.issue = "✓ Good knee tracking" ∧ t.severity = "none" ∧ t.isGood = true) ↔
          (M.round 0.85 ≤ t.ratio ∧ t.ratio ≤ M.round 1.5)) ∧
        (t.ratio = M.round 0.85 → t.isGood = true) ∧
        (t.ratio = M.round 1.5 → t.isGood = true)) ∧
    (∀ pose : Frame ℝ,
      (hipWidth realMath pose ≠ 0 ↔
        (pose KEYPOINTS.LEFT_HIP).toPoint ≠ (pose KEYPOINTS.RIGHT_HIP).toPoint) ∧
      kneeToHipRatio realMath pose = KneeSpec.ratio pose ∧
      realMath.round 0.85 = 0.85 ∧ realMath.round 1.5 = 1.5) := by
  refine ⟨?_, ?_, fun pose => ⟨hipWidth_real_ne_zero_iff pose, kneeToHipRatio_real pose,
    rfl, rfl⟩⟩
  · rintro ⟨i, hi, hs⟩
    have hg : ¬ ((kps KEYPOINTS.LEFT_KNEE).score > 0.3 ∧ (kps KEYPOINTS.RIGHT_KNEE).score > 0.3 ∧
        (kps KEYPOINTS.LEFT_HIP).score > 0.3 ∧ (kps KEYPOINTS.RIGHT_HIP).score > 0.3) := by
      intro hg
      simp only [KneeSpec.required, List.mem_cons, List.mem_singleton, List.not_mem_nil,
        or_false] at hi
      rcases hi with rfl | rfl | rfl | rfl
      · exact absurd hg.1 (not_lt.mpr hs)
      · exact absurd hg.2.1 (not_lt.mpr hs)
      · exact absurd hg.2.2.1 (not_lt.mpr hs)
      · exact absurd hg.2.2.2 (not_lt.mpr hs)
    simp only [analyzeKneeTracking]
    rw [if_neg hg]
  · intro hs _hhips hthr
    have hg : (kps KEYPOINTS.LEFT_KNEE).score > 0.3 ∧ (kps KEYPOINTS.RIGHT_KNEE).score > 0.3 ∧
        (kps KEYPOINTS.LEFT_HIP).score > 0.3 ∧ (kps KEYPOINTS.RIGHT_HIP).score > 0.3 :=
      ⟨hs _ (by simp [KneeSpec.required]), hs _ (by simp [KneeSpec.required]),
        hs _ (by simp [KneeSpec.required]), hs _ (by simp [KneeSpec.required])⟩
    rw [analyzeKneeTracking_eq M kps hg]
    by_cases h1 : kneeToHipRatio M kps < M.round 0.85
    · rw [if_pos h1]
      refine ⟨_, rfl, rfl, ?_, ?_, ?_, ?_, ?_⟩
      · simp [h1]
      · have : ¬ kneeToHipRatio M kps > M.round 1.5 := by intro h; linarith
        simp [this]
      · have : ¬ (M.round 0.85 ≤ kneeToHipRatio M kps ∧ kneeToHipRatio M kps ≤ M.round 1.5) :=
          fun h => absurd h1 (not_lt.mpr h.1)
        simp [this]
      · intro h; exact absurd h1 (not_lt.mpr (le_of_eq h.symm))
      · intro h
        have h2 : kneeToHipRatio M kps = M.round 1.5 := h
        rw [h2] at h1
        exact absurd hthr (not_le.mpr h1)
    · rw [if_neg h1]
      by_cases h2 : kneeToHipRatio M kps > M.round 1.5
      · rw [if_pos h2]
        refine ⟨_, rfl, rfl, ?_, ?_, ?_, ?_, ?_⟩
        · simp [h1]
        · simp [h2]
        · have : ¬ (M.round 0.85 ≤ kneeToHipRatio M kps ∧
              kneeToHipRatio M kps ≤ M.round 1.5) :=
            fun h => absurd h2 (not_lt.mpr h.2)
          simp [this]
        · intro h
          have h3 : kneeToHipRatio M kps = M.round 0.85 := h
          rw [h3] at h2
          exact absurd hthr (not_le.mpr h2)
        · intro h
          have h3 : kneeToHipRatio M kps = M.round 1.5 := h
          rw [h3] at h2
          exact absurd h2 (lt_irrefl _)
      · rw [if_neg h2]
        refine ⟨_, rfl, rfl, ?_, ?_, ?_, ?_, ?_⟩
        · simp [h1]
        · simp [h2]
        · have : M.round 0.85 ≤ kneeToHipRatio M kps ∧ kneeToHipRatio M kps ≤ M.round 1.5 :=
            ⟨not_lt.mp h1, not_lt.mp h2⟩
          simp [this]
        · intro _; rfl
        · intro _; rfl

theorem stanceFrame_ratio (kneeGap hipGap : ℝ) (hk : 0 ≤ kneeGap) (hh : 0 ≤ hipGap) :
    KneeSpec.ratio (stanceFrame kneeGap hipGap) = kneeGap / hipGap := by
  have e1 : KneeSpec.distance (stanceFrame kneeGap hipGap KEYPOINTS.LEFT_KNEE)
      (stanceFrame kneeGap hipGap KEYPOINTS.RIGHT_KNEE) = kneeGap := by
    simp [KneeSpec.distance, stanceFrame, KEYPOINTS.LEFT_KNEE, KEYPOINTS.RIGHT_KNEE,
      KEYPOINTS.RIGHT_HIP, Real.sqrt_sq hk]
  have e2 : KneeSpec.distance (stanceFrame kneeGap hipGap KEYPOINTS.LEFT_HIP)
      (stanceFrame kneeGap hipGap KEYPOINTS.RIGHT_HIP) = hipGap := by
    simp [KneeSpec.distance, stanceFrame, KEYPOINTS.LEFT_HIP, KEYPOINTS.RIGHT_KNEE,
      KEYPOINTS.RIGHT_HIP, Real.sqrt_sq hh]
  rw [KneeSpec.ratio, e1, e2]

theorem stanceFrame_score (kneeGap hipGap : ℝ) (i : Fin 17) :
    (stanceFrame kneeGap hipGap i).score = 1 := by
  unfold stanceFrame
  split_ifs <;> rfl

theorem slantedStanceFrame_score (i : Fin 17) :
    ((slantedStanceFrame : Frame ℝ) i).score = 1 := by
  unfold slantedStanceFrame
  split_ifs <;> rfl

theorem slantedStanceFrame_ratio : KneeSpec.ratio (slantedStanceFrame : Frame ℝ) = 1.5 := by
  have e1 : KneeSpec.distance ((slantedStanceFrame : Frame ℝ) KEYPOINTS.LEFT_KNEE)
      ((slantedStanceFrame : Frame ℝ) KEYPOINTS.RIGHT_KNEE) = 3 * Real.sqrt 13 := by
    have h : KneeSpec.distance ((slantedStanceFrame : Frame ℝ) KEYPOINTS.LEFT_KNEE)
        ((slantedStanceFrame : Frame ℝ) KEYPOINTS.RIGHT_KNEE) =
        Real.sqrt (((6 : ℝ) - 0) ^ 2 + ((9 : ℝ) - 0) ^ 2) := rfl
    rw [h, show ((6 : ℝ) - 0) ^ 2 + ((9 : ℝ) - 0) ^ 2 = 3 ^ 2 * 13 by norm_num,
      Real.sqrt_mul (by norm_num), Real.sqrt_sq (by norm_num)]
  have e2 : KneeSpec.distance ((slantedStanceFrame : Frame ℝ) KEYPOINTS.LEFT_HIP)
      ((slantedStanceFrame : Frame ℝ) KEYPOINTS.RIGHT_HIP) = 2 * Real.sqrt 13 := by
    have h : KneeSpec.distance ((slantedStanceFrame : Frame ℝ) KEYPOINTS.LEFT_HIP)
        ((slantedStanceFrame : Frame ℝ) KEYPOINTS.RIGHT_HIP) =
        Real.sqrt (((4 : ℝ) - 0) ^ 2 + ((6 : ℝ) - 0) ^ 2) := rfl
    rw [h, show ((4 : ℝ) - 0) ^ 2 + ((6 : ℝ) - 0) ^ 2 = 2 ^ 2 * 13 by norm_num,
      Real.sqrt_mul (by norm_num), Real.sqrt_sq (by norm_num)]
  have h13 : 0 < Real.sqrt 13 := Real.sqrt_pos.mpr (by norm_num)
  rw [KneeSpec.ratio, e1, e2, div_eq_iff (by positivity)]
  ring

theorem binary64_sqrt_117 :
    toBinary64 (Real.sqrt 117) = 6089234767741815 / 562949953421312 := by
  have hb := sqrt_bounds 117 (6089234767741815 / 562949953421312 - 1 / 1125899906842624)
    (6089234767741815 / 562949953421312 + 1 / 1125899906842624) (by norm_num) (by norm_num)
    (by norm_num) (by norm_num)
  have h := toBinary64_eq (Real.sqrt 117) (-49) 6089234767741815
    (by norm_num; linarith [hb.1]) (by norm_num; linarith [hb.2])
    (roundHalfEven_of_near _ _
      (by rw [lt_div_iff₀ (by positivity)]; norm_num; linarith [hb.1])
      (by rw [div_lt_iff₀ (by positivity)]; norm_num; linarith [hb.2]))
  rw [h]
  norm_num

theorem binary64_sqrt_52 :
    toBinary64 (Real.sqrt 52) = 8118979690322419 / 1125899906842624 := by
  have hb := sqrt_bounds 52 (8118979690322419 / 1125899906842624 - 1 / 2251799813685248)
    (8118979690322419 / 1125899906842624 + 1 / 2251799813685248) (by norm_num) (by norm_num)
    (by norm_num) (by norm_num)
  have h := toBinary64_eq (Real.sqrt 52) (-50) 8118979690322419
    (by norm_num; linarith [hb.1]) (by norm_num; linarith [hb.2])
    (roundHalfEven_of_near _ _
      (by rw [lt_div_iff₀ (by positivity)]; norm_num; linarith [hb.1])
      (by rw [div_lt_iff₀ (by positivity)]; norm_num; linarith [hb.2]))
  rw [h]
  norm_num

theorem binary64_ratio :
    toBinary64 ((6089234767741815 / 562949953421312 : ℝ) /
      (8118979690322419 / 1125899906842624)) = 6755399441055745 / 4503599627370496 := by
  have h := toBinary64_eq ((6089234767741815 / 562949953421312 : ℝ) /
      (8118979690322419 / 1125899906842624)) (-52) 6755399441055745
    (by norm_num) (by norm_num) (roundHalfEven_of_near _ _ (by norm_num) (by norm_num))
  rw [h]
  norm_num

theorem binary64_literal_085 :
    toBinary64 (0.85 : ℝ) = 7656119366529843 / 9007199254740992 := by
  have h := toBinary64_eq (0.85 : ℝ) (-53) 7656119366529843
    (by norm_num) (by norm_num) (roundHalfEven_of_near _ _ (by norm_num) (by norm_num))
  rw [h]
  norm_num

theorem binary64_literal_15 : toBinary64 (1.5 : ℝ) = 1.5 := by
  have h := toBinary64_eq (1.5 : ℝ) (-52) 6755399441055744
    (by norm_num) (by norm_num) (roundHalfEven_of_near _ _ (by norm_num) (by norm_num))
  rw [h]
  norm_num

theorem slantedStanceFrame_binary64_ratio :
    kneeToHipRatio binary64Math (slantedStanceFrame : Frame ℝ) =
      6755399441055745 / 4503599627370496 := by
  have hk : kneeDistance binary64Math (slantedStanceFrame : Frame ℝ) =
      toBinary64 (Real.sqrt 117) := by
    show toBinary64 (Real.sqrt (((6 : ℝ) - 0) * ((6 : ℝ) - 0) + ((9 : ℝ) - 0) * ((9 : ℝ) - 0))) = _
    norm_num
  have hh : hipWidth binary64Math (slantedStanceFrame : Frame ℝ) =
      toBinary64 (Real.sqrt 52) := by
    show toBinary64 (Real.sqrt (((4 : ℝ) - 0) * ((4 : ℝ) - 0) + ((6 : ℝ) - 0) * ((6 : ℝ) - 0))) = _
    norm_num
  show toBinary64 (kneeDistance binary64Math (slantedStanceFrame : Frame ℝ) /
    hipWidth binary64Math (slantedStanceFrame : Frame ℝ)) = _
  rw [hk, hh, binary64_sqrt_117, binary64_sqrt_52, binary64_ratio]

theorem slantedStanceFrame_binary64_hipWidth :
    hipWidth binary64Math (slantedStanceFrame : Frame ℝ) =
      8118979690322419 / 1125899906842624 := by
  show toBinary64 (Real.sqrt (((4 : ℝ) - 0) * ((4 : ℝ) - 0) + ((6 : ℝ) - 0) * ((6 : ℝ) - 0))) = _
  rw [show ((4 : ℝ) - 0) * ((4 : ℝ) - 0) + ((6 : ℝ) - 0) * ((6 : ℝ) - 0) = 52 by norm_num,
    binary64_sqrt_52]

/-- Witness for C5: in exact arithmetic, knees 1.7 apart and hips 2 apart give the
computed ratio 0.85, which is classified good; with binary64 rounding, the knees
at (0, 0) and (6, 9) and the hips at (0, 0) and (4, 6) give the computed ratio
1.5000000000000002, which is classified too wide. -/
theorem analyzeKneeTracking_computed_ratio_witness :
    (∃ t : KneeTracking ℝ, analyzeKneeTracking realMath (stanceFrame (17 / 10) 2) = some t ∧
      t.ratio = 0.85 ∧ t.isGood = true) ∧
    (∃ t : KneeTracking ℝ,
      analyzeKneeTracking binary64Math (slantedStanceFrame : Frame ℝ) = some t ∧
      t.ratio = 6755399441055745 / 4503599627370496 ∧
      t.issue = "⚠️ Stance too wide" ∧ t.severity = "medium" ∧ t.isGood = false) := by
  constructor
  · have hratio : KneeSpec.ratio (stanceFrame (17 / 10) 2) = 0.85 := by
      rw [stanceFrame_ratio _ _ (by norm_num) (by norm_num)]; norm_num
    have hips : (stanceFrame (17 / 10 : ℝ) 2 KEYPOINTS.LEFT_HIP).toPoint ≠
        (stanceFrame (17 / 10 : ℝ) 2 KEYPOINTS.RIGHT_HIP).toPoint := by
      simp [stanceFrame, KEYPOINTS.LEFT_HIP, KEYPOINTS.RIGHT_KNEE, KEYPOINTS.RIGHT_HIP]
    obtain ⟨t, ht, hr, -, -, -, hb, -⟩ :=
      (analyzeKneeTracking_computed_ratio realMath (stanceFrame (17 / 10) 2)).2.1
        (by intro i _; rw [stanceFrame_score]; norm_num)
        ((hipWidth_real_ne_zero_iff _).mpr hips)
        (by show (0.85 : ℝ) ≤ 1.5; norm_num)
    have hr2 : t.ratio = 0.85 := by
      rw [hr, kneeToHipRatio_real, hratio]
    exact ⟨t, ht, hr2, hb hr2⟩
  · have h085 : binary64Math.round 0.85 = 7656119366529843 / 9007199254740992 :=
      binary64_literal_085
    have h15 : binary64Math.round 1.5 = 1.5 := binary64_literal_15
    obtain ⟨t, ht, hr, -, hw, -, -, -⟩ :=
      (analyzeKneeTracking_computed_ratio binary64Math (slantedStanceFrame : Frame ℝ)).2.1
        (by intro i _; rw [slantedStanceFrame_score]; norm_num)
        (by rw [slantedStanceFrame_binary64_hipWidth]; norm_num)
        (by rw [h085, h15]; norm_num)
    have hr2 : t.ratio = 6755399441055745 / 4503599627370496 := by
      rw [hr, slantedStanceFrame_binary64_ratio]
    obtain ⟨h1, h2, h3⟩ := hw.mpr (by rw [hr2, h15]; norm_num)
    exact ⟨t, ht, hr2, h1, h2, h3⟩

/-- Counterexample to C5 as stated: with the knees at (0, 0) and (6, 9) and the
hips at (0, 0) and (4, 6), all scores 1, the Euclidean ratio is exactly 1.5, which
the claim classifies good; with binary64 rounding the two square roots round to
numbers whose quotient rounds to 1.5000000000000002, and `analyzeKneeTracking`
returns "Stance too wide". -/
theorem analyzeKneeTracking_counterexample :
    (∀ i ∈ KneeSpec.required, ((slantedStanceFrame : Frame ℝ) i).score > 0.3) ∧
    ((slantedStanceFrame : Frame ℝ) KEYPOINTS.LEFT_HIP).toPoint ≠
      ((slantedStanceFrame : Frame ℝ) KEYPOINTS.RIGHT_HIP).toPoint ∧
    KneeSpec.ratio (slantedStanceFrame : Frame ℝ) = 1.5 ∧
    analyzeKneeTracking binary64Math (slantedStanceFrame : Frame ℝ) =
      some { issue := "⚠️ Stance too wide", severity := "medium",
             ratio := 6755399441055745 / 4503599627370496, isGood := false } := by
  refine ⟨?_, ?_, slantedStanceFrame_ratio, ?_⟩
  · intro i _
    rw [slantedStanceFrame_score]
    norm_num
  · simp [slantedStanceFrame, KEYPOINTS.LEFT_HIP, KEYPOINTS.RIGHT_KNEE, KEYPOINTS.RIGHT_HIP]
  · rw [analyzeKneeTracking_eq binary64Math _
      ⟨by rw [slantedStanceFrame_score]; norm_num, by rw [slantedStanceFrame_score]; norm_num,
        by rw [slantedStanceFrame_score]; norm_num, by rw [slantedStanceFrame_score]; norm_num⟩,
      slantedStanceFrame_binary64_ratio]
    have h085 : binary64Math.round 0.85 = 7656119366529843 / 9007199254740992 :=
      binary64_literal_085
    have h15 : binary64Math.round 1.5 = 1.5 := binary64_literal_15
    rw [h085, h15, if_neg (by norm_num), if_pos (by norm_num)]

end KneeTrackingReference

section Feedback

variable {α : Type} [LinearOrderedField α]

theorem squatMetrics_avgKneeAngle (M : JSMath α) (kps : Frame α) :
    (squatMetrics M kps).avgKneeAngle = SquatSpec.K M kps := rfl

theorem squatMetrics_avgHipAngle (M : JSMath α) (kps : Frame α) :
    (squatMetrics M kps).avgHipAngle = SquatSpec.H M kps := rfl

theorem squatMetrics_backLeanAngle (M : JSMath α) (kps : Frame α) :
    (squatMetrics M kps).backLeanAngle = SquatSpec.B M kps := rfl

theorem squatMetrics_avgAnkleAngle (M : JSMath α) (kps : Frame α) :
    (squatMetrics M kps).avgAnkleAngle = SquatSpec.A M kps := by
  simp only [squatMetrics, SquatSpec.A, add_zero]

theorem squatMetrics_kneeTracking (M : JSMath α) (kps : Frame α) :
    (squatMetrics M kps).kneeTracking = analyzeKneeTracking M kps := rfl

theorem pushupMetrics_eq (M : JSMath α) (kps : Frame α) :
    pushupMetrics M kps =
      { avgElbowAngle := PushupSpec.E M kps, avgShoulderAngle := PushupSpec.S M kps,
        avgBackAngle := PushupSpec.Bk M kps, avgKneeAngle := PushupSpec.K M kps,
        avgBodyAlignment := PushupSpec.Al M kps } := rfl

theorem analyzeSquat_of_gate (M : JSMath α) (kps : Frame α) (d : Display)
    (h : squatGate kps) :
    analyzeSquat M kps d =
      { textContent := (squatFeedback (squatMetrics M kps) (squatForm (squatMetrics M kps))).1,
        className := (squatFeedback (squatMetrics M kps) (squatForm (squatMetrics M kps))).2,
        metrics :=
          squatMetricsToDisplay M (squatMetrics M kps) (squatForm (squatMetrics M kps)) } := by
  rw [analyzeSquat, squatAssessment_of_gate M kps h]
  rfl

theorem analyzePushup_of_gate (M : JSMath α) (kps : Frame α) (d : Display)
    (h : pushupGate kps) :
    analyzePushup M kps d =
      { textContent :=
          (pushupFeedback (pushupMetrics M kps) (pushupForm (pushupMetrics M kps))).1,
        className :=
          (pushupFeedback (pushupMetrics M kps) (pushupForm (pushupMetrics M kps))).2,
        metrics :=
          pushupMetricsToDisplay M (pushupMetrics M kps) (pushupForm (pushupMetrics M kps)) } := by
  rw [analyzePushup, pushupAssessment_of_gate M kps h]
  rfl

/-- C6: for every frame that passes the squat gate and whose averaged knee angle
exceeds 160, `analyzeSquat` sets the feedback text to "Start Squatting" and the
class to "start", whatever the other metrics and the score are. -/
theorem squat_start_override (M : JSMath α) (kps : Frame α) (d : Display)
    (hgate : ∀ i ∈ squatRequired, (kps i).score > 0.3)
    (hK : SquatSpec.K M kps > 160) :
    (analyzeSquat M kps d).textContent = "Start Squatting" ∧
    (analyzeSquat M kps d).className = "start" := by
  rw [analyzeSquat_of_gate M kps d ((squatGate_iff kps).mpr hgate)]
  have h : (squatMetrics M kps).avgKneeAngle > 160 := hK
  simp only [squatFeedback, if_pos h, and_self]

/-- C7: for every frame that passes the squat gate with averaged knee angle
below 90, averaged hip angle in `[45, 100]`, back lean below 10, averaged ankle
angle in `[70, 110]` and good knee tracking, `analyzeSquat` computes the score
`3 + 2 + 2 + 1 + 2 = 10` and sets the text "🏆 Perfect Form!" with class
"good". -/
theorem squat_perfect_form (M : JSMath α) (kps : Frame α) (d : Display)
    (hgate : ∀ i ∈ squatRequired, (kps i).score > 0.3)
    (hK : SquatSpec.K M kps < 90)
    (hH : 45 ≤ SquatSpec.H M kps ∧ SquatSpec.H M kps ≤ 100)
    (hB : SquatSpec.B M kps < 10)
    (hA : 70 ≤ SquatSpec.A M kps ∧ SquatSpec.A M kps ≤ 110)
    (hT : SquatSpec.trackingGood (analyzeKneeTracking M kps) = true) :
    (∃ r : Assessment, squatAssessment M kps = some r ∧
      r.formScore = 3 + 2 + 2 + 1 + 2 ∧ r.formScore = 10) ∧
    (analyzeSquat M kps d).textContent = "🏆 Perfect Form!" ∧
    (analyzeSquat M kps d).className = "good" := by
  have hg := (squatGate_iff kps).mpr hgate
  have hscore : (squatForm (squatMetrics M kps)).formScore = 10 := by
    rw [squatForm_eq]
    simp only [squatMetrics_avgKneeAngle, squatMetrics_avgHipAngle, squatMetrics_backLeanAngle,
      squatMetrics_avgAnkleAngle, squatMetrics_kneeTracking]
    have hB2 : ¬ SquatSpec.B M kps > 45 := by intro h; linarith
    simp only [SquatSpec.kneePts, SquatSpec.hipPts, SquatSpec.backPts, SquatSpec.anklePts,
      SquatSpec.trackPts, if_pos hK, if_pos hH, if_neg hB2, if_pos hB, if_pos hA, if_pos hT]
  refine ⟨⟨_, squatAssessment_of_gate M kps hg, hscore, hscore⟩, ?_⟩
  rw [analyzeSquat_of_gate M kps d hg]
  have hK2 : ¬ (squatMetrics M kps).avgKneeAngle > 160 := by
    rw [squatMetrics_avgKneeAngle]; intro h; linarith
  have h9 : (squatForm (squatMetrics M kps)).formScore ≥ 9 := by rw [hscore]; decide
  simp only [squatFeedback, if_neg hK2, if_pos h9, and_self]

/-- C8: for every frame that passes the push-up gate and whose averaged elbow
angle exceeds 140, `analyzePushup` sets the feedback text to "Start Push-up" and
the class to "start", whatever the other metrics and the score are. -/
theorem pushup_start_override (M : JSMath α) (kps : Frame α) (d : Display)
    (hgate : ∀ i ∈ pushupRequired, (kps i).score > 0.3)
    (hE : PushupSpec.E M kps > 140) :
    (analyzePushup M kps d).textContent = "Start Push-up" ∧
    (analyzePushup M kps d).className = "start" := by
  rw [analyzePushup_of_gate M kps d ((pushupGate_iff kps).mpr hgate)]
  have h : (pushupMetrics M kps).avgElbowAngle > 140 := hE
  simp only [pushupFeedback, if_pos h, and_self]

theorem analyzeKneeTracking_isSome (M : JSMath α) (kps : Frame α) (h : squatGate kps) :
    ∃ t : KneeTracking α, analyzeKneeTracking M kps = some t := by
  have hg : (kps KEYPOINTS.LEFT_KNEE).score > 0.3 ∧ (kps KEYPOINTS.RIGHT_KNEE).score > 0.3 ∧
      (kps KEYPOINTS.LEFT_HIP).score > 0.3 ∧ (kps KEYPOINTS.RIGHT_HIP).score > 0.3 :=
    ⟨h.2.1, h.2.2.2.2.1, h.1, h.2.2.2.1⟩
  simp only [analyzeKneeTracking]
  rw [if_pos hg]
  split_ifs
  · exact ⟨_, rfl⟩
  · exact ⟨_, rfl⟩
  · exact ⟨_, rfl⟩

/-- C9: for every frame that passes the squat gate, the score of `analyzeSquat`
is `kneePts + hipPts + backPts + anklePts + trackPts` of the specification's
table at the angles `K`, `H`, `B`, `A` and the knee-tracking result (which
exists), and the issue list is the knee issue, the hip issue if any, the back
issue if any, the ankle issue if any and the knee-tracking issue when tracking
is not good, in this order, warnings and positives carrying the code's marks. -/
theorem squat_scoring_table (M : JSMath α) (kps : Frame α)
    (hgate : ∀ i ∈ squatRequired, (kps i).score > 0.3) :
    ∃ r : Assessment, squatAssessment M kps = some r ∧
      r.formScore =
        SquatSpec.kneePts (SquatSpec.K M kps) + SquatSpec.hipPts (SquatSpec.H M kps) +
        SquatSpec.backPts (SquatSpec.B M kps) + SquatSpec.anklePts (SquatSpec.A M kps) +
        SquatSpec.trackPts (analyzeKneeTracking M kps) ∧
      r.formIssues =
        SquatSpec.kneeIssue (SquatSpec.K M kps) ++ SquatSpec.hipIssue (SquatSpec.H M kps) ++
        SquatSpec.backIssue (SquatSpec.B M kps) ++ SquatSpec.ankleIssue (SquatSpec.A M kps) ++
        SquatSpec.trackIssue (analyzeKneeTracking M kps) ∧
      ∃ t : KneeTracking α, analyzeKneeTracking M kps = some t := by
  have hg := (squatGate_iff kps).mpr hgate
  refine ⟨_, squatAssessment_of_gate M kps hg, ?_, ?_, analyzeKneeTracking_isSome M kps hg⟩
  · simp only [squatForm_eq, squatMetrics_avgKneeAngle, squatMetrics_avgHipAngle,
      squatMetrics_backLeanAngle, squatMetrics_avgAnkleAngle, squatMetrics_kneeTracking]
  · simp only [squatForm_eq, squatMetrics_avgKneeAngle, squatMetrics_avgHipAngle,
      squatMetrics_backLeanAngle, squatMetrics_avgAnkleAngle, squatMetrics_kneeTracking]

/-- C10: for every frame that passes the push-up gate, the score of
`analyzePushup` is `elbowPts + shoulderPts + backPts + kneePts + alignPts` of the
specification's table at the angles `E`, `S`, `Bk`, `K`, `Al`, and the issue list
holds, in the order elbow, shoulder, back, knee, the issue of the branch taken
(none for the 1-point shoulder and knee branches, none for body alignment),
warnings and positives carrying the code's marks. -/
theorem pushup_scoring_table (M : JSMath α) (kps : Frame α)
    (hgate : ∀ i ∈ pushupRequired, (kps i).score > 0.3) :
    ∃ r : Assessment, pushupAssessment M kps = some r ∧
      r.formScore =
        PushupSpec.elbowPts (PushupSpec.E M kps) + PushupSpec.shoulderPts (PushupSpec.S M kps) +
        PushupSpec.backPts (PushupSpec.Bk M kps) + PushupSpec.kneePts (PushupSpec.K M kps) +
        PushupSpec.alignPts (PushupSpec.Al M kps) ∧
      r.formIssues =
        PushupSpec.elbowIssue (PushupSpec.E M kps) ++
        PushupSpec.shoulderIssue (PushupSpec.S M kps) ++
        PushupSpec.backIssue (PushupSpec.Bk M kps) ++ PushupSpec.kneeIssue (PushupSpec.K M kps) := by
  refine ⟨_, pushupAssessment_of_gate M kps ((pushupGate_iff kps).mpr hgate), ?_, ?_⟩
  · simp only [pushupForm_eq, pushupMetrics_eq]
  · simp only [pushupForm_eq, pushupMetrics_eq]

end Feedback

section Witnesses

theorem atan2_zero_of_pos (x : ℝ) (hx : 0 < x) : atan2 0 x = 0 := by
  simp [atan2, hx]

theorem atan2_zero_of_neg (x : ℝ) (hx : x < 0) : atan2 0 x = Real.pi := by
  have h : ¬ 0 < x := not_lt.mpr hx.le
  simp [atan2, hx, h]

theorem atan2_of_pos_zero (y : ℝ) (hy : 0 < y) : atan2 y 0 = Real.pi / 2 := by
  simp [atan2, hy]

theorem atan2_of_neg_zero (y : ℝ) (hy : y < 0) : atan2 y 0 = -(Real.pi / 2) := by
  have h : ¬ 0 < y := not_lt.mpr hy.le
  simp [atan2, hy, h]

theorem atan2_one_neg_one : atan2 1 (-1) = 3 * Real.pi / 4 := by
  have h : ¬ (0 : ℝ) < -1 := by norm_num
  have h2 : (-1 : ℝ) < 0 := by norm_num
  simp only [atan2, if_neg h, if_pos h2, if_pos (zero_le_one : (0 : ℝ) ≤ 1)]
  rw [show (1 : ℝ) / -1 = -1 by norm_num, Real.arctan_neg, Real.arctan_one]
  ring

theorem atan2_neg_one_one : atan2 (-1) 1 = -(Real.pi / 4) := by
  simp only [atan2, if_pos (zero_lt_one : (0 : ℝ) < 1)]
  rw [show (-1 : ℝ) / 1 = -1 by norm_num, Real.arctan_neg, Real.arctan_one]

theorem standingFrame_K : SquatSpec.K realMath (standingFrame : Frame ℝ) = 180 := by
  have h1 : calculateAngle realMath ⟨0, 4⟩ ⟨0, 7⟩ ⟨0, 10⟩ = 180 :=
    calculateAngle_of_neg_mul _ _ _ (-1) (by simp [Point.mk.injEq]) (by norm_num)
      (by norm_num) (by norm_num)
  have h2 : calculateAngle realMath ⟨2, 4⟩ ⟨2, 7⟩ ⟨2, 10⟩ = 180 :=
    calculateAngle_of_neg_mul _ _ _ (-1) (by simp [Point.mk.injEq]) (by norm_num)
      (by norm_num) (by norm_num)
  show (calculateAngle realMath ⟨0, 4⟩ ⟨0, 7⟩ ⟨0, 10⟩ +
    calculateAngle realMath ⟨2, 4⟩ ⟨2, 7⟩ ⟨2, 10⟩) / 2 = 180
  rw [h1, h2]; norm_num

theorem standingFrame_E : PushupSpec.E realMath (standingFrame : Frame ℝ) = 180 := by
  have h1 : calculateAngle realMath ⟨0, 0⟩ ⟨-1, 2⟩ ⟨-2, 4⟩ = 180 :=
    calculateAngle_of_neg_mul _ _ _ (-1) (by simp [Point.mk.injEq]) (by norm_num)
      (by norm_num) (by norm_num)
  have h2 : calculateAngle realMath ⟨2, 0⟩ ⟨3, 2⟩ ⟨4, 4⟩ = 180 :=
    calculateAngle_of_neg_mul _ _ _ (-1) (by simp [Point.mk.injEq]) (by norm_num)
      (by norm_num) (by norm_num)
  show (calculateAngle realMath ⟨0, 0⟩ ⟨-1, 2⟩ ⟨-2, 4⟩ +
    calculateAngle realMath ⟨2, 0⟩ ⟨3, 2⟩ ⟨4, 4⟩) / 2 = 180
  rw [h1, h2]; norm_num

/-- Witness for C6: the standing frame has knee angle 180. -/
theorem squat_start_override_witness :
    (analyzeSquat realMath (standingFrame : Frame ℝ)
      { textContent := "Ready!", className := "", metrics := [] }).textContent =
        "Start Squatting" ∧
    (analyzeSquat realMath (standingFrame : Frame ℝ)
      { textContent := "Ready!", className := "", metrics := [] }).className = "start" :=
  squat_start_override realMath standingFrame _
    (by intro i _; rw [standingFrame, frameOfPoints_score]; norm_num)
    (by rw [standingFrame_K]; norm_num)

/-- Witness for C8: the standing frame has elbow angle 180. -/
theorem pushup_start_override_witness :
    (analyzePushup realMath (standingFrame : Frame ℝ)
      { textContent := "Ready!", className := "", metrics := [] }).textContent =
        "Start Push-up" ∧
    (analyzePushup realMath (standingFrame : Frame ℝ)
      { textContent := "Ready!", className := "", metrics := [] }).className = "start" :=
  pushup_start_override realMath standingFrame _
    (by intro i _; rw [standingFrame, frameOfPoints_score]; norm_num)
    (by rw [standingFrame_E]; norm_num)

theorem calculateAngle_of_diff (a b c : Point ℝ) (q : ℝ)
    (h : atan2 (c.y - b.y) (c.x - b.x) - atan2 (a.y - b.y) (a.x - b.x) = q * Real.pi)
    (hq : |q| ≤ 1) : calculateAngle realMath a b c = |q| * 180 := by
  have hpi := Real.pi_pos
  have e : |q * Real.pi * 180 / Real.pi| = |q| * 180 := by
    rw [show q * Real.pi * 180 / Real.pi = q * 180 by field_simp; ring, abs_mul,
      abs_of_pos (by norm_num : (0 : ℝ) < 180)]
  simp only [calculateAngle, realMath]
  rw [h, e, if_neg (by linarith)]

theorem deepSquatFrame_K : SquatSpec.K realMath (deepSquatFrame : Frame ℝ) = 45 := by
  have h1 : calculateAngle realMath ⟨0, 0⟩ ⟨1, -1⟩ ⟨-2, -1⟩ = |(1 / 4 : ℝ)| * 180 := by
    apply calculateAngle_of_diff
    · show atan2 (-1 - -1) (-2 - 1) - atan2 (0 - -1) (0 - 1) = 1 / 4 * Real.pi
      rw [show ((-1 : ℝ) - -1) = 0 by norm_num, show ((-2 : ℝ) - 1) = -3 by norm_num,
        show ((0 : ℝ) - -1) = 1 by norm_num, show ((0 : ℝ) - 1) = -1 by norm_num,
        atan2_zero_of_neg _ (by norm_num), atan2_one_neg_one]
      ring
    · rw [abs_of_pos (by norm_num)]; norm_num
  have h2 : calculateAngle realMath ⟨2, 0⟩ ⟨3, -1⟩ ⟨0, -1⟩ = |(1 / 4 : ℝ)| * 180 := by
    apply calculateAngle_of_diff
    · show atan2 (-1 - -1) (0 - 3) - atan2 (0 - -1) (2 - 3) = 1 / 4 * Real.pi
      rw [show ((-1 : ℝ) - -1) = 0 by norm_num, show ((0 : ℝ) - 3) = -3 by norm_num,
        show ((0 : ℝ) - -1) = 1 by norm_num, show ((2 : ℝ) - 3) = -1 by norm_num,
        atan2_zero_of_neg _ (by norm_num), atan2_one_neg_one]
      ring
    · rw [abs_of_pos (by norm_num)]; norm_num
  show (calculateAngle realMath ⟨0, 0⟩ ⟨1, -1⟩ ⟨-2, -1⟩ +
    calculateAngle realMath ⟨2, 0⟩ ⟨3, -1⟩ ⟨0, -1⟩) / 2 = 45
  rw [h1, h2, abs_of_pos (by norm_num)]; norm_num

theorem deepSquatFrame_H : SquatSpec.H realMath (deepSquatFrame : Frame ℝ) = 45 := by
  have h1 : calculateAngle realMath ⟨0, -4⟩ ⟨0, 0⟩ ⟨1, -1⟩ = |(1 / 4 : ℝ)| * 180 := by
    apply calculateAngle_of_diff
    · show atan2 (-1 - 0) (1 - 0) - atan2 (-4 - 0) (0 - 0) = 1 / 4 * Real.pi
      rw [show ((-1 : ℝ) - 0) = -1 by norm_num, show ((1 : ℝ) - 0) = 1 by norm_num,
        show ((-4 : ℝ) - 0) = -4 by norm_num, show ((0 : ℝ) - 0) = 0 by norm_num,
        atan2_of_neg_zero _ (by norm_num), atan2_neg_one_one]
      ring
    · rw [abs_of_pos (by norm_num)]; norm_num
  have h2 : calculateAngle realMath ⟨2, -4⟩ ⟨2, 0⟩ ⟨3, -1⟩ = |(1 / 4 : ℝ)| * 180 := by
    apply calculateAngle_of_diff
    · show atan2 (-1 - 0) (3 - 2) - atan2 (-4 - 0) (2 - 2) = 1 / 4 * Real.pi
      rw [show ((-1 : ℝ) - 0) = -1 by norm_num, show ((3 : ℝ) - 2) = 1 by norm_num,
        show ((-4 : ℝ) - 0) = -4 by norm_num, show ((2 : ℝ) - 2) = 0 by norm_num,
        atan2_of_neg_zero _ (by norm_num), atan2_neg_one_one]
      ring
    · rw [abs_of_pos (by norm_num)]; norm_num
  show (calculateAngle realMath ⟨0, -4⟩ ⟨0, 0⟩ ⟨1, -1⟩ +
    calculateAngle realMath ⟨2, -4⟩ ⟨2, 0⟩ ⟨3, -1⟩) / 2 = 45
  rw [h1, h2, abs_of_pos (by norm_num)]; norm_num

theorem deepSquatFrame_A : SquatSpec.A realMath (deepSquatFrame : Frame ℝ) = 90 := by
  have h1 : calculateAngle realMath ⟨1, -1⟩ ⟨-2, -1⟩ ⟨-2 + 0, -1 + 100⟩ =
      |(1 / 2 : ℝ)| * 180 := by
    apply calculateAngle_of_diff
    · show atan2 (-1 + 100 - -1) (-2 + 0 - -2) - atan2 (-1 - -1) (1 - -2) = 1 / 2 * Real.pi
      rw [show ((-1 : ℝ) + 100 - -1) = 100 by norm_num, show ((-2 : ℝ) + 0 - -2) = 0 by norm_num,
        show ((-1 : ℝ) - -1) = 0 by norm_num, show ((1 : ℝ) - -2) = 3 by norm_num,
        atan2_of_pos_zero _ (by norm_num), atan2_zero_of_pos _ (by norm_num)]
      ring
    · rw [abs_of_pos (by norm_num)]; norm_num
  have h2 : calculateAngle realMath ⟨3, -1⟩ ⟨0, -1⟩ ⟨0 + 0, -1 + 100⟩ =
      |(1 / 2 : ℝ)| * 180 := by
    apply calculateAngle_of_diff
    · show atan2 (-1 + 100 - -1) (0 + 0 - 0) - atan2 (-1 - -1) (3 - 0) = 1 / 2 * Real.pi
      rw [show ((-1 : ℝ) + 100 - -1) = 100 by norm_num, show ((0 : ℝ) + 0 - 0) = 0 by norm_num,
        show ((-1 : ℝ) - -1) = 0 by norm_num, show ((3 : ℝ) - 0) = 3 by norm_num,
        atan2_of_pos_zero _ (by norm_num), atan2_zero_of_pos _ (by norm_num)]
      ring
    · rw [abs_of_pos (by norm_num)]; norm_num
  show (calculateAngle realMath ⟨1, -1⟩ ⟨-2, -1⟩ ⟨-2 + 0, -1 + 100⟩ +
    calculateAngle realMath ⟨3, -1⟩ ⟨0, -1⟩ ⟨0 + 0, -1 + 100⟩) / 2 = 90
  rw [h1, h2, abs_of_pos (by norm_num)]; norm_num

theorem deepSquatFrame_B : SquatSpec.B realMath (deepSquatFrame : Frame ℝ) = 0 := by
  show |atan2 ((0 + 2) / 2 - (0 + 2) / 2) ((0 + 0) / 2 - (-4 + -4) / 2) * 180 / Real.pi| = 0
  rw [show ((0 : ℝ) + 2) / 2 - (0 + 2) / 2 = 0 by norm_num,
    show ((0 : ℝ) + 0) / 2 - (-4 + -4) / 2 = 4 by norm_num, atan2_zero_of_pos _ (by norm_num)]
  norm_num

theorem deepSquatFrame_tracking :
    SquatSpec.trackingGood (analyzeKneeTracking realMath (deepSquatFrame : Frame ℝ)) = true := by
  have hs : Real.sqrt ((3 - 1) * (3 - 1) + (-1 - -1) * (-1 - -1)) = 2 := by
    rw [show ((3 : ℝ) - 1) * (3 - 1) + (-1 - -1) * (-1 - -1) = 2 ^ 2 by norm_num,
      Real.sqrt_sq (by norm_num)]
  have hh : Real.sqrt ((2 - 0) * (2 - 0) + (0 - 0) * (0 - 0)) = 2 := by
    rw [show ((2 : ℝ) - 0) * (2 - 0) + (0 - 0) * (0 - 0) = 2 ^ 2 by norm_num,
      Real.sqrt_sq (by norm_num)]
  have hg : (1 : ℝ) > 0.3 ∧ (1 : ℝ) > 0.3 ∧ (1 : ℝ) > 0.3 ∧ (1 : ℝ) > 0.3 := by norm_num
  show SquatSpec.trackingGood
    (if (1 : ℝ) > 0.3 ∧ (1 : ℝ) > 0.3 ∧ (1 : ℝ) > 0.3 ∧ (1 : ℝ) > 0.3 then
      if Real.sqrt ((3 - 1) * (3 - 1) + (-1 - -1) * (-1 - -1)) /
          Real.sqrt ((2 - 0) * (2 - 0) + (0 - 0) * (0 - 0)) < 0.85 then
        some { issue := "⚠️ Knees caving in", severity := "high",
               ratio := Real.sqrt ((3 - 1) * (3 - 1) + (-1 - -1) * (-1 - -1)) /
                 Real.sqrt ((2 - 0) * (2 - 0) + (0 - 0) * (0 - 0)), isGood := false }
      else if Real.sqrt ((3 - 1) * (3 - 1) + (-1 - -1) * (-1 - -1)) /
          Real.sqrt ((2 - 0) * (2 - 0) + (0 - 0) * (0 - 0)) > 1.5 then
        some { issue := "⚠️ Stance too wide", severity := "medium",
               ratio := Real.sqrt ((3 - 1) * (3 - 1) + (-1 - -1) * (-1 - -1)) /
                 Real.sqrt ((2 - 0) * (2 - 0) + (0 - 0) * (0 - 0)), isGood := false }
      else
        some { issue := "✓ Good knee tracking", severity := "none",
               ratio := Real.sqrt ((3 - 1) * (3 - 1) + (-1 - -1) * (-1 - -1)) /
                 Real.sqrt ((2 - 0) * (2 - 0) + (0 - 0) * (0 - 0)), isGood := true }
    else none) = true
  rw [if_pos hg, hs, hh, if_neg (by norm_num), if_neg (by norm_num)]
  rfl

/-- Witness for C7: the deep-squat frame has knee angle 45, hip angle 45, back
lean 0, ankle angle 90 and knee-to-hip ratio 1. -/
theorem squat_perfect_form_witness :
    (∃ r : Assessment, squatAssessment realMath (deepSquatFrame : Frame ℝ) = some r ∧
      r.formScore = 3 + 2 + 2 + 1 + 2 ∧ r.formScore = 10) ∧
    (analyzeSquat realMath (deepSquatFrame : Frame ℝ)
      { textContent := "Ready!", className := "", metrics := [] }).textContent =
        "🏆 Perfect Form!" ∧
    (analyzeSquat realMath (deepSquatFrame : Frame ℝ)
      { textContent := "Ready!", className := "", metrics := [] }).className = "good" :=
  squat_perfect_form realMath deepSquatFrame _
    (by intro i _; rw [deepSquatFrame, frameOfPoints_score]; norm_num)
    (by rw [deepSquatFrame_K]; norm_num)
    (by rw [deepSquatFrame_H]; norm_num)
    (by rw [deepSquatFrame_B]; norm_num)
    (by rw [deepSquatFrame_A]; norm_num)
    deepSquatFrame_tracking

/-- Witness for C9: the deep-squat frame scores `3 + 2 + 2 + 1 + 2` with the
issues "Great depth" and "✓ Good back position". -/
theorem squat_scoring_table_witness :
    ∃ r : Assessment, squatAssessment realMath (deepSquatFrame : Frame ℝ) = some r ∧
      r.formScore = 10 ∧ r.formIssues = ["Great depth", "✓ Good back position"] := by
  obtain ⟨r, hr, hs, hi, -⟩ := squat_scoring_table realMath (deepSquatFrame : Frame ℝ)
    (by intro i _; rw [deepSquatFrame, frameOfPoints_score]; norm_num)
  refine ⟨r, hr, ?_, ?_⟩
  · rw [hs, deepSquatFrame_K, deepSquatFrame_H, deepSquatFrame_B, deepSquatFrame_A]
    simp only [SquatSpec.trackPts, deepSquatFrame_tracking]
    norm_num [SquatSpec.kneePts, SquatSpec.hipPts, SquatSpec.backPts, SquatSpec.anklePts]
  · rw [hi, deepSquatFrame_K, deepSquatFrame_H, deepSquatFrame_B, deepSquatFrame_A]
    have ht : SquatSpec.trackIssue (analyzeKneeTracking realMath (deepSquatFrame : Frame ℝ)) =
        [] := by
      have := deepSquatFrame_tracking
      unfold SquatSpec.trackingGood at this
      unfold SquatSpec.trackIssue
      split
      · rename_i t heq
        rw [heq] at this
        simp only at this
        simp [this]
      · rfl
    rw [ht]
    norm_num [SquatSpec.kneeIssue, SquatSpec.hipIssue, SquatSpec.backIssue,
      SquatSpec.ankleIssue, positive]
    rfl

theorem plankFrame_E : PushupSpec.E realMath (plankFrame : Frame ℝ) = 90 := by
  have h1 : calculateAngle realMath ⟨0, 0⟩ ⟨0, 2⟩ ⟨2, 2⟩ = |(1 / 2 : ℝ)| * 180 := by
    apply calculateAngle_of_diff
    · show atan2 (2 - 2) (2 - 0) - atan2 (0 - 2) (0 - 0) = 1 / 2 * Real.pi
      rw [show ((2 : ℝ) - 2) = 0 by norm_num, show ((2 : ℝ) - 0) = 2 by norm_num,
        show ((0 : ℝ) - 2) = -2 by norm_num, show ((0 : ℝ) - 0) = 0 by norm_num,
        atan2_zero_of_pos _ (by norm_num), atan2_of_neg_zero _ (by norm_num)]
      ring
    · rw [abs_of_pos (by norm_num)]; norm_num
  show (calculateAngle realMath ⟨0, 0⟩ ⟨0, 2⟩ ⟨2, 2⟩ +
    calculateAngle realMath ⟨0, 0⟩ ⟨0, 2⟩ ⟨2, 2⟩) / 2 = 90
  rw [h1, abs_of_pos (by norm_num)]; norm_num

theorem plankFrame_S : PushupSpec.S realMath (plankFrame : Frame ℝ) = 90 := by
  have h1 : calculateAngle realMath ⟨0, 2⟩ ⟨0, 0⟩ ⟨4, 0⟩ = |(-(1 / 2) : ℝ)| * 180 := by
    apply calculateAngle_of_diff
    · show atan2 (0 - 0) (4 - 0) - atan2 (2 - 0) (0 - 0) = -(1 / 2) * Real.pi
      rw [show ((0 : ℝ) - 0) = 0 by norm_num, show ((4 : ℝ) - 0) = 4 by norm_num,
        show ((2 : ℝ) - 0) = 2 by norm_num,
        atan2_zero_of_pos _ (by norm_num), atan2_of_pos_zero _ (by norm_num)]
      ring
    · rw [abs_neg, abs_of_pos (by norm_num)]; norm_num
  show (calculateAngle realMath ⟨0, 2⟩ ⟨0, 0⟩ ⟨4, 0⟩ +
    calculateAngle realMath ⟨0, 2⟩ ⟨0, 0⟩ ⟨4, 0⟩) / 2 = 90
  rw [h1, abs_neg, abs_of_pos (by norm_num)]; norm_num

theorem plankFrame_Bk : PushupSpec.Bk realMath (plankFrame : Frame ℝ) = 180 := by
  have h1 : calculateAngle realMath ⟨0, 0⟩ ⟨4, 0⟩ ⟨7, 0⟩ = 180 :=
    calculateAngle_of_neg_mul _ _ _ (-(3 / 4)) (by simp [Point.mk.injEq]) (by norm_num)
      (by norm_num) (by norm_num)
  show (calculateAngle realMath ⟨0, 0⟩ ⟨4, 0⟩ ⟨7, 0⟩ +
    calculateAngle realMath ⟨0, 0⟩ ⟨4, 0⟩ ⟨7, 0⟩) / 2 = 180
  rw [h1]; norm_num

theorem plankFrame_K : PushupSpec.K realMath (plankFrame : Frame ℝ) = 180 := by
  have h1 : calculateAngle realMath ⟨4, 0⟩ ⟨7, 0⟩ ⟨10, 0⟩ = 180 :=
    calculateAngle_of_neg_mul _ _ _ (-1) (by simp [Point.mk.injEq]) (by norm_num)
      (by norm_num) (by norm_num)
  show (calculateAngle realMath ⟨4, 0⟩ ⟨7, 0⟩ ⟨10, 0⟩ +
    calculateAngle realMath ⟨4, 0⟩ ⟨7, 0⟩ ⟨10, 0⟩) / 2 = 180
  rw [h1]; norm_num

theorem plankFrame_Al : PushupSpec.Al realMath (plankFrame : Frame ℝ) = 180 := by
  have h1 : calculateAngle realMath ⟨0, 0⟩ ⟨4, 0⟩ ⟨10, 0⟩ = 180 :=
    calculateAngle_of_neg_mul _ _ _ (-(3 / 2)) (by simp [Point.mk.injEq]) (by norm_num)
      (by norm_num) (by norm_num)
  show (calculateAngle realMath ⟨0, 0⟩ ⟨4, 0⟩ ⟨10, 0⟩ +
    calculateAngle realMath ⟨0, 0⟩ ⟨4, 0⟩ ⟨10, 0⟩) / 2 = 180
  rw [h1]; norm_num

/-- Witness for C10: the plank frame has elbow and shoulder angle 90 and back,
knee and alignment angle 180, so it scores `2 + 2 + 2 + 2 + 1` with four
issues. -/
theorem pushup_scoring_table_witness :
    ∃ r : Assessment, pushupAssessment realMath (plankFrame : Frame ℝ) = some r ∧
      r.formScore = 9 ∧
      r.formIssues =
        ["Good depth", "✓ Good shoulder position", "✓ Straight back", "✓ Straight legs"] := by
  obtain ⟨r, hr, hs, hi⟩ := pushup_scoring_table realMath (plankFrame : Frame ℝ)
    (by intro i _; rw [plankFrame, frameOfPoints_score]; norm_num)
  refine ⟨r, hr, ?_, ?_⟩
  · rw [hs, plankFrame_E, plankFrame_S, plankFrame_Bk, plankFrame_K, plankFrame_Al]
    norm_num [PushupSpec.elbowPts, PushupSpec.shoulderPts, PushupSpec.backPts,
      PushupSpec.kneePts, PushupSpec.alignPts]
  · rw [hi, plankFrame_E, plankFrame_S, plankFrame_Bk, plankFrame_K]
    norm_num [PushupSpec.elbowIssue, PushupSpec.shoulderIssue, PushupSpec.backIssue,
      PushupSpec.kneeIssue, positive]
    refine ⟨rfl, rfl, rfl⟩

/-! ### The test values of the specification, evaluated on the metrics -/

/-- With knee angle 161 and the other metrics ideal (hip 70, back lean 5, ankle
90, good tracking) the accumulated score is 7 and the feedback is the start
message all the same. -/
theorem squatFeedback_at_161 :
    (squatForm (⟨161, 70, 5, 90, some goodKneeTracking⟩ : SquatMetrics ℚ)).formScore = 7 ∧
    squatFeedback (⟨161, 70, 5, 90, some goodKneeTracking⟩ : SquatMetrics ℚ)
      (squatForm (⟨161, 70, 5, 90, some goodKneeTracking⟩ : SquatMetrics ℚ)) = ("Start Squatting", "start") := by
  decide

/-- With knee angle 80, hip angle 70, back lean 5, ankle angle 90 and good
tracking the score is 10 and the feedback is the perfect-form message. -/
theorem squatFeedback_at_80_70_5_90 :
    (squatForm (⟨80, 70, 5, 90, some goodKneeTracking⟩ : SquatMetrics ℚ)).formScore = 10 ∧
    (squatForm (⟨80, 70, 5, 90, some goodKneeTracking⟩ : SquatMetrics ℚ)).formIssues =
      ["Great depth", "✓ Good back position"] ∧
    squatFeedback (⟨80, 70, 5, 90, some goodKneeTracking⟩ : SquatMetrics ℚ)
      (squatForm (⟨80, 70, 5, 90, some goodKneeTracking⟩ : SquatMetrics ℚ)) = ("🏆 Perfect Form!", "good") := by
  decide

/-- With elbow angle 145 and the other push-up metrics ideal (shoulder 85, back,
knee and alignment 180) the accumulated score is 7 and the feedback is the start
message. -/
theorem pushupFeedback_at_145 :
    (pushupForm (⟨145, 85, 180, 180, 180⟩ : PushupMetrics ℚ)).formScore = 7 ∧
    pushupFeedback (⟨145, 85, 180, 180, 180⟩ : PushupMetrics ℚ)
      (pushupForm (⟨145, 85, 180, 180, 180⟩ : PushupMetrics ℚ)) = ("Start Push-up", "start") := by
  decide

end Witnesses

theorem fixedStepSchedule_succ {α : Type} [LinearOrderedField α] (d : α)
    (poses : Nat → List (Frame α)) (n : Nat) :
    fixedStepSchedule d poses (n + 1) =
      fixedStepSchedule d poses n ++ [(((n : α) + 1) * d, poses n)] := by
  unfold fixedStepSchedule
  rw [List.range_succ, List.map_append]
  rfl

theorem FRAME_INTERVAL_exact {α : Type} [LinearOrderedField α] (M : JSMath α)
    (hM : ∀ x, M.round x = x) : FRAME_INTERVAL M = 1000 / 30 := by
  unfold FRAME_INTERVAL TARGET_FPS
  rw [hM]

theorem FRAME_INTERVAL_pos {α : Type} [LinearOrderedField α] (M : JSMath α)
    (hM : ∀ x, M.round x = x) : (0 : α) < FRAME_INTERVAL M := by
  rw [FRAME_INTERVAL_exact M hM]
  norm_num

theorem round_zero_of_error {α : Type} [LinearOrderedField α] (M : JSMath α) (u : α)
    (herr : ∀ x, |M.round x - x| ≤ u * |x|) : M.round 0 = 0 := by
  have h := herr 0
  rw [abs_zero, mul_zero, sub_zero] at h
  exact abs_eq_zero.mp (le_antisymm h (abs_nonneg _))

section Driver

variable {α : Type} [LinearOrderedField α] [FloorRing α]

theorem jsRem_of_nonneg (a b : α) (ha : 0 ≤ a) (hb : 0 < b) :
    jsRem a b = a - b * ((⌊a / b⌋ : ℤ) : α) := by
  unfold jsRem
  rw [if_pos (div_nonneg ha hb.le)]

theorem floor_div_bounds (a b : α) (hb : 0 < b) :
    b * ((⌊a / b⌋ : ℤ) : α) ≤ a ∧ a < b * ((⌊a / b⌋ : ℤ) : α) + b := by
  have h1 := Int.floor_le (a / b)
  have h2 := Int.lt_floor_add_one (a / b)
  rw [le_div_iff₀ hb] at h1
  rw [div_lt_iff₀ hb] at h2
  constructor <;> nlinarith

theorem one_le_floor_div (a b : α) (hb : 0 < b) (hab : b ≤ a) : (1 : ℤ) ≤ ⌊a / b⌋ := by
  rw [Int.le_floor, Int.cast_one, le_div_iff₀ hb]
  linarith

theorem jsRem_bounds (a b : α) (ha : 0 ≤ a) (hb : 0 < b) : 0 ≤ jsRem a b ∧ jsRem a b < b := by
  have h := floor_div_bounds a b hb
  rw [jsRem_of_nonneg a b ha hb]
  constructor <;> linarith [h.1, h.2]

theorem detectPose_skip (M : JSMath α) (s : PoseState α) (currentTime : α)
    (poses : List (Frame α))
    (h : M.round (currentTime - s.lastFrameTime) < FRAME_INTERVAL M) :
    detectPose M s currentTime poses = (s, false) := by
  unfold detectPose
  by_cases hd : s.detector = false
  · rw [if_pos hd]
  · rw [if_neg hd]
    simp only [if_pos h]

theorem detectPose_no_detector (M : JSMath α) (s : PoseState α) (currentTime : α)
    (poses : List (Frame α)) (h : s.detector = false) :
    detectPose M s currentTime poses = (s, false) := by
  unfold detectPose
  rw [if_pos h]

theorem detectPose_fire (M : JSMath α) (s : PoseState α) (currentTime : α)
    (poses : List (Frame α)) (hd : s.detector = true)
    (h : FRAME_INTERVAL M ≤ M.round (currentTime - s.lastFrameTime)) :
    (detectPose M s currentTime poses).2 = true ∧
    (detectPose M s currentTime poses).1.detector = true ∧
    (detectPose M s currentTime poses).1.currentExercise = s.currentExercise ∧
    (detectPose M s currentTime poses).1.lastFrameTime =
      M.round (currentTime -
        jsRem (M.round (currentTime - s.lastFrameTime)) (FRAME_INTERVAL M)) := by
  have hd2 : ¬ s.detector = false := by rw [hd]; decide
  have h2 : ¬ M.round (currentTime - s.lastFrameTime) < FRAME_INTERVAL M := not_lt.mpr h
  unfold detectPose
  rw [if_neg hd2]
  simp only [if_neg h2]
  exact ⟨trivial, hd, trivial, trivial⟩

theorem lastFrameTime_fire (b : α) (lastFrameTime currentTime : α) (hb : 0 < b)
    (h : b ≤ currentTime - lastFrameTime) :
    currentTime - jsRem (currentTime - lastFrameTime) b =
      lastFrameTime + ((⌊(currentTime - lastFrameTime) / b⌋ : ℤ) : α) * b := by
  rw [jsRem_of_nonneg _ _ (le_trans hb.le h) hb]
  ring

theorem lastFrameTime_fire_bounds (b : α) (lastFrameTime currentTime : α) (hb : 0 < b)
    (h : b ≤ currentTime - lastFrameTime) :
    currentTime - b < currentTime - jsRem (currentTime - lastFrameTime) b ∧
      currentTime - jsRem (currentTime - lastFrameTime) b ≤ currentTime := by
  have hr := jsRem_bounds (currentTime - lastFrameTime) b (le_trans hb.le h) hb
  constructor <;> linarith [hr.1, hr.2]

theorem lastFrameTime_lag (M : JSMath α) (hmono : Monotone M.round)
    (hI : 0 < FRAME_INTERVAL M) (s : PoseState α) (currentTime : α)
    (hrep : M.round currentTime = currentTime)
    (h : FRAME_INTERVAL M ≤ M.round (currentTime - s.lastFrameTime)) :
    M.round (currentTime - FRAME_INTERVAL M) ≤
        M.round (currentTime -
          jsRem (M.round (currentTime - s.lastFrameTime)) (FRAME_INTERVAL M)) ∧
      M.round (currentTime -
          jsRem (M.round (currentTime - s.lastFrameTime)) (FRAME_INTERVAL M)) ≤ currentTime := by
  have hr := jsRem_bounds (M.round (currentTime - s.lastFrameTime)) (FRAME_INTERVAL M)
    (le_trans hI.le h) hI
  constructor
  · exact hmono (by linarith [hr.2])
  · calc M.round (currentTime -
          jsRem (M.round (currentTime - s.lastFrameTime)) (FRAME_INTERVAL M))
        ≤ M.round currentTime := hmono (by linarith [hr.1])
      _ = currentTime := hrep

theorem runStep_skip (M : JSMath α) (acc : PoseState α × List (α × α))
    (input : α × List (Frame α))
    (h : M.round (input.1 - acc.1.lastFrameTime) < FRAME_INTERVAL M) :
    runStep M acc input = acc := by
  unfold runStep
  rw [detectPose_skip M acc.1 input.1 input.2 h]
  simp

theorem runStep_fire (M : JSMath α) (acc : PoseState α × List (α × α))
    (input : α × List (Frame α)) (hd : acc.1.detector = true)
    (h : FRAME_INTERVAL M ≤ M.round (input.1 - acc.1.lastFrameTime)) :
    (runStep M acc input).1.detector = true ∧
    (runStep M acc input).1.lastFrameTime =
      M.round (input.1 -
        jsRem (M.round (input.1 - acc.1.lastFrameTime)) (FRAME_INTERVAL M)) ∧
    (runStep M acc input).2 = acc.2 ++ [(input.1, (runStep M acc input).1.lastFrameTime)] := by
  obtain ⟨h1, h2, -, h4⟩ := detectPose_fire M acc.1 input.1 input.2 hd h
  unfold runStep
  simp only [h1, if_true]
  exact ⟨h2, h4, trivial⟩

theorem runStep_fire_exact (M : JSMath α) (hM : ∀ x, M.round x = x)
    (acc : PoseState α × List (α × α))
    (input : α × List (Frame α)) (hd : acc.1.detector = true)
    (h : FRAME_INTERVAL M ≤ input.1 - acc.1.lastFrameTime) :
    (runStep M acc input).1.detector = true ∧
    (runStep M acc input).1.lastFrameTime =
      acc.1.lastFrameTime +
        ((⌊(input.1 - acc.1.lastFrameTime) / FRAME_INTERVAL M⌋ : ℤ) : α) * FRAME_INTERVAL M ∧
    (runStep M acc input).2 = acc.2 ++ [(input.1, (runStep M acc input).1.lastFrameTime)] := by
  have h' : FRAME_INTERVAL M ≤ M.round (input.1 - acc.1.lastFrameTime) := by rw [hM]; exact h
  obtain ⟨h1, h2, h3⟩ := runStep_fire M acc input hd h'
  refine ⟨h1, ?_, h3⟩
  rw [h2, hM, hM, lastFrameTime_fire _ _ _ (FRAME_INTERVAL_pos M hM) h]

theorem run_induction (M : JSMath α) (P : PoseState α × List (α × α) → Prop)
    (hstep : ∀ acc input, P acc → P (runStep M acc input))
    (s : PoseState α) (h0 : P (s, [])) (inputs : List (α × List (Frame α))) :
    P (run M s inputs) := by
  unfold run
  generalize (s, ([] : List (α × α))) = acc at h0
  induction inputs generalizing acc with
  | nil => exact h0
  | cons input rest ih => exact ih _ (hstep acc input h0)

theorem run_induction_mem (M : JSMath α) (P : PoseState α × List (α × α) → Prop)
    (inputs : List (α × List (Frame α)))
    (hstep : ∀ acc input, input ∈ inputs → P acc → P (runStep M acc input))
    (s : PoseState α) (h0 : P (s, [])) :
    P (run M s inputs) := by
  unfold run
  generalize (s, ([] : List (α × α))) = acc at h0
  induction inputs generalizing acc with
  | nil => exact h0
  | cons input rest ih =>
    exact ih (fun a i hi ha => hstep a i (List.mem_cons_of_mem _ hi) ha) _
      (hstep acc input (List.mem_cons_self _ _) h0)

theorem run_append (M : JSMath α) (s : PoseState α) (inputs : List (α × List (Frame α)))
    (input : α × List (Frame α)) :
    run M s (inputs ++ [input]) = runStep M (run M s inputs) input := by
  unfold run
  rw [List.foldl_append]
  rfl

theorem run_multiple (M : JSMath α) (hM : ∀ x, M.round x = x)
    (currentExercise : Option String) (display : Display)
    (inputs : List (α × List (Frame α))) :
    (run M (initialState currentExercise display) inputs).1.detector = true ∧
    ∃ n : ℕ, (run M (initialState currentExercise display) inputs).1.lastFrameTime =
      0 + (n : α) * FRAME_INTERVAL M := by
  apply run_induction M
    (fun acc => acc.1.detector = true ∧
      ∃ n : ℕ, acc.1.lastFrameTime = 0 + (n : α) * FRAME_INTERVAL M)
  · rintro acc input ⟨hd, n, hn⟩
    by_cases h : input.1 - acc.1.lastFrameTime < FRAME_INTERVAL M
    · rw [runStep_skip M acc input (by rw [hM]; exact h)]
      exact ⟨hd, n, hn⟩
    · have hle := not_lt.mp h
      obtain ⟨h1, h2, -⟩ := runStep_fire_exact M hM acc input hd hle
      refine ⟨h1, ?_⟩
      have hk := one_le_floor_div _ _ (FRAME_INTERVAL_pos M hM) hle
      obtain ⟨m, hm⟩ := Int.eq_ofNat_of_zero_le (le_trans (by decide : (0 : ℤ) ≤ 1) hk)
      refine ⟨n + m, ?_⟩
      rw [h2, hm, hn]
      push_cast
      ring
  · exact ⟨rfl, 0, by simp [initialState]⟩

theorem lastFrameTime_error (M : JSMath α) (u : α) (hu : 0 ≤ u)
    (herr : ∀ x, |M.round x - x| ≤ u * |x|) (hmono : Monotone M.round) (T : α)
    (huT : u * T ≤ FRAME_INTERVAL M) (hI : 0 < FRAME_INTERVAL M)
    (lastFrameTime currentTime : α) (hL0 : 0 ≤ lastFrameTime) (htT : currentTime ≤ T)
    (hrep : M.round currentTime = currentTime)
    (h : FRAME_INTERVAL M ≤ M.round (currentTime - lastFrameTime)) :
    |M.round (currentTime - jsRem (M.round (currentTime - lastFrameTime)) (FRAME_INTERVAL M)) -
        (lastFrameTime +
          ((⌊M.round (currentTime - lastFrameTime) / FRAME_INTERVAL M⌋ : ℤ) : α) *
            FRAME_INTERVAL M)| ≤ 2 * (u * T) ∧
    currentTime - FRAME_INTERVAL M - u * T <
      M.round (currentTime - jsRem (M.round (currentTime - lastFrameTime)) (FRAME_INTERVAL M)) ∧
    M.round (currentTime - jsRem (M.round (currentTime - lastFrameTime)) (FRAME_INTERVAL M)) ≤
      currentTime ∧
    0 ≤ M.round (currentTime - jsRem (M.round (currentTime - lastFrameTime))
      (FRAME_INTERVAL M)) := by
  have hr0 := round_zero_of_error M u herr
  have hpos : 0 ≤ currentTime - lastFrameTime := by
    by_contra hneg
    have hm := hmono (not_le.mp hneg).le
    rw [hr0] at hm
    linarith
  have he := herr (currentTime - lastFrameTime)
  rw [abs_of_nonneg hpos] at he
  obtain ⟨he1, he2⟩ := abs_le.mp he
  have hue : u * (currentTime - lastFrameTime) ≤ u * T :=
    mul_le_mul_of_nonneg_left (by linarith) hu
  have hk := one_le_floor_div _ _ hI h
  have hk2 : (1 : α) ≤ ((⌊M.round (currentTime - lastFrameTime) /
      FRAME_INTERVAL M⌋ : ℤ) : α) := by
    exact_mod_cast hk
  have hrem := jsRem_bounds (M.round (currentTime - lastFrameTime)) (FRAME_INTERVAL M)
    (le_trans hI.le h) hI
  have hremeq := jsRem_of_nonneg (M.round (currentTime - lastFrameTime)) (FRAME_INTERVAL M)
    (le_trans hI.le h) hI
  have hxlow : lastFrameTime + FRAME_INTERVAL M - u * T ≤
      currentTime - jsRem (M.round (currentTime - lastFrameTime)) (FRAME_INTERVAL M) := by
    rw [hremeq]
    nlinarith
  have hxnn : 0 ≤ currentTime -
      jsRem (M.round (currentTime - lastFrameTime)) (FRAME_INTERVAL M) := by
    linarith
  have hxt : currentTime - jsRem (M.round (currentTime - lastFrameTime)) (FRAME_INTERVAL M) ≤
      currentTime := by
    linarith [hrem.1]
  have hx := herr (currentTime - jsRem (M.round (currentTime - lastFrameTime))
    (FRAME_INTERVAL M))
  rw [abs_of_nonneg hxnn] at hx
  obtain ⟨hx1, hx2⟩ := abs_le.mp hx
  have hux : u * (currentTime - jsRem (M.round (currentTime - lastFrameTime))
      (FRAME_INTERVAL M)) ≤ u * T := mul_le_mul_of_nonneg_left (by linarith) hu
  have hnn : 0 ≤ M.round (currentTime - jsRem (M.round (currentTime - lastFrameTime))
      (FRAME_INTERVAL M)) := by
    have hm := hmono hxnn
    rw [hr0] at hm
    exact hm
  have hlet : M.round (currentTime - jsRem (M.round (currentTime - lastFrameTime))
      (FRAME_INTERVAL M)) ≤ currentTime := by
    have hm := hmono hxt
    rw [hrep] at hm
    exact hm
  have hxeq : currentTime - jsRem (M.round (currentTime - lastFrameTime)) (FRAME_INTERVAL M) -
      (lastFrameTime + ((⌊M.round (currentTime - lastFrameTime) / FRAME_INTERVAL M⌋ : ℤ) : α) *
        FRAME_INTERVAL M) =
      (currentTime - lastFrameTime) - M.round (currentTime - lastFrameTime) := by
    rw [hremeq]
    ring
  refine ⟨?_, ?_, hlet, hnn⟩
  · rw [abs_le]
    constructor <;> linarith
  · linarith [hrem.2]

theorem run_drift_invariant (M : JSMath α) (u : α) (hu : 0 ≤ u)
    (herr : ∀ x, |M.round x - x| ≤ u * |x|) (hmono : Monotone M.round)
    (currentExercise : Option String) (display : Display)
    (inputs : List (α × List (Frame α))) (T : α)
    (huT : u * T ≤ FRAME_INTERVAL M) (hI : 0 < FRAME_INTERVAL M)
    (hT : ∀ x ∈ inputs, x.1 ≤ T) (hrep : ∀ x ∈ inputs, M.round x.1 = x.1) :
    (run M (initialState currentExercise display) inputs).1.detector = true ∧
    0 ≤ (run M (initialState currentExercise display) inputs).1.lastFrameTime ∧
    ∃ j : ℕ, |(run M (initialState currentExercise display) inputs).1.lastFrameTime -
        (0 + (j : α) * FRAME_INTERVAL M)| ≤
      ((run M (initialState currentExercise display) inputs).2.length : α) * (2 * (u * T)) := by
  apply run_induction_mem M
    (fun acc => acc.1.detector = true ∧ 0 ≤ acc.1.lastFrameTime ∧
      ∃ j : ℕ, |acc.1.lastFrameTime - (0 + (j : α) * FRAME_INTERVAL M)| ≤
        (acc.2.length : α) * (2 * (u * T))) inputs
  · rintro acc x hin ⟨ihd, ihn, j, hj⟩
    by_cases h : M.round (x.1 - acc.1.lastFrameTime) < FRAME_INTERVAL M
    · rw [runStep_skip M acc x h]
      exact ⟨ihd, ihn, j, hj⟩
    · have hle := not_lt.mp h
      obtain ⟨h1, h2, h3⟩ := runStep_fire M acc x ihd hle
      obtain ⟨e1, -, -, e4⟩ := lastFrameTime_error M u hu herr hmono T huT hI
        acc.1.lastFrameTime x.1 ihn (hT x hin) (hrep x hin) hle
      have hk := one_le_floor_div _ _ hI hle
      obtain ⟨m, hm⟩ := Int.eq_ofNat_of_zero_le (le_trans (by decide : (0 : ℤ) ≤ 1) hk)
      refine ⟨h1, by rw [h2]; exact e4, j + m, ?_⟩
      rw [h3, List.length_append, List.length_singleton, h2]
      rw [hm] at e1
      have hsplit : M.round (x.1 - jsRem (M.round (x.1 - acc.1.lastFrameTime))
            (FRAME_INTERVAL M)) - (0 + ((j + m : ℕ) : α) * FRAME_INTERVAL M) =
          (M.round (x.1 - jsRem (M.round (x.1 - acc.1.lastFrameTime)) (FRAME_INTERVAL M)) -
            (acc.1.lastFrameTime + (((m : ℕ) : ℤ) : α) * FRAME_INTERVAL M)) +
          (acc.1.lastFrameTime - (0 + (j : α) * FRAME_INTERVAL M)) := by
        push_cast
        ring
      rw [hsplit]
      push_cast
      calc |M.round (x.1 - jsRem (M.round (x.1 - acc.1.lastFrameTime)) (FRAME_INTERVAL M)) -
              (acc.1.lastFrameTime + (m : α) * FRAME_INTERVAL M) +
            (acc.1.lastFrameTime - (0 + (j : α) * FRAME_INTERVAL M))|
          ≤ |M.round (x.1 - jsRem (M.round (x.1 - acc.1.lastFrameTime)) (FRAME_INTERVAL M)) -
              (acc.1.lastFrameTime + (m : α) * FRAME_INTERVAL M)| +
            |acc.1.lastFrameTime - (0 + (j : α) * FRAME_INTERVAL M)| := abs_add _ _
        _ ≤ 2 * (u * T) + (acc.2.length : α) * (2 * (u * T)) := by
            have e1' : |M.round (x.1 - jsRem (M.round (x.1 - acc.1.lastFrameTime))
                (FRAME_INTERVAL M)) - (acc.1.lastFrameTime + (m : α) * FRAME_INTERVAL M)| ≤
                2 * (u * T) := by
              have := e1
              push_cast at this
              exact this
            exact add_le_add e1' hj
        _ = ((acc.2.length : α) + 1) * (2 * (u * T)) := by ring
  · refine ⟨rfl, le_refl _, 0, ?_⟩
    show |(0 : α) - (0 + ((0 : ℕ) : α) * FRAME_INTERVAL M)| ≤ ((0 : ℕ) : α) * (2 * (u * T))
    simp

/-- C12, amended: a callback whose computed elapsed time is below `FRAME_INTERVAL`
leaves the globals unchanged and does not call the estimator; a callback whose
computed elapsed time is at least `FRAME_INTERVAL` calls it and sets
`lastFrameTime` to `currentTime - elapsed % FRAME_INTERVAL`, each subtraction as
the runtime rounds it; when rounding is monotone and `currentTime` is a number of
the runtime, the new `lastFrameTime` is at most `currentTime` and at least the
rounded `currentTime - FRAME_INTERVAL`.  When rounding is monotone with relative
error at most `u` and the times are at most `T` (with `u * T ≤ FRAME_INTERVAL`),
the new value differs from the old one plus
`⌊elapsed / FRAME_INTERVAL⌋ * FRAME_INTERVAL` by at most `2 * u * T` and is above
`currentTime - FRAME_INTERVAL - u * T`, and in every state reached from the
initial one `lastFrameTime` is within `2 * u * T` times the number of invocations
of a natural multiple of `FRAME_INTERVAL`.  In exact arithmetic the new value is
the old one plus `⌊elapsed / FRAME_INTERVAL⌋ * FRAME_INTERVAL`, lies in
`(currentTime - FRAME_INTERVAL, currentTime]`, and in every state reached from
the initial one `lastFrameTime` is 0 plus a natural multiple of
`FRAME_INTERVAL`. -/
theorem rate_limiter_phase (M : JSMath α) :
    (∀ (s : PoseState α) (currentTime : α) (poses : List (Frame α)),
      s.detector = true → M.round (currentTime - s.lastFrameTime) < FRAME_INTERVAL M →
      detectPose M s currentTime poses = (s, false)) ∧
    (∀ (s : PoseState α) (currentTime : α) (poses : List (Frame α)),
      s.detector = true → FRAME_INTERVAL M ≤ M.round (currentTime - s.lastFrameTime) →
      (detectPose M s currentTime poses).2 = true ∧
      (detectPose M s currentTime poses).1.lastFrameTime =
        M.round (currentTime -
          jsRem (M.round (currentTime - s.lastFrameTime)) (FRAME_INTERVAL M)) ∧
      (Monotone M.round → 0 < FRAME_INTERVAL M → M.round currentTime = currentTime →
        M.round (currentTime - FRAME_INTERVAL M) ≤
          (detectPose M s currentTime poses).1.lastFrameTime ∧
        (detectPose M s currentTime poses).1.lastFrameTime ≤ currentTime)) ∧
    (∀ (u T : α), 0 ≤ u → (∀ x, |M.round x - x| ≤ u * |x|) → Monotone M.round →
      0 < FRAME_INTERVAL M → u * T ≤ FRAME_INTERVAL M →
      (∀ (s : PoseState α) (currentTime : α) (poses : List (Frame α)),
        s.detector = true → 0 ≤ s.lastFrameTime → currentTime ≤ T →
        M.round currentTime = currentTime →
        FRAME_INTERVAL M ≤ M.round (currentTime - s.lastFrameTime) →
        |(detectPose M s currentTime poses).1.lastFrameTime -
            (s.lastFrameTime +
              ((⌊M.round (currentTime - s.lastFrameTime) / FRAME_INTERVAL M⌋ : ℤ) : α) *
                FRAME_INTERVAL M)| ≤ 2 * (u * T) ∧
        currentTime - FRAME_INTERVAL M - u * T <
          (detectPose M s currentTime poses).1.lastFrameTime ∧
        (detectPose M s currentTime poses).1.lastFrameTime ≤ currentTime) ∧
      (∀ (currentExercise : Option String) (display : Display)
        (inputs : List (α × List (Frame α))),
        (∀ x ∈ inputs, x.1 ≤ T) → (∀ x ∈ inputs, M.round x.1 = x.1) →
        ∃ j : ℕ, |(run M (initialState currentExercise display) inputs).1.lastFrameTime -
            (0 + (j : α) * FRAME_INTERVAL M)| ≤
          ((run M (initialState currentExercise display) inputs).2.length : α) *
            (2 * (u * T)))) ∧
    ((∀ x, M.round x = x) →
      (∀ (s : PoseState α) (currentTime : α) (poses : List (Frame α)),
        s.detector = true → FRAME_INTERVAL M ≤ currentTime - s.lastFrameTime →
        (detectPose M s currentTime poses).1.lastFrameTime =
          s.lastFrameTime +
            ((⌊(currentTime - s.lastFrameTime) / FRAME_INTERVAL M⌋ : ℤ) : α) *
              FRAME_INTERVAL M ∧
        currentTime - FRAME_INTERVAL M < (detectPose M s currentTime poses).1.lastFrameTime ∧
        (detectPose M s currentTime poses).1.lastFrameTime ≤ currentTime) ∧
      (∀ (currentExercise : Option String) (display : Display)
        (inputs : List (α × List (Frame α))),
        ∃ n : ℕ, (run M (initialState currentExercise display) inputs).1.lastFrameTime =
          0 + (n : α) * FRAME_INTERVAL M)) := by
  refine ⟨?_, ?_, ?_, ?_⟩
  · intro s t poses _ h
    exact detectPose_skip M s t poses h
  · intro s t poses hd h
    obtain ⟨h1, -, -, h4⟩ := detectPose_fire M s t poses hd h
    refine ⟨h1, h4, ?_⟩
    intro hmono hI hrep
    rw [h4]
    exact lastFrameTime_lag M hmono hI s t hrep h
  · intro u T hu herr hmono hI huT
    refine ⟨?_, ?_⟩
    · intro s t poses hd hL0 htT hrep h
      obtain ⟨-, -, -, h4⟩ := detectPose_fire M s t poses hd h
      obtain ⟨e1, e2, e3, -⟩ := lastFrameTime_error M u hu herr hmono T huT hI
        s.lastFrameTime t hL0 htT hrep h
      rw [h4]
      exact ⟨e1, e2, e3⟩
    · intro ex disp inputs hT hrep
      exact (run_drift_invariant M u hu herr hmono ex disp inputs T huT hI hT hrep).2.2
  · intro hM
    refine ⟨?_, ?_⟩
    · intro s t poses hd h
      have h' : FRAME_INTERVAL M ≤ M.round (t - s.lastFrameTime) := by rw [hM]; exact h
      obtain ⟨-, -, -, h4⟩ := detectPose_fire M s t poses hd h'
      have hI := FRAME_INTERVAL_pos M hM
      have hb := lastFrameTime_fire_bounds (FRAME_INTERVAL M) s.lastFrameTime t hI h
      rw [hM, hM] at h4
      refine ⟨?_, ?_, ?_⟩
      · rw [h4, lastFrameTime_fire _ _ _ hI h]
      · rw [h4]; exact hb.1
      · rw [h4]; exact hb.2
    · intro ex disp inputs
      exact (run_multiple M hM ex disp inputs).2

theorem run_phase_invariant (M : JSMath α) (currentExercise : Option String)
    (display : Display) (inputs : List (α × List (Frame α))) :
    (run M (initialState currentExercise display) inputs).1.detector = true ∧
    (run M (initialState currentExercise display) inputs).2.Chain' (PhaseSeparated M) ∧
    (∀ p ∈ (run M (initialState currentExercise display) inputs).2.getLast?,
      p.2 = (run M (initialState currentExercise display) inputs).1.lastFrameTime) := by
  apply run_induction M
    (fun acc => acc.1.detector = true ∧
      acc.2.Chain' (PhaseSeparated M) ∧ (∀ p ∈ acc.2.getLast?, p.2 = acc.1.lastFrameTime))
  · rintro acc input ⟨hd, hc, hl⟩
    by_cases h : M.round (input.1 - acc.1.lastFrameTime) < FRAME_INTERVAL M
    · rw [runStep_skip M acc input h]
      exact ⟨hd, hc, hl⟩
    · have hle := not_lt.mp h
      obtain ⟨h1, -, h3⟩ := runStep_fire M acc input hd hle
      refine ⟨h1, ?_, ?_⟩
      · rw [h3]
        refine List.Chain'.append hc (List.chain'_singleton _) ?_
        intro x hx y hy
        simp only [List.head?_cons, Option.mem_def, Option.some.injEq] at hy
        subst hy
        have hx2 := hl x hx
        show FRAME_INTERVAL M ≤ M.round (input.1 - x.2)
        rw [hx2]
        exact hle
      · intro p hp
        rw [h3, List.getLast?_concat, Option.mem_def, Option.some.injEq] at hp
        rw [← hp]
  · refine ⟨rfl, List.chain'_nil, ?_⟩
    intro p hp; simp at hp

theorem run_lag_invariant (M : JSMath α) (hmono : Monotone M.round)
    (hI : 0 < FRAME_INTERVAL M) (currentExercise : Option String)
    (display : Display) (inputs : List (α × List (Frame α)))
    (hrep : ∀ x ∈ inputs, M.round x.1 = x.1) :
    (run M (initialState currentExercise display) inputs).1.detector = true ∧
    ∀ p ∈ (run M (initialState currentExercise display) inputs).2,
      M.round (p.1 - FRAME_INTERVAL M) ≤ p.2 ∧ p.2 ≤ p.1 := by
  apply run_induction_mem M
    (fun acc => acc.1.detector = true ∧
      ∀ p ∈ acc.2, M.round (p.1 - FRAME_INTERVAL M) ≤ p.2 ∧ p.2 ≤ p.1) inputs
  · rintro acc input hin ⟨hd, hb⟩
    by_cases h : M.round (input.1 - acc.1.lastFrameTime) < FRAME_INTERVAL M
    · rw [runStep_skip M acc input h]
      exact ⟨hd, hb⟩
    · have hle := not_lt.mp h
      obtain ⟨h1, h2, h3⟩ := runStep_fire M acc input hd hle
      refine ⟨h1, ?_⟩
      intro p hp
      rw [h3, List.mem_append, List.mem_singleton] at hp
      rcases hp with hp | hp
      · exact hb p hp
      · rw [hp]
        show M.round (input.1 - FRAME_INTERVAL M) ≤ (runStep M acc input).1.lastFrameTime ∧
          (runStep M acc input).1.lastFrameTime ≤ input.1
        rw [h2]
        exact lastFrameTime_lag M hmono hI acc.1 input.1 (hrep input hin) hle
  · refine ⟨rfl, ?_⟩
    intro p hp; exact absurd hp (List.not_mem_nil p)

/-- C11, amended: in every run from the initial globals, an estimator invocation
that follows another one happens only at a callback where the elapsed time
computed since the `lastFrameTime` set by the earlier invocation is at least
`FRAME_INTERVAL`; and, rounding being monotone, `FRAME_INTERVAL` positive and the
callback times numbers of the runtime, the `lastFrameTime` an invocation sets is
at most its callback time and at least the rounded callback time minus
`FRAME_INTERVAL`. -/
theorem successive_invocations_phase (M : JSMath α) (currentExercise : Option String)
    (display : Display) (inputs : List (α × List (Frame α))) :
    (run M (initialState currentExercise display) inputs).2.Chain' (PhaseSeparated M) ∧
    (Monotone M.round → 0 < FRAME_INTERVAL M → (∀ x ∈ inputs, M.round x.1 = x.1) →
      ∀ p ∈ (run M (initialState currentExercise display) inputs).2,
        M.round (p.1 - FRAME_INTERVAL M) ≤ p.2 ∧ p.2 ≤ p.1) :=
  ⟨(run_phase_invariant M currentExercise display inputs).2.1,
    fun hmono hI hrep => (run_lag_invariant M hmono hI currentExercise display inputs hrep).2⟩

theorem floor_eq_of_mul_bounds (a b : α) (k : ℤ) (hb : 0 < b) (h1 : (k : α) * b ≤ a)
    (h2 : a < ((k : α) + 1) * b) : ⌊a / b⌋ = k := by
  rw [Int.floor_eq_iff, le_div_iff₀ hb, div_lt_iff₀ hb]
  exact ⟨h1, h2⟩

theorem fixedStep_invariant (M : JSMath α) (hM : ∀ x, M.round x = x)
    (currentExercise : Option String)
    (display : Display) (d : α) (hd0 : 0 < d) (hd : d ≤ FRAME_INTERVAL M)
    (poses : Nat → List (Frame α)) (n : Nat) :
    (run M (initialState currentExercise display) (fixedStepSchedule d poses n)).1.detector =
      true ∧
    (run M (initialState currentExercise display) (fixedStepSchedule d poses n)).1.lastFrameTime =
      ((⌊(n : α) * d / FRAME_INTERVAL M⌋ : ℤ) : α) * FRAME_INTERVAL M ∧
    ((run M (initialState currentExercise display) (fixedStepSchedule d poses n)).2.length : ℤ) =
      ⌊(n : α) * d / FRAME_INTERVAL M⌋ := by
  have hI : (0 : α) < FRAME_INTERVAL M := FRAME_INTERVAL_pos M hM
  induction n with
  | zero =>
    refine ⟨rfl, ?_, ?_⟩
    · show (0 : α) = _
      simp
    · show ((0 : ℕ) : ℤ) = _
      simp
  | succ n ih =>
    obtain ⟨ihd, ihl, ihc⟩ := ih
    rw [fixedStepSchedule_succ, run_append]
    have hb := floor_div_bounds ((n : α) * d) (FRAME_INTERVAL M) hI
    have hcast : ((n + 1 : ℕ) : α) * d = ((n : α) + 1) * d := by push_cast; ring
    rw [hcast]
    by_cases h : ((n : α) + 1) * d -
        (run M (initialState currentExercise display)
          (fixedStepSchedule d poses n)).1.lastFrameTime < FRAME_INTERVAL M
    · rw [runStep_skip M _ (((n : α) + 1) * d, poses n) (by rw [hM]; exact h)]
      rw [ihl] at h
      have hfl : ⌊((n : α) + 1) * d / FRAME_INTERVAL M⌋ =
          ⌊(n : α) * d / FRAME_INTERVAL M⌋ := by
        apply floor_eq_of_mul_bounds _ _ _ hI
        · nlinarith [hb.1]
        · nlinarith
      rw [hfl]
      exact ⟨ihd, ihl, ihc⟩
    · have hle := not_lt.mp h
      obtain ⟨h1, h2, h3⟩ := runStep_fire_exact M hM _ (((n : α) + 1) * d, poses n) ihd hle
      rw [ihl] at hle
      have hfl : ⌊((n : α) + 1) * d / FRAME_INTERVAL M⌋ =
          ⌊(n : α) * d / FRAME_INTERVAL M⌋ + 1 := by
        apply floor_eq_of_mul_bounds _ _ _ hI
        · push_cast; nlinarith
        · push_cast; nlinarith [hb.2]
      have hone : ⌊(((n : α) + 1) * d -
          ((⌊(n : α) * d / FRAME_INTERVAL M⌋ : ℤ) : α) * FRAME_INTERVAL M) /
            FRAME_INTERVAL M⌋ = 1 := by
        apply floor_eq_of_mul_bounds _ _ _ hI
        · push_cast; linarith
        · push_cast; nlinarith [hb.2]
      refine ⟨h1, ?_, ?_⟩
      · rw [h2, ihl, hone, hfl]
        push_cast; ring
      · rw [h3, List.length_append, List.length_singleton, hfl]
        push_cast
        rw [ihc]

theorem run_count_le (M : JSMath α) (u : α) (hu : 0 ≤ u)
    (herr : ∀ x, |M.round x - x| ≤ u * |x|) (hmono : Monotone M.round)
    (currentExercise : Option String) (display : Display)
    (inputs : List (α × List (Frame α))) (T : α) (h0 : 0 ≤ T)
    (huT : u * T ≤ FRAME_INTERVAL M) (hI : 0 < FRAME_INTERVAL M)
    (hT : ∀ x ∈ inputs, x.1 ≤ T) (hrep : ∀ x ∈ inputs, M.round x.1 = x.1) :
    ((run M (initialState currentExercise display) inputs).2.length : α) *
      (FRAME_INTERVAL M - 2 * (u * T)) ≤ T := by
  have hr0 := round_zero_of_error M u herr
  have key : (run M (initialState currentExercise display) inputs).1.detector = true ∧
      ((run M (initialState currentExercise display) inputs).2.length : α) *
          (FRAME_INTERVAL M - 2 * (u * T)) ≤
        (run M (initialState currentExercise display) inputs).1.lastFrameTime ∧
      0 ≤ (run M (initialState currentExercise display) inputs).1.lastFrameTime ∧
      (run M (initialState currentExercise display) inputs).1.lastFrameTime ≤ T := by
    apply run_induction_mem M
      (fun acc => acc.1.detector = true ∧
        (acc.2.length : α) * (FRAME_INTERVAL M - 2 * (u * T)) ≤ acc.1.lastFrameTime ∧
        0 ≤ acc.1.lastFrameTime ∧ acc.1.lastFrameTime ≤ T) inputs
    · rintro acc x hin ⟨ihd, ihc, ihn, ihT⟩
      have hx : x.1 ≤ T := hT x hin
      by_cases h : M.round (x.1 - acc.1.lastFrameTime) < FRAME_INTERVAL M
      · rw [runStep_skip M acc x h]
        exact ⟨ihd, ihc, ihn, ihT⟩
      · have hle := not_lt.mp h
        obtain ⟨h1, h2, h3⟩ := runStep_fire M acc x ihd hle
        have hpos : 0 ≤ x.1 - acc.1.lastFrameTime := by
          by_contra hneg
          have hm := hmono (not_le.mp hneg).le
          rw [hr0] at hm
          linarith
        have he := herr (x.1 - acc.1.lastFrameTime)
        rw [abs_of_nonneg hpos] at he
        have he2 := (abs_le.mp he).2
        have huel : u * (x.1 - acc.1.lastFrameTime) ≤ u * T :=
          mul_le_mul_of_nonneg_left (by linarith) hu
        have hk := one_le_floor_div _ _ hI hle
        have hk2 : (1 : α) ≤ ((⌊M.round (x.1 - acc.1.lastFrameTime) /
            FRAME_INTERVAL M⌋ : ℤ) : α) := by
          exact_mod_cast hk
        have hrem := jsRem_bounds (M.round (x.1 - acc.1.lastFrameTime)) (FRAME_INTERVAL M)
          (le_trans hI.le hle) hI
        have hremeq := jsRem_of_nonneg (M.round (x.1 - acc.1.lastFrameTime)) (FRAME_INTERVAL M)
          (le_trans hI.le hle) hI
        have hxlow : acc.1.lastFrameTime + FRAME_INTERVAL M - u * T ≤
            x.1 - jsRem (M.round (x.1 - acc.1.lastFrameTime)) (FRAME_INTERVAL M) := by
          rw [hremeq]
          nlinarith
        have hxnn : 0 ≤ x.1 - jsRem (M.round (x.1 - acc.1.lastFrameTime)) (FRAME_INTERVAL M) := by
          linarith
        have hxT : x.1 - jsRem (M.round (x.1 - acc.1.lastFrameTime)) (FRAME_INTERVAL M) ≤ T := by
          linarith [hrem.1]
        have he3 := herr (x.1 - jsRem (M.round (x.1 - acc.1.lastFrameTime)) (FRAME_INTERVAL M))
        rw [abs_of_nonneg hxnn] at he3
        have he4 := (abs_le.mp he3).1
        have hue2 : u * (x.1 - jsRem (M.round (x.1 - acc.1.lastFrameTime))
            (FRAME_INTERVAL M)) ≤ u * T := mul_le_mul_of_nonneg_left hxT hu
        have hnn' : 0 ≤ M.round (x.1 - jsRem (M.round (x.1 - acc.1.lastFrameTime))
            (FRAME_INTERVAL M)) := by
          have hm := hmono hxnn
          rw [hr0] at hm
          exact hm
        have hle' : M.round (x.1 - jsRem (M.round (x.1 - acc.1.lastFrameTime))
            (FRAME_INTERVAL M)) ≤ T := by
          have hm : M.round (x.1 - jsRem (M.round (x.1 - acc.1.lastFrameTime))
              (FRAME_INTERVAL M)) ≤ M.round x.1 := hmono (by linarith [hrem.1])
          rw [hrep x hin] at hm
          linarith
        refine ⟨h1, ?_, ?_, ?_⟩
        · rw [h3, List.length_append, List.length_singleton, h2]
          push_cast
          linarith
        · rw [h2]; exact hnn'
        · rw [h2]; exact hle'
    · refine ⟨rfl, ?_, le_refl _, h0⟩
      show ((0 : ℕ) : α) * _ ≤ 0
      simp
  exact le_trans key.2.1 key.2.2.2

theorem fixedStep_error_invariant (M : JSMath α) (u : α) (hu : 0 ≤ u)
    (herr : ∀ x, |M.round x - x| ≤ u * |x|) (hmono : Monotone M.round)
    (currentExercise : Option String) (display : Display) (d T : α) (hd0 : 0 < d)
    (h0 : 0 ≤ T) (hd : d + 2 * (u * T) ≤ FRAME_INTERVAL M)
    (poses : Nat → List (Frame α))
    (hrep : ∀ k : ℕ, ((k : α) + 1) * d ≤ T →
      M.round (((k : α) + 1) * d) = ((k : α) + 1) * d)
    (n : ℕ) (hn : (n : α) * d ≤ T) :
    (run M (initialState currentExercise display) (fixedStepSchedule d poses n)).1.detector =
      true ∧
    0 ≤ (run M (initialState currentExercise display)
      (fixedStepSchedule d poses n)).1.lastFrameTime ∧
    (run M (initialState currentExercise display)
      (fixedStepSchedule d poses n)).1.lastFrameTime ≤ (n : α) * d ∧
    (n : α) * d - (run M (initialState currentExercise display)
      (fixedStepSchedule d poses n)).1.lastFrameTime < FRAME_INTERVAL M + u * T ∧
    (run M (initialState currentExercise display)
      (fixedStepSchedule d poses n)).1.lastFrameTime ≤
      ((run M (initialState currentExercise display)
        (fixedStepSchedule d poses n)).2.length : α) * (FRAME_INTERVAL M + 2 * (u * T)) ∧
    ((run M (initialState currentExercise display)
        (fixedStepSchedule d poses n)).2.length : α) * (FRAME_INTERVAL M - 2 * (u * T)) ≤
      (run M (initialState currentExercise display)
        (fixedStepSchedule d poses n)).1.lastFrameTime := by
  have hr0 := round_zero_of_error M u herr
  have he0 : 0 ≤ u * T := mul_nonneg hu h0
  have hI : 0 < FRAME_INTERVAL M := by linarith
  induction n with
  | zero =>
    refine ⟨rfl, le_refl _, ?_, ?_, ?_, ?_⟩
    · show (0 : α) ≤ ((0 : ℕ) : α) * d
      simp
    · show ((0 : ℕ) : α) * d - 0 < FRAME_INTERVAL M + u * T
      simp only [Nat.cast_zero, zero_mul, sub_zero]
      linarith
    · show (0 : α) ≤ ((0 : ℕ) : α) * _
      simp
    · show ((0 : ℕ) : α) * _ ≤ (0 : α)
      simp
  | succ n ih =>
    have hcast : ((n + 1 : ℕ) : α) * d = ((n : α) + 1) * d := by push_cast; ring
    rw [hcast] at hn ⊢
    have hprev : (n : α) * d ≤ T := by linarith
    obtain ⟨ihd, ihn, ihl, ih1, ih2, ih3⟩ := ih hprev
    rw [fixedStepSchedule_succ, run_append]
    generalize run M (initialState currentExercise display) (fixedStepSchedule d poses n) = R
      at ihd ihn ihl ih1 ih2 ih3 ⊢
    have htl0 : 0 ≤ ((n : α) + 1) * d - R.1.lastFrameTime := by linarith
    have htlT : ((n : α) + 1) * d - R.1.lastFrameTime ≤ T := by linarith
    have he := herr (((n : α) + 1) * d - R.1.lastFrameTime)
    rw [abs_of_nonneg htl0] at he
    have hue : u * (((n : α) + 1) * d - R.1.lastFrameTime) ≤ u * T :=
      mul_le_mul_of_nonneg_left htlT hu
    obtain ⟨he1, he2⟩ := abs_le.mp he
    by_cases h : M.round (((n : α) + 1) * d - R.1.lastFrameTime) < FRAME_INTERVAL M
    · rw [runStep_skip M R (((n : α) + 1) * d, poses n) h]
      refine ⟨ihd, ihn, by linarith, by linarith, ih2, ih3⟩
    · have hle := not_lt.mp h
      obtain ⟨h1, h2, h3⟩ := runStep_fire M R (((n : α) + 1) * d, poses n) ihd hle
      have hlt2 : M.round (((n : α) + 1) * d - R.1.lastFrameTime) <
          2 * FRAME_INTERVAL M := by
        linarith
      have hfl : ⌊M.round (((n : α) + 1) * d - R.1.lastFrameTime) / FRAME_INTERVAL M⌋ = 1 :=
        floor_eq_of_mul_bounds _ _ 1 hI (by push_cast; linarith) (by push_cast; linarith)
      have hrem : jsRem (M.round (((n : α) + 1) * d - R.1.lastFrameTime)) (FRAME_INTERVAL M) =
          M.round (((n : α) + 1) * d - R.1.lastFrameTime) - FRAME_INTERVAL M := by
        rw [jsRem_of_nonneg _ _ (le_trans hI.le hle) hI, hfl]
        push_cast
        ring
      have hL : (runStep M R (((n : α) + 1) * d, poses n)).1.lastFrameTime =
          M.round (((n : α) + 1) * d -
            (M.round (((n : α) + 1) * d - R.1.lastFrameTime) - FRAME_INTERVAL M)) := by
        rw [h2]
        show M.round (((n : α) + 1) * d -
          jsRem (M.round (((n : α) + 1) * d - R.1.lastFrameTime)) (FRAME_INTERVAL M)) = _
        rw [hrem]
      have hx0 : 0 ≤ ((n : α) + 1) * d -
          (M.round (((n : α) + 1) * d - R.1.lastFrameTime) - FRAME_INTERVAL M) := by
        linarith
      have hxt : ((n : α) + 1) * d -
          (M.round (((n : α) + 1) * d - R.1.lastFrameTime) - FRAME_INTERVAL M) ≤
            ((n : α) + 1) * d := by
        linarith
      have hx := herr (((n : α) + 1) * d -
          (M.round (((n : α) + 1) * d - R.1.lastFrameTime) - FRAME_INTERVAL M))
      rw [abs_of_nonneg hx0] at hx
      have hux : u * (((n : α) + 1) * d -
          (M.round (((n : α) + 1) * d - R.1.lastFrameTime) - FRAME_INTERVAL M)) ≤ u * T :=
        mul_le_mul_of_nonneg_left (by linarith) hu
      obtain ⟨hx1, hx2⟩ := abs_le.mp hx
      have hnn : 0 ≤ M.round (((n : α) + 1) * d -
          (M.round (((n : α) + 1) * d - R.1.lastFrameTime) - FRAME_INTERVAL M)) := by
        have hm := hmono hx0
        rw [hr0] at hm
        exact hm
      have hlet : M.round (((n : α) + 1) * d -
          (M.round (((n : α) + 1) * d - R.1.lastFrameTime) - FRAME_INTERVAL M)) ≤
            ((n : α) + 1) * d := by
        have hm := hmono hxt
        rw [hrep n hn] at hm
        exact hm
      refine ⟨h1, ?_, ?_, ?_, ?_, ?_⟩
      · rw [hL]; exact hnn
      · rw [hL]; exact hlet
      · rw [hL]; linarith
      · rw [h3, List.length_append, List.length_singleton, hL]
        push_cast
        linarith
      · rw [h3, List.length_append, List.length_singleton, hL]
        push_cast
        linarith

/-- C13, amended: with callbacks at the times `d, 2d, ..., nd` for a fixed step
`d > 0` and `T = nd`, rounding being monotone with relative error at most `u`,
the callback times numbers of the runtime and `d + 2 * u * T ≤ FRAME_INTERVAL`,
the number `c` of estimator invocations up to and including the callback at `T`
satisfies `T - FRAME_INTERVAL - u * T < c * (FRAME_INTERVAL + 2 * u * T)` and
`c * (FRAME_INTERVAL - 2 * u * T) ≤ T`; in exact arithmetic, `u = 0` and
`d ≤ FRAME_INTERVAL`, it is exactly `⌊T / FRAME_INTERVAL⌋`.  For any schedule of
callback times that are numbers of the runtime and at most `T` (with
`u * T ≤ FRAME_INTERVAL`) it satisfies `c * (FRAME_INTERVAL - 2 * u * T) ≤ T`; in
exact arithmetic it is at most `T / FRAME_INTERVAL`. -/
theorem invocation_count (M : JSMath α) (currentExercise : Option String)
    (display : Display) :
    ((∀ x, M.round x = x) →
      ∀ (d : α) (poses : Nat → List (Frame α)) (n : Nat), 0 < d → d ≤ FRAME_INTERVAL M →
      ((run M (initialState currentExercise display)
        (fixedStepSchedule d poses n)).2.length : ℤ) = ⌊(n : α) * d / FRAME_INTERVAL M⌋) ∧
    (∀ (u : α), 0 ≤ u → (∀ x, |M.round x - x| ≤ u * |x|) → Monotone M.round →
      ∀ (d : α) (poses : Nat → List (Frame α)) (n : Nat), 0 < d →
      d + 2 * (u * ((n : α) * d)) ≤ FRAME_INTERVAL M →
      (∀ k : ℕ, ((k : α) + 1) * d ≤ (n : α) * d →
        M.round (((k : α) + 1) * d) = ((k : α) + 1) * d) →
      (n : α) * d - FRAME_INTERVAL M - u * ((n : α) * d) <
        ((run M (initialState currentExercise display)
          (fixedStepSchedule d poses n)).2.length : α) *
            (FRAME_INTERVAL M + 2 * (u * ((n : α) * d))) ∧
      ((run M (initialState currentExercise display)
        (fixedStepSchedule d poses n)).2.length : α) *
          (FRAME_INTERVAL M - 2 * (u * ((n : α) * d))) ≤ (n : α) * d) ∧
    (∀ (u : α), 0 ≤ u → (∀ x, |M.round x - x| ≤ u * |x|) → Monotone M.round →
      0 < FRAME_INTERVAL M →
      ∀ (earlier : List (α × List (Frame α))) (T : α) (poses : List (Frame α)),
      0 ≤ T → u * T ≤ FRAME_INTERVAL M →
      List.Pairwise (fun t u : α => t ≤ u) (earlier.map Prod.fst ++ [T]) →
      (∀ x ∈ earlier ++ [(T, poses)], M.round x.1 = x.1) →
      ((run M (initialState currentExercise display) (earlier ++ [(T, poses)])).2.length : α) *
        (FRAME_INTERVAL M - 2 * (u * T)) ≤ T) ∧
    ((∀ x, M.round x = x) →
      ∀ (earlier : List (α × List (Frame α))) (T : α) (poses : List (Frame α)),
      0 ≤ T → List.Pairwise (fun t u : α => t ≤ u) (earlier.map Prod.fst ++ [T]) →
      ((run M (initialState currentExercise display) (earlier ++ [(T, poses)])).2.length : α) ≤
        T / FRAME_INTERVAL M) := by
  have hmem : ∀ (earlier : List (α × List (Frame α))) (T : α) (poses : List (Frame α)),
      List.Pairwise (fun t u : α => t ≤ u) (earlier.map Prod.fst ++ [T]) →
      ∀ x ∈ earlier ++ [(T, poses)], x.1 ≤ T := by
    intro earlier T poses hsorted x hx
    rw [List.mem_append, List.mem_singleton] at hx
    rcases hx with hx | hx
    · exact (List.pairwise_append.mp hsorted).2.2 x.1 (List.mem_map_of_mem Prod.fst hx) T
        (List.mem_singleton_self T)
    · rw [hx]
  refine ⟨?_, ?_, ?_, ?_⟩
  · intro hM d poses n hd0 hd
    exact (fixedStep_invariant M hM currentExercise display d hd0 hd poses n).2.2
  · intro u hu herr hmono d poses n hd0 hd hrep
    have h0 : (0 : α) ≤ (n : α) * d := mul_nonneg (Nat.cast_nonneg n) hd0.le
    obtain ⟨-, -, iL, i1, i2, i3⟩ := fixedStep_error_invariant M u hu herr hmono
      currentExercise display d ((n : α) * d) hd0 h0 hd poses hrep n (le_refl _)
    exact ⟨by linarith, le_trans i3 iL⟩
  · intro u hu herr hmono hI earlier T poses h0 huT hsorted hrep
    exact run_count_le M u hu herr hmono currentExercise display _ T h0 huT hI
      (hmem earlier T poses hsorted) hrep
  · intro hM earlier T poses h0 hsorted
    have hI := FRAME_INTERVAL_pos M hM
    rw [le_div_iff₀ hI]
    have h := run_count_le M 0 (le_refl _) (by intro x; rw [hM]; simp)
      (by intro a b hab; rw [hM, hM]; exact hab) currentExercise display
      (earlier ++ [(T, poses)]) T h0 (by rw [zero_mul]; exact hI.le) hI
      (hmem earlier T poses hsorted) (by intro x _; exact hM x.1)
    simpa using h

theorem detectPose_display_empty (M : JSMath α) (s : PoseState α) (currentTime : α)
    (hd : s.detector = true)
    (h : FRAME_INTERVAL M ≤ M.round (currentTime - s.lastFrameTime)) :
    (detectPose M s currentTime []).1.display =
      { textContent := "No pose detected - step back", className := "", metrics := [] } := by
  have hd2 : ¬ s.detector = false := by rw [hd]; decide
  have h2 : ¬ M.round (currentTime - s.lastFrameTime) < FRAME_INTERVAL M := not_lt.mpr h
  unfold detectPose
  rw [if_neg hd2]
  simp only [if_neg h2]

/-- C14, amended: when the estimator is called and returns no pose, `detectPose`
does not fail and does not keep the feedback shown before: it sets the feedback
text to "No pose detected - step back" and clears the class. -/
theorem empty_poses_feedback (M : JSMath α) (s : PoseState α) (currentTime : α)
    (hd : s.detector = true)
    (h : FRAME_INTERVAL M ≤ M.round (currentTime - s.lastFrameTime)) :
    (detectPose M s currentTime []).2 = true ∧
    (detectPose M s currentTime []).1.display.textContent = "No pose detected - step back" ∧
    (detectPose M s currentTime []).1.display.className = "" := by
  refine ⟨(detectPose_fire M s currentTime [] hd h).1, ?_, ?_⟩
  · rw [detectPose_display_empty M s currentTime hd h]
  · rw [detectPose_display_empty M s currentTime hd h]

end Driver

section DriverExamples

theorem realMath_round (x : ℝ) : realMath.round x = x := rfl

theorem FRAME_INTERVAL_real : FRAME_INTERVAL realMath = 100 / 3 := by
  rw [FRAME_INTERVAL_exact realMath realMath_round]
  norm_num

theorem toBinary64_eval (x v : ℝ) (k n : ℤ) (h1 : (2 : ℝ) ^ (k + 52) ≤ x)
    (h2 : x < (2 : ℝ) ^ (k + 52 + 1)) (hlo : (n : ℝ) - 1 / 2 < x / (2 : ℝ) ^ k)
    (hhi : x / (2 : ℝ) ^ k < (n : ℝ) + 1 / 2) (hv : (n : ℝ) * (2 : ℝ) ^ k = v) :
    toBinary64 x = v := by
  rw [toBinary64_eq x k n h1 h2 (roundHalfEven_of_near _ _ hlo hhi), hv]

theorem toBinary64_eval_tie (x v : ℝ) (k n : ℤ) (h1 : (2 : ℝ) ^ (k + 52) ≤ x)
    (h2 : x < (2 : ℝ) ^ (k + 52 + 1)) (hn : n % 2 = 0)
    (h : x / (2 : ℝ) ^ k = (n : ℝ) + 1 / 2 ∨ x / (2 : ℝ) ^ k = (n : ℝ) - 1 / 2)
    (hv : (n : ℝ) * (2 : ℝ) ^ k = v) :
    toBinary64 x = v := by
  rw [toBinary64_eq x k n h1 h2 (roundHalfEven_tie _ _ hn h), hv]

theorem FRAME_INTERVAL_binary64 :
    FRAME_INTERVAL binary64Math = 4691249611844267 / 140737488355328 := by
  show toBinary64 ((1000 : ℝ) / 30) = _
  exact toBinary64_eval _ _ (-47) 4691249611844267 (by norm_num) (by norm_num) (by norm_num)
    (by norm_num) (by norm_num)

theorem FRAME_INTERVAL_binary64_pos : 0 < FRAME_INTERVAL binary64Math := by
  rw [FRAME_INTERVAL_binary64]
  norm_num

theorem binary64Math_round (x : ℝ) : binary64Math.round x = toBinary64 x := rfl

theorem binary64Math_mono : Monotone binary64Math.round := toBinary64_mono

theorem runStep_fire_eval (M : JSMath ℝ) (acc : PoseState ℝ × List (ℝ × ℝ))
    (input : ℝ × List (Frame ℝ)) (e v : ℝ) (k : ℤ) (hd : acc.1.detector = true)
    (he : M.round (input.1 - acc.1.lastFrameTime) = e) (hI : 0 < FRAME_INTERVAL M)
    (hc : FRAME_INTERVAL M ≤ e) (hk1 : (k : ℝ) * FRAME_INTERVAL M ≤ e)
    (hk2 : e < ((k : ℝ) + 1) * FRAME_INTERVAL M)
    (hv : M.round (input.1 - (e - FRAME_INTERVAL M * (k : ℝ))) = v) :
    (runStep M acc input).1.detector = true ∧
    (runStep M acc input).1.lastFrameTime = v ∧
    (runStep M acc input).2 = acc.2 ++ [(input.1, v)] := by
  obtain ⟨h1, h2, h3⟩ := runStep_fire M acc input hd (by rw [he]; exact hc)
  have hl : (runStep M acc input).1.lastFrameTime = v := by
    rw [h2, he, jsRem_of_nonneg e _ (le_trans hI.le hc) hI,
      floor_eq_of_mul_bounds e _ k hI hk1 hk2, hv]
  refine ⟨h1, hl, ?_⟩
  rw [h3, hl]

theorem run_sixty (display : Display) :
    (runStep realMath (initialState none display, []) (60, [])).1.detector = true ∧
    (runStep realMath (initialState none display, []) (60, [])).1.lastFrameTime = 100 / 3 ∧
    (runStep realMath (initialState none display, []) (60, [])).2 = [(60, 100 / 3)] := by
  have h := runStep_fire_eval realMath (initialState none display, []) (60, []) 60 (100 / 3) 1
    rfl (by show (60 : ℝ) - 0 = 60; norm_num) (by rw [FRAME_INTERVAL_real]; norm_num)
    (by rw [FRAME_INTERVAL_real]; norm_num) (by rw [FRAME_INTERVAL_real]; norm_num)
    (by rw [FRAME_INTERVAL_real]; norm_num)
    (by rw [FRAME_INTERVAL_real, realMath_round]; norm_num)
  exact h

theorem run_sixty_sixty_seven (display : Display) :
    (run realMath (initialState none display) [(60, []), (67, [])]).2.map Prod.fst = [60, 67] := by
  obtain ⟨d1, l1, t1⟩ := run_sixty display
  have hfire : FRAME_INTERVAL realMath ≤ realMath.round (((67 : ℝ), ([] : List (Frame ℝ))).1 -
      (runStep realMath (initialState none display, []) (60, [])).1.lastFrameTime) := by
    rw [l1, realMath_round, FRAME_INTERVAL_real]
    norm_num
  obtain ⟨-, -, t2⟩ := runStep_fire realMath
    (runStep realMath (initialState none display, []) (60, [])) (67, []) d1 hfire
  show (runStep realMath (runStep realMath (initialState none display, []) (60, []))
    (67, [])).2.map Prod.fst = [60, 67]
  rw [t2, t1]
  rfl

theorem run_sixty_binary64 (display : Display) :
    (runStep binary64Math (initialState none display, []) (60, [])).1.detector = true ∧
    (runStep binary64Math (initialState none display, []) (60, [])).1.lastFrameTime =
      4691249611844267 / 140737488355328 ∧
    (runStep binary64Math (initialState none display, []) (60, [])).2 =
      [(60, 4691249611844267 / 140737488355328)] := by
  have h := runStep_fire_eval binary64Math (initialState none display, []) (60, []) 60
    (4691249611844267 / 140737488355328) 1 rfl
    (by
      show toBinary64 ((60 : ℝ) - 0) = 60
      exact toBinary64_eval _ _ (-47) 8444249301319680 (by norm_num) (by norm_num)
        (by norm_num) (by norm_num) (by norm_num))
    FRAME_INTERVAL_binary64_pos
    (by rw [FRAME_INTERVAL_binary64]; norm_num) (by rw [FRAME_INTERVAL_binary64]; norm_num)
    (by rw [FRAME_INTERVAL_binary64]; norm_num)
    (by
      rw [FRAME_INTERVAL_binary64, binary64Math_round]
      exact toBinary64_eval _ _ (-47) 4691249611844267 (by norm_num) (by norm_num)
        (by norm_num) (by norm_num) (by norm_num))
  exact h

theorem run_sixty_sixty_seven_binary64 (display : Display) :
    (run binary64Math (initialState none display) [(60, []), (67, [])]).2.map Prod.fst =
      [60, 67] := by
  obtain ⟨d1, l1, t1⟩ := run_sixty_binary64 display
  have hfire : FRAME_INTERVAL binary64Math ≤
      binary64Math.round (((67 : ℝ), ([] : List (Frame ℝ))).1 -
        (runStep binary64Math (initialState none display, []) (60, [])).1.lastFrameTime) := by
    rw [l1, binary64Math_round, FRAME_INTERVAL_binary64]
    have e : toBinary64 ((67 : ℝ) - 4691249611844267 / 140737488355328) =
        4738162107962709 / 140737488355328 :=
      toBinary64_eval _ _ (-47) 4738162107962709 (by norm_num) (by norm_num)
        (by norm_num) (by norm_num) (by norm_num)
    show (4691249611844267 / 140737488355328 : ℝ) ≤
      toBinary64 ((67 : ℝ) - 4691249611844267 / 140737488355328)
    rw [e]
    norm_num
  obtain ⟨-, -, t2⟩ := runStep_fire binary64Math
    (runStep binary64Math (initialState none display, []) (60, [])) (67, []) d1 hfire
  show (runStep binary64Math (runStep binary64Math (initialState none display, []) (60, []))
    (67, [])).2.map Prod.fst = [60, 67]
  rw [t2, t1]
  rfl

/-- Counterexample to C11 as stated: with callbacks at 60 ms and 67 ms, a
non-decreasing schedule, the estimator is invoked at both, 7 ms apart, in exact
arithmetic and with binary64 rounding alike. -/
theorem successive_invocations_counterexample :
    List.Chain' (fun t u : ℝ => t ≤ u) [60, 67] ∧
    ¬ List.Chain' (fun t u : ℝ => FRAME_INTERVAL realMath ≤ u - t)
      ((run realMath (initialState none { textContent := "Ready!", className := "", metrics := [] })
        [(60, []), (67, [])]).2.map Prod.fst) ∧
    ¬ List.Chain' (fun t u : ℝ => FRAME_INTERVAL binary64Math ≤ binary64Math.round (u - t))
      ((run binary64Math
        (initialState none { textContent := "Ready!", className := "", metrics := [] })
        [(60, []), (67, [])]).2.map Prod.fst) := by
  refine ⟨?_, ?_, ?_⟩
  · rw [List.chain'_pair]; norm_num
  · rw [run_sixty_sixty_seven, List.chain'_pair, FRAME_INTERVAL_real]
    norm_num
  · rw [run_sixty_sixty_seven_binary64, List.chain'_pair, FRAME_INTERVAL_binary64,
      binary64Math_round]
    have e : toBinary64 ((67 : ℝ) - 60) = 7 :=
      toBinary64_eval _ _ (-50) 7881299347898368 (by norm_num) (by norm_num)
        (by norm_num) (by norm_num) (by norm_num)
    rw [e]
    norm_num

theorem toBinary64_sixty : toBinary64 (60 : ℝ) = 60 :=
  toBinary64_eval _ _ (-47) 8444249301319680 (by norm_num) (by norm_num)
    (by norm_num) (by norm_num) (by norm_num)

theorem toBinary64_sixty_seven : toBinary64 (67 : ℝ) = 67 :=
  toBinary64_eval _ _ (-46) 4714705859903488 (by norm_num) (by norm_num)
    (by norm_num) (by norm_num) (by norm_num)

/-- Witness for C11: with binary64 rounding and callbacks at 60 ms and 67 ms, the
invocations are phase-separated, and each `lastFrameTime` set is at most its
callback time. -/
theorem successive_invocations_phase_witness :
    (run binary64Math (initialState none { textContent := "Ready!", className := "", metrics := [] })
      [(60, []), (67, [])]).2.Chain' (PhaseSeparated binary64Math) ∧
    ∀ p ∈ (run binary64Math
        (initialState none { textContent := "Ready!", className := "", metrics := [] })
        [(60, []), (67, [])]).2,
      binary64Math.round (p.1 - FRAME_INTERVAL binary64Math) ≤ p.2 ∧ p.2 ≤ p.1 :=
  ⟨(successive_invocations_phase binary64Math none
      { textContent := "Ready!", className := "", metrics := [] } [(60, []), (67, [])]).1,
    (successive_invocations_phase binary64Math none
      { textContent := "Ready!", className := "", metrics := [] } [(60, []), (67, [])]).2
      binary64Math_mono FRAME_INTERVAL_binary64_pos (by
        intro x hx
        simp only [List.mem_cons, List.mem_singleton, List.not_mem_nil, or_false] at hx
        rcases hx with rfl | rfl
        · exact toBinary64_sixty
        · exact toBinary64_sixty_seven)⟩

theorem toBinary64_fixed (x : ℝ) (k n : ℤ) (h1 : (2 : ℝ) ^ (k + 52) ≤ x)
    (h2 : x < (2 : ℝ) ^ (k + 52 + 1)) (hx : (n : ℝ) * (2 : ℝ) ^ k = x) : toBinary64 x = x := by
  have hp : (0 : ℝ) < (2 : ℝ) ^ k := zpow_pos (by norm_num) k
  have hq : x / (2 : ℝ) ^ k = (n : ℝ) := by
    rw [div_eq_iff hp.ne', hx]
  exact toBinary64_eval x x k n h1 h2 (by rw [hq]; linarith) (by rw [hq]; linarith) hx

theorem toBinary64_ofNat (n : ℕ) (hn : n < 2 ^ 53) (x : ℝ) (hx : x = (n : ℝ)) :
    toBinary64 x = x := by
  rw [hx]
  exact toBinary64_natCast n hn

/-- Witness for C12: with binary64 rounding, from the initial globals a callback
at 20 ms changes nothing and does not call the estimator, and a callback at 60 ms
calls it and sets `lastFrameTime` to 33.333333333333336, which is at most 60;
after the callbacks at 34 ms and 101 ms `lastFrameTime` is within
`2 * 2 ^ (-53) * 101` times the number of invocations of a natural multiple of
`FRAME_INTERVAL`.  In exact arithmetic the callback at 60 ms sets one interval,
100/3 ms, and after the callbacks at 60 ms and 67 ms `lastFrameTime` is a multiple
of the interval. -/
theorem rate_limiter_phase_witness :
    detectPose binary64Math
        (initialState none { textContent := "Ready!", className := "", metrics := [] }) 20 [] =
      (initialState none { textContent := "Ready!", className := "", metrics := [] }, false) ∧
    (detectPose binary64Math
        (initialState none { textContent := "Ready!", className := "", metrics := [] })
        60 []).2 = true ∧
    (detectPose binary64Math
        (initialState none { textContent := "Ready!", className := "", metrics := [] })
        60 []).1.lastFrameTime = 4691249611844267 / 140737488355328 ∧
    (detectPose binary64Math
        (initialState none { textContent := "Ready!", className := "", metrics := [] })
        60 []).1.lastFrameTime ≤ 60 ∧
    (∃ j : ℕ, |(run binary64Math
        (initialState none { textContent := "Ready!", className := "", metrics := [] })
        [(34, []), (101, [])]).1.lastFrameTime - (0 + (j : ℝ) * FRAME_INTERVAL binary64Math)| ≤
      ((run binary64Math
        (initialState none { textContent := "Ready!", className := "", metrics := [] })
        [(34, []), (101, [])]).2.length : ℝ) * (2 * ((2 : ℝ) ^ (-53 : ℤ) * 101))) ∧
    (detectPose realMath
        (initialState none { textContent := "Ready!", className := "", metrics := [] })
        60 []).1.lastFrameTime = 100 / 3 ∧
    ∃ n : ℕ, (run realMath
        (initialState none { textContent := "Ready!", className := "", metrics := [] })
        [(60, []), (67, [])]).1.lastFrameTime = 0 + (n : ℝ) * FRAME_INTERVAL realMath := by
  have e20 : toBinary64 ((20 : ℝ) - 0) = 20 - 0 :=
    toBinary64_fixed _ (-48) 5629499534213120 (by norm_num) (by norm_num) (by norm_num)
  have e60 : toBinary64 ((60 : ℝ) - 0) = 60 - 0 :=
    toBinary64_fixed _ (-47) 8444249301319680 (by norm_num) (by norm_num) (by norm_num)
  have hskip : binary64Math.round ((20 : ℝ) -
      (initialState none { textContent := "Ready!", className := "", metrics := [] } :
        PoseState ℝ).lastFrameTime) < FRAME_INTERVAL binary64Math := by
    show toBinary64 ((20 : ℝ) - 0) < FRAME_INTERVAL binary64Math
    rw [e20, FRAME_INTERVAL_binary64]; norm_num
  have hfire : FRAME_INTERVAL binary64Math ≤ binary64Math.round ((60 : ℝ) -
      (initialState none { textContent := "Ready!", className := "", metrics := [] } :
        PoseState ℝ).lastFrameTime) := by
    show FRAME_INTERVAL binary64Math ≤ toBinary64 ((60 : ℝ) - 0)
    rw [e60, FRAME_INTERVAL_binary64]; norm_num
  have hfireR : FRAME_INTERVAL realMath ≤ (60 : ℝ) -
      (initialState none { textContent := "Ready!", className := "", metrics := [] } :
        PoseState ℝ).lastFrameTime := by
    show FRAME_INTERVAL realMath ≤ (60 : ℝ) - 0
    rw [FRAME_INTERVAL_real]; norm_num
  obtain ⟨h1, h2, h3⟩ := (rate_limiter_phase binary64Math).2.1
    (initialState none { textContent := "Ready!", className := "", metrics := [] }) 60 []
    rfl hfire
  obtain ⟨h4, -, -⟩ := ((rate_limiter_phase realMath).2.2.2 realMath_round).1
    (initialState none { textContent := "Ready!", className := "", metrics := [] }) 60 []
    rfl hfireR
  refine ⟨(rate_limiter_phase binary64Math).1 _ 20 [] rfl hskip, h1, ?_,
    (h3 binary64Math_mono FRAME_INTERVAL_binary64_pos toBinary64_sixty).2, ?_, ?_,
    ((rate_limiter_phase realMath).2.2.2 realMath_round).2 none _ [(60, []), (67, [])]⟩
  · rw [h2]
    show toBinary64 ((60 : ℝ) - jsRem (toBinary64 ((60 : ℝ) - 0)) (FRAME_INTERVAL binary64Math)) =
      4691249611844267 / 140737488355328
    rw [e60, FRAME_INTERVAL_binary64, jsRem_of_nonneg _ _ (by norm_num) (by norm_num),
      floor_eq_of_mul_bounds _ _ 1 (by norm_num) (by norm_num) (by norm_num)]
    exact toBinary64_eval _ _ (-47) 4691249611844267 (by norm_num) (by norm_num)
      (by norm_num) (by norm_num) (by norm_num)
  · exact ((rate_limiter_phase binary64Math).2.2.1 ((2 : ℝ) ^ (-53 : ℤ)) 101 (by positivity)
      toBinary64_error binary64Math_mono FRAME_INTERVAL_binary64_pos
      (by rw [FRAME_INTERVAL_binary64]; norm_num)).2 none
      { textContent := "Ready!", className := "", metrics := [] } [(34, []), (101, [])]
      (by
        intro x hx
        simp only [List.mem_cons, List.mem_singleton, List.not_mem_nil, or_false] at hx
        rcases hx with rfl | rfl <;> norm_num)
      (by
        intro x hx
        simp only [List.mem_cons, List.mem_singleton, List.not_mem_nil, or_false] at hx
        rcases hx with rfl | rfl
        · exact toBinary64_ofNat 34 (by norm_num) _ (by norm_num)
        · exact toBinary64_ofNat 101 (by norm_num) _ (by norm_num))
  · rw [h4]
    show (0 : ℝ) + ((⌊((60 : ℝ) - 0) / FRAME_INTERVAL realMath⌋ : ℤ) : ℝ) *
      FRAME_INTERVAL realMath = 100 / 3
    have hf : ⌊((60 : ℝ) - 0) / FRAME_INTERVAL realMath⌋ = 1 := by
      rw [FRAME_INTERVAL_real, Int.floor_eq_iff]; norm_num
    rw [hf, FRAME_INTERVAL_real]; norm_num

theorem run_thirty_four (display : Display) :
    (runStep binary64Math (initialState none display, []) (34, [])).1.detector = true ∧
    (runStep binary64Math (initialState none display, []) (34, [])).1.lastFrameTime =
      4691249611844267 / 140737488355328 ∧
    (runStep binary64Math (initialState none display, []) (34, [])).2 =
      [(34, 4691249611844267 / 140737488355328)] := by
  have h := runStep_fire_eval binary64Math (initialState none display, []) (34, []) 34
    (4691249611844267 / 140737488355328) 1 rfl
    (by
      show toBinary64 ((34 : ℝ) - 0) = 34
      exact toBinary64_eval _ _ (-47) 4785074604081152 (by norm_num) (by norm_num)
        (by norm_num) (by norm_num) (by norm_num))
    FRAME_INTERVAL_binary64_pos
    (by rw [FRAME_INTERVAL_binary64]; norm_num) (by rw [FRAME_INTERVAL_binary64]; norm_num)
    (by rw [FRAME_INTERVAL_binary64]; norm_num)
    (by
      rw [FRAME_INTERVAL_binary64, binary64Math_round]
      exact toBinary64_eval _ _ (-47) 4691249611844267 (by norm_num) (by norm_num)
        (by norm_num) (by norm_num) (by norm_num))
  exact h

theorem run_thirty_four_hundred_one (display : Display) :
    (run binary64Math (initialState none display) [(34, []), (101, [])]).1.lastFrameTime =
      7036874417766401 / 70368744177664 := by
  obtain ⟨d1, l1, -⟩ := run_thirty_four display
  have h := runStep_fire_eval binary64Math
    (runStep binary64Math (initialState none display, []) (34, [])) (101, [])
    (4761618356021930 / 70368744177664) (7036874417766401 / 70368744177664) 2 d1
    (by
      rw [l1, binary64Math_round]
      show toBinary64 ((101 : ℝ) - 4691249611844267 / 140737488355328) = _
      exact toBinary64_eval_tie _ _ (-46) 4761618356021930 (by norm_num) (by norm_num)
        (by norm_num) (Or.inl (by norm_num)) (by norm_num))
    FRAME_INTERVAL_binary64_pos
    (by rw [FRAME_INTERVAL_binary64]; norm_num) (by rw [FRAME_INTERVAL_binary64]; norm_num)
    (by rw [FRAME_INTERVAL_binary64]; norm_num)
    (by
      rw [FRAME_INTERVAL_binary64, binary64Math_round]
      show toBinary64 ((101 : ℝ) - (4761618356021930 / 70368744177664 -
        4691249611844267 / 140737488355328 * ((2 : ℤ) : ℝ))) = _
      exact toBinary64_eval _ _ (-46) 7036874417766401 (by norm_num) (by norm_num)
        (by norm_num) (by norm_num) (by norm_num))
  exact h.2.1

/-- Counterexample to C12 as stated: with binary64 rounding, after the callbacks
at 34 ms and 101 ms `lastFrameTime` is 100.00000000000001 (the elapsed time
`101 - 33.333333333333336` is rounded before the remainder is taken), which is
not a natural multiple of `FRAME_INTERVAL`, whether the multiple is taken of the
runtime's constant exactly, of the constant as the runtime multiplies it, or of
1000/30. -/
theorem rate_limiter_phase_counterexample :
    (run binary64Math (initialState none { textContent := "Ready!", className := "", metrics := [] })
      [(34, []), (101, [])]).1.lastFrameTime = 7036874417766401 / 70368744177664 ∧
    (∀ n : ℕ, (run binary64Math
        (initialState none { textContent := "Ready!", className := "", metrics := [] })
        [(34, []), (101, [])]).1.lastFrameTime ≠ 0 + (n : ℝ) * FRAME_INTERVAL binary64Math) ∧
    (∀ n : ℕ, (run binary64Math
        (initialState none { textContent := "Ready!", className := "", metrics := [] })
        [(34, []), (101, [])]).1.lastFrameTime ≠
          binary64Math.round (0 + binary64Math.round ((n : ℝ) * FRAME_INTERVAL binary64Math))) ∧
    (∀ n : ℕ, (run binary64Math
        (initialState none { textContent := "Ready!", className := "", metrics := [] })
        [(34, []), (101, [])]).1.lastFrameTime ≠ 0 + (n : ℝ) * (1000 / 30)) := by
  have hL := run_thirty_four_hundred_one
    { textContent := "Ready!", className := "", metrics := [] }
  have split : ∀ n : ℕ, (n : ℝ) ≤ 2 ∨ n = 3 ∨ (4 : ℝ) ≤ (n : ℝ) := by
    intro n
    rcases Nat.lt_or_ge n 3 with h | h
    · left; exact_mod_cast (by omega : n ≤ 2)
    · rcases Nat.lt_or_ge n 4 with h' | h'
      · right; left; omega
      · right; right; exact_mod_cast h'
  refine ⟨hL, ?_, ?_, ?_⟩
  · intro n
    rw [hL, FRAME_INTERVAL_binary64]
    rcases split n with h | h | h
    · intro heq; nlinarith
    · rw [h]; norm_num
    · intro heq; nlinarith
  · intro n
    rw [hL, FRAME_INTERVAL_binary64, binary64Math_round, binary64Math_round, zero_add]
    have e2 : toBinary64 ((2 : ℝ) * (4691249611844267 / 140737488355328)) =
        4691249611844267 / 70368744177664 :=
      toBinary64_eval _ _ (-46) 4691249611844267 (by norm_num) (by norm_num)
        (by norm_num) (by norm_num) (by norm_num)
    have e2' : toBinary64 (4691249611844267 / 70368744177664 : ℝ) =
        4691249611844267 / 70368744177664 :=
      toBinary64_fixed _ (-46) 4691249611844267 (by norm_num) (by norm_num) (by norm_num)
    have e3 : toBinary64 ((3 : ℝ) * (4691249611844267 / 140737488355328)) = 100 :=
      toBinary64_eval_tie _ _ (-46) 7036874417766400 (by norm_num) (by norm_num)
        (by norm_num) (Or.inl (by norm_num)) (by norm_num)
    have e3' : toBinary64 (100 : ℝ) = 100 :=
      toBinary64_fixed _ (-46) 7036874417766400 (by norm_num) (by norm_num) (by norm_num)
    have e4 : toBinary64 ((4 : ℝ) * (4691249611844267 / 140737488355328)) =
        4691249611844267 / 35184372088832 :=
      toBinary64_eval _ _ (-45) 4691249611844267 (by norm_num) (by norm_num)
        (by norm_num) (by norm_num) (by norm_num)
    have e4' : toBinary64 (4691249611844267 / 35184372088832 : ℝ) =
        4691249611844267 / 35184372088832 :=
      toBinary64_fixed _ (-45) 4691249611844267 (by norm_num) (by norm_num) (by norm_num)
    rcases split n with h | h | h
    · have h1 : toBinary64 ((n : ℝ) * (4691249611844267 / 140737488355328)) ≤
          toBinary64 ((2 : ℝ) * (4691249611844267 / 140737488355328)) :=
        toBinary64_mono (by nlinarith)
      rw [e2] at h1
      have h2 := toBinary64_mono h1
      rw [e2'] at h2
      intro heq
      rw [← heq] at h2
      norm_num at h2
    · rw [h]
      push_cast
      rw [e3, e3']
      norm_num
    · have h1 : toBinary64 ((4 : ℝ) * (4691249611844267 / 140737488355328)) ≤
          toBinary64 ((n : ℝ) * (4691249611844267 / 140737488355328)) :=
        toBinary64_mono (by nlinarith)
      rw [e4] at h1
      have h2 := toBinary64_mono h1
      rw [e4'] at h2
      intro heq
      rw [← heq] at h2
      norm_num at h2
  · intro n
    rw [hL]
    rcases split n with h | h | h
    · intro heq; nlinarith
    · rw [h]; norm_num
    · intro heq; nlinarith

/-- Witness for C13: in exact arithmetic 1000 callbacks 5 ms apart invoke the
estimator 150 times, which is `⌊5000 / FRAME_INTERVAL⌋`, and the schedule 60 ms,
67 ms invokes it at most `67 / FRAME_INTERVAL` times; with binary64 rounding,
relative error at most `2 ^ (-53)`, the 1000 callbacks 5 ms apart invoke it 149
or 150 times, and the schedule 60 ms, 67 ms satisfies the bound with the error
term. -/
theorem invocation_count_witness :
    (run realMath (initialState none { textContent := "Ready!", className := "", metrics := [] })
      (fixedStepSchedule 5 (fun _ => []) 1000)).2.length = 150 ∧
    (149 ≤ (run binary64Math
        (initialState none { textContent := "Ready!", className := "", metrics := [] })
        (fixedStepSchedule 5 (fun _ => []) 1000)).2.length ∧
      (run binary64Math
        (initialState none { textContent := "Ready!", className := "", metrics := [] })
        (fixedStepSchedule 5 (fun _ => []) 1000)).2.length ≤ 150) ∧
    ((run binary64Math
        (initialState none { textContent := "Ready!", className := "", metrics := [] })
        ([(60, [])] ++ [(67, [])])).2.length : ℝ) *
      (FRAME_INTERVAL binary64Math - 2 * ((2 : ℝ) ^ (-53 : ℤ) * 67)) ≤ 67 ∧
    ((run realMath (initialState none { textContent := "Ready!", className := "", metrics := [] })
      ([(60, [])] ++ [(67, [])])).2.length : ℝ) ≤ 67 / FRAME_INTERVAL realMath := by
  refine ⟨?_, ?_, ?_, ?_⟩
  · have h := (invocation_count realMath none
      { textContent := "Ready!", className := "", metrics := [] }).1 realMath_round
      5 (fun _ => []) 1000 (by norm_num) (by rw [FRAME_INTERVAL_real]; norm_num)
    have hf : ⌊((1000 : ℕ) : ℝ) * 5 / FRAME_INTERVAL realMath⌋ = 150 := by
      rw [FRAME_INTERVAL_real, Int.floor_eq_iff]; norm_num
    rw [hf] at h
    exact_mod_cast h
  · obtain ⟨h1, h2⟩ := (invocation_count binary64Math none
      { textContent := "Ready!", className := "", metrics := [] }).2.1 ((2 : ℝ) ^ (-53 : ℤ))
      (by positivity) toBinary64_error binary64Math_mono 5 (fun _ => []) 1000 (by norm_num)
      (by rw [FRAME_INTERVAL_binary64]; norm_num)
      (by
        intro k hk
        have hk2 : (k : ℝ) + 1 ≤ 1000 := by
          have : ((k : ℝ) + 1) * 5 ≤ 1000 * 5 := by exact_mod_cast hk
          linarith
        have hk3 : k + 1 ≤ 1000 := by exact_mod_cast hk2
        exact toBinary64_ofNat ((k + 1) * 5) (by norm_num; omega) _ (by push_cast; ring))
    generalize (run binary64Math
      (initialState none { textContent := "Ready!", className := "", metrics := [] })
      (fixedStepSchedule 5 (fun _ => []) 1000)).2.length = count at h1 h2 ⊢
    rw [FRAME_INTERVAL_binary64] at h1 h2
    norm_num at h1 h2
    constructor
    · by_contra hlt
      have h3 : (count : ℝ) ≤ 148 := by exact_mod_cast (by omega : count ≤ 148)
      linarith
    · by_contra hgt
      have h3 : (151 : ℝ) ≤ (count : ℝ) := by exact_mod_cast (by omega : 151 ≤ count)
      linarith
  · exact (invocation_count binary64Math none
      { textContent := "Ready!", className := "", metrics := [] }).2.2.1 ((2 : ℝ) ^ (-53 : ℤ))
      (by positivity) toBinary64_error binary64Math_mono FRAME_INTERVAL_binary64_pos
      [(60, [])] 67 [] (by norm_num) (by rw [FRAME_INTERVAL_binary64]; norm_num)
      (by simp; norm_num)
      (by
        intro x hx
        simp only [List.singleton_append, List.mem_cons, List.mem_singleton, List.not_mem_nil,
          or_false] at hx
        rcases hx with rfl | rfl
        · exact toBinary64_sixty
        · exact toBinary64_sixty_seven)
  · exact (invocation_count realMath none
      { textContent := "Ready!", className := "", metrics := [] }).2.2.2 realMath_round
      [(60, [])] 67 [] (by norm_num) (by simp; norm_num)

theorem fixedStepSchedule_twenty_five :
    fixedStepSchedule (25 : ℝ) (fun _ => ([] : List (Frame ℝ))) 4 =
      [(25, []), (50, []), (75, []), (100, [])] := by
  simp only [fixedStepSchedule, List.range_succ, List.range_zero, List.nil_append,
    List.cons_append, List.map_cons, List.map_nil]
  norm_num

theorem run_twenty_five (display : Display) :
    (run binary64Math (initialState none display)
      [(25, []), (50, []), (75, []), (100, [])]).2.map Prod.fst = [50, 75] := by
  have s1 : runStep binary64Math (initialState none display, []) (25, []) =
      (initialState none display, []) := by
    apply runStep_skip
    show toBinary64 ((25 : ℝ) - 0) < FRAME_INTERVAL binary64Math
    rw [toBinary64_fixed _ (-48) 7036874417766400 (by norm_num) (by norm_num) (by norm_num),
      FRAME_INTERVAL_binary64]
    norm_num
  obtain ⟨d2, l2, t2⟩ := runStep_fire_eval binary64Math (initialState none display, [])
    (50, []) 50 (4691249611844267 / 140737488355328) 1 rfl
    (by
      show toBinary64 ((50 : ℝ) - 0) = 50
      exact toBinary64_eval _ _ (-47) 7036874417766400 (by norm_num) (by norm_num)
        (by norm_num) (by norm_num) (by norm_num))
    FRAME_INTERVAL_binary64_pos
    (by rw [FRAME_INTERVAL_binary64]; norm_num) (by rw [FRAME_INTERVAL_binary64]; norm_num)
    (by rw [FRAME_INTERVAL_binary64]; norm_num)
    (by
      rw [FRAME_INTERVAL_binary64, binary64Math_round]
      exact toBinary64_eval _ _ (-47) 4691249611844267 (by norm_num) (by norm_num)
        (by norm_num) (by norm_num) (by norm_num))
  obtain ⟨d3, l3, t3⟩ := runStep_fire_eval binary64Math
    (runStep binary64Math (initialState none display, []) (50, [])) (75, [])
    (5864062014805333 / 140737488355328) (4691249611844267 / 70368744177664) 1 d2
    (by
      rw [l2, binary64Math_round]
      show toBinary64 ((75 : ℝ) - 4691249611844267 / 140737488355328) = _
      exact toBinary64_eval _ _ (-47) 5864062014805333 (by norm_num) (by norm_num)
        (by norm_num) (by norm_num) (by norm_num))
    FRAME_INTERVAL_binary64_pos
    (by rw [FRAME_INTERVAL_binary64]; norm_num) (by rw [FRAME_INTERVAL_binary64]; norm_num)
    (by rw [FRAME_INTERVAL_binary64]; norm_num)
    (by
      rw [FRAME_INTERVAL_binary64, binary64Math_round]
      show toBinary64 ((75 : ℝ) - (5864062014805333 / 140737488355328 -
        4691249611844267 / 140737488355328 * ((1 : ℤ) : ℝ))) = _
      exact toBinary64_eval _ _ (-46) 4691249611844267 (by norm_num) (by norm_num)
        (by norm_num) (by norm_num) (by norm_num))
  have s4 : runStep binary64Math
      (runStep binary64Math (runStep binary64Math (initialState none display, []) (50, []))
        (75, [])) (100, []) =
      runStep binary64Math (runStep binary64Math (initialState none display, []) (50, []))
        (75, []) := by
    apply runStep_skip
    rw [l3, binary64Math_round, FRAME_INTERVAL_binary64]
    show toBinary64 ((100 : ℝ) - 4691249611844267 / 70368744177664) < _
    rw [toBinary64_eval _ (4691249611844266 / 140737488355328) (-47) 4691249611844266
      (by norm_num) (by norm_num) (by norm_num) (by norm_num) (by norm_num)]
    norm_num
  show (runStep binary64Math (runStep binary64Math (runStep binary64Math
    (runStep binary64Math (initialState none display, []) (25, [])) (50, [])) (75, []))
    (100, [])).2.map Prod.fst = [50, 75]
  rw [s1, s4, t3, t2]
  rfl

/-- Counterexample to C13 as stated: with binary64 rounding and callbacks every
25 ms, a step `0 < d ≤ FRAME_INTERVAL`, the estimator has been invoked twice, at
50 ms and 75 ms, up to and including the callback at `T` = 100 ms (there the
computed elapsed time 33.33333333333333 is below `FRAME_INTERVAL`), whereas
`⌊T / FRAME_INTERVAL⌋` is 3, for the interval 1000/30 and for the quotient as the
runtime computes it alike. -/
theorem invocation_count_counterexample :
    (0 : ℝ) < 25 ∧ (25 : ℝ) ≤ FRAME_INTERVAL binary64Math ∧
    (run binary64Math (initialState none { textContent := "Ready!", className := "", metrics := [] })
      (fixedStepSchedule 25 (fun _ => []) 4)).2.map Prod.fst = [50, 75] ∧
    (run binary64Math (initialState none { textContent := "Ready!", className := "", metrics := [] })
      (fixedStepSchedule 25 (fun _ => []) 4)).2.length = 2 ∧
    ⌊((4 : ℕ) : ℝ) * 25 / (1000 / 30)⌋ = 3 ∧
    ⌊binary64Math.round (((4 : ℕ) : ℝ) * 25 / FRAME_INTERVAL binary64Math)⌋ = 3 := by
  have hrun := run_twenty_five { textContent := "Ready!", className := "", metrics := [] }
  refine ⟨by norm_num, by rw [FRAME_INTERVAL_binary64]; norm_num, ?_, ?_, ?_, ?_⟩
  · rw [fixedStepSchedule_twenty_five]; exact hrun
  · rw [fixedStepSchedule_twenty_five]
    have h := congrArg List.length hrun
    rw [List.length_map] at h
    exact h
  · rw [Int.floor_eq_iff]; norm_num
  · rw [FRAME_INTERVAL_binary64, binary64Math_round]
    have e : toBinary64 ((((4 : ℕ) : ℝ)) * 25 / (4691249611844267 / 140737488355328)) = 3 :=
      toBinary64_eval _ _ (-51) 6755399441055744 (by norm_num) (by norm_num)
        (by norm_num) (by norm_num) (by norm_num)
    rw [e, Int.floor_eq_iff]; norm_num

/-- Counterexample to C14 as stated: with "Start Squatting" shown, a callback at
60 ms at which the estimator returns no pose changes the feedback text and the
class. -/
theorem empty_poses_counterexample :
    (detectPose realMath
      (initialState (some "squat")
        { textContent := "Start Squatting", className := "start", metrics := [] }) 60 []).2 =
      true ∧
    ¬ ((detectPose realMath
        (initialState (some "squat")
          { textContent := "Start Squatting", className := "start", metrics := [] })
        60 []).1.display.textContent = "Start Squatting" ∧
      (detectPose realMath
        (initialState (some "squat")
          { textContent := "Start Squatting", className := "start", metrics := [] })
        60 []).1.display.className = "start") := by
  have hfire : FRAME_INTERVAL realMath ≤ realMath.round ((60 : ℝ) -
      (initialState (some "squat")
        { textContent := "Start Squatting", className := "start", metrics := [] } :
        PoseState ℝ).lastFrameTime) := by
    show FRAME_INTERVAL realMath ≤ (60 : ℝ) - 0
    rw [FRAME_INTERVAL_real]; norm_num
  refine ⟨(detectPose_fire realMath _ 60 [] rfl hfire).1, ?_⟩
  rw [detectPose_display_empty realMath _ 60 rfl hfire]
  decide

/-- Witness for C14: from the initial globals with "Start Squatting" shown, a
callback at 60 ms with no pose shows the no-pose message. -/
theorem empty_poses_feedback_witness :
    (detectPose realMath
      (initialState (some "squat")
        { textContent := "Start Squatting", className := "start", metrics := [] }) 60 []).2 =
      true ∧
    (detectPose realMath
      (initialState (some "squat")
        { textContent := "Start Squatting", className := "start", metrics := [] })
      60 []).1.display.textContent = "No pose detected - step back" ∧
    (detectPose realMath
      (initialState (some "squat")
        { textContent := "Start Squatting", className := "start", metrics := [] })
      60 []).1.display.className = "" :=
  empty_poses_feedback realMath _ 60 rfl (by
    show FRAME_INTERVAL realMath ≤ (60 : ℝ) - 0
    rw [FRAME_INTERVAL_real]; norm_num)

end DriverExamples

section Stateless

variable {α : Type} [LinearOrderedField α]

/-- C15: both analyzers are stateless: for a frame that passes the gate, what
`analyzeSquat` (and `analyzePushup`) leaves on the page, feedback text, class
and metrics, is the assessment computed from the frame alone (issues and score
included), so two calls with the same frame from any two prior pages give the
same result. -/
theorem analyzers_stateless (M : JSMath α) (kps : Frame α) (d₁ d₂ : Display) :
    ((∀ i ∈ squatRequired, (kps i).score > 0.3) →
      analyzeSquat M kps d₁ = analyzeSquat M kps d₂ ∧
      ∃ r : Assessment, squatAssessment M kps = some r ∧
        analyzeSquat M kps d₁ =
          { textContent := r.textContent, className := r.className,
            metrics := r.metricsToDisplay }) ∧
    ((∀ i ∈ pushupRequired, (kps i).score > 0.3) →
      analyzePushup M kps d₁ = analyzePushup M kps d₂ ∧
      ∃ r : Assessment, pushupAssessment M kps = some r ∧
        analyzePushup M kps d₁ =
          { textContent := r.textContent, className := r.className,
            metrics := r.metricsToDisplay }) := by
  constructor
  · intro h
    have hg := (squatGate_iff kps).mpr h
    refine ⟨by rw [analyzeSquat_of_gate M kps d₁ hg, analyzeSquat_of_gate M kps d₂ hg],
      _, squatAssessment_of_gate M kps hg, analyzeSquat_of_gate M kps d₁ hg⟩
  · intro h
    have hg := (pushupGate_iff kps).mpr h
    refine ⟨by rw [analyzePushup_of_gate M kps d₁ hg, analyzePushup_of_gate M kps d₂ hg],
      _, pushupAssessment_of_gate M kps hg, analyzePushup_of_gate M kps d₁ hg⟩

/-- Witness for C15: the standing frame analysed from a fresh page and from a
page that shows an earlier verdict. -/
theorem analyzers_stateless_witness :
    analyzeSquat realMath (standingFrame : Frame ℝ)
        { textContent := "Ready!", className := "", metrics := [] } =
      analyzeSquat realMath (standingFrame : Frame ℝ)
        { textContent := "🏆 Perfect Form!", className := "good", metrics := ["Score: 10/10"] } ∧
    analyzePushup realMath (standingFrame : Frame ℝ)
        { textContent := "Ready!", className := "", metrics := [] } =
      analyzePushup realMath (standingFrame : Frame ℝ)
        { textContent := "🏆 Perfect Form!", className := "good", metrics := ["Score: 10/10"] } :=
  ⟨((analyzers_stateless realMath (standingFrame : Frame ℝ) _ _).1
      (by intro i _; rw [standingFrame, frameOfPoints_score]; norm_num)).1,
   ((analyzers_stateless realMath (standingFrame : Frame ℝ) _ _).2
      (by intro i _; rw [standingFrame, frameOfPoints_score]; norm_num)).1⟩

end Stateless

section DeadBranches

theorem average_le (x y : ℝ) (hx : x ≤ 180) (hy : y ≤ 180) : (x + y) / 2 ≤ 180 := by
  linarith

theorem PushupSpec.Bk_le (kps : Frame ℝ) : PushupSpec.Bk realMath kps ≤ 180 :=
  average_le _ _ (calculateAngle_bounds _ _ _).2 (calculateAngle_bounds _ _ _).2

theorem PushupSpec.K_le (kps : Frame ℝ) : PushupSpec.K realMath kps ≤ 180 :=
  average_le _ _ (calculateAngle_bounds _ _ _).2 (calculateAngle_bounds _ _ _).2

theorem PushupSpec.Al_le (kps : Frame ℝ) : PushupSpec.Al realMath kps ≤ 180 :=
  average_le _ _ (calculateAngle_bounds _ _ _).2 (calculateAngle_bounds _ _ _).2

theorem hips_too_high_not_mem_elbowIssue (E : ℝ) :
    "⚠️ Hips too high" ∉ PushupSpec.elbowIssue E := by
  unfold PushupSpec.elbowIssue
  split_ifs <;> simp

theorem hips_too_high_not_mem_shoulderIssue (S : ℝ) :
    "⚠️ Hips too high" ∉ PushupSpec.shoulderIssue S := by
  unfold PushupSpec.shoulderIssue
  split_ifs <;> simp [warning, positive]

theorem hips_too_high_not_mem_kneeIssue (K : ℝ) :
    "⚠️ Hips too high" ∉ PushupSpec.kneeIssue K := by
  unfold PushupSpec.kneeIssue
  split_ifs <;> simp [warning, positive]

theorem hips_too_high_not_mem_backIssue (Bk : ℝ) (h : Bk ≤ 180) :
    "⚠️ Hips too high" ∉ PushupSpec.backIssue Bk := by
  unfold PushupSpec.backIssue
  have h2 : ¬ Bk > 200 := by intro h3; linarith
  rw [if_neg h2]
  split_ifs <;> simp [warning, positive]

/-- C16: in `analyzePushup` the branches guarded by an angle above 200 are dead:
for every frame that passes the gate the averaged back and knee angles are at
most 180, so the issue "Hips too high" is never added, the knee check takes its
0-point or its 2-point branch and never the 1-point one, and the upper bound 195
of the body-alignment test never excludes a frame. -/
theorem pushup_dead_branches (kps : Frame ℝ)
    (hgate : ∀ i ∈ pushupRequired, (kps i).score > 0.3) :
    PushupSpec.Bk realMath kps ≤ 180 ∧ PushupSpec.K realMath kps ≤ 180 ∧
    (∃ r : Assessment, pushupAssessment realMath kps = some r ∧
      "⚠️ Hips too high" ∉ r.formIssues) ∧
    (∀ f : Form,
      pushupBackCheck (pushupMetrics realMath kps).avgBackAngle f = f.push "⚠️ Hips sagging" ∨
      pushupBackCheck (pushupMetrics realMath kps).avgBackAngle f =
        (f.push "✓ Straight back").add 2) ∧
    (∀ f : Form,
      pushupKneeCheck (pushupMetrics realMath kps).avgKneeAngle f = f.push "⚠️ Knees bent" ∨
      pushupKneeCheck (pushupMetrics realMath kps).avgKneeAngle f =
        (f.push "✓ Straight legs").add 2) ∧
    (PushupSpec.kneePts (PushupSpec.K realMath kps) = 0 ∨
      PushupSpec.kneePts (PushupSpec.K realMath kps) = 2) ∧
    ((165 ≤ PushupSpec.Al realMath kps ∧ PushupSpec.Al realMath kps ≤ 195) ↔
      165 ≤ PushupSpec.Al realMath kps) := by
  have hBk := PushupSpec.Bk_le kps
  have hK := PushupSpec.K_le kps
  have hAl := PushupSpec.Al_le kps
  have hBk2 : ¬ PushupSpec.Bk realMath kps > 200 := by intro h; linarith
  have hK2 : PushupSpec.K realMath kps ≤ 200 := by linarith
  refine ⟨hBk, hK, ?_, ?_, ?_, ?_, ?_⟩
  · refine ⟨_, pushupAssessment_of_gate realMath kps ((pushupGate_iff kps).mpr hgate), ?_⟩
    simp only [pushupForm_eq, pushupMetrics_eq, List.mem_append, not_or]
    exact ⟨⟨⟨hips_too_high_not_mem_elbowIssue _, hips_too_high_not_mem_shoulderIssue _⟩,
      hips_too_high_not_mem_backIssue _ hBk⟩, hips_too_high_not_mem_kneeIssue _⟩
  · intro f
    rw [pushupMetrics_eq]
    show pushupBackCheck (PushupSpec.Bk realMath kps) f = _ ∨
      pushupBackCheck (PushupSpec.Bk realMath kps) f = _
    unfold pushupBackCheck
    by_cases h : PushupSpec.Bk realMath kps < 160
    · left; rw [if_pos h]
    · right; rw [if_neg h, if_neg hBk2]
  · intro f
    rw [pushupMetrics_eq]
    show pushupKneeCheck (PushupSpec.K realMath kps) f = _ ∨
      pushupKneeCheck (PushupSpec.K realMath kps) f = _
    unfold pushupKneeCheck
    by_cases h : PushupSpec.K realMath kps < 160
    · left; rw [if_pos h]
    · right; rw [if_neg h, if_pos ⟨not_lt.mp h, hK2⟩]
  · unfold PushupSpec.kneePts
    by_cases h : PushupSpec.K realMath kps < 160
    · left; rw [if_pos h]
    · right; rw [if_neg h, if_pos hK2]
  · constructor
    · intro h; exact h.1
    · intro h; exact ⟨h, by linarith⟩

/-- Witness for C16: the plank frame. -/
theorem pushup_dead_branches_witness :
    PushupSpec.Bk realMath (plankFrame : Frame ℝ) ≤ 180 ∧
    PushupSpec.K realMath (plankFrame : Frame ℝ) ≤ 180 ∧
    (∃ r : Assessment, pushupAssessment realMath (plankFrame : Frame ℝ) = some r ∧
      "⚠️ Hips too high" ∉ r.formIssues) := by
  obtain ⟨h1, h2, h3, -⟩ := pushup_dead_branches (plankFrame : Frame ℝ)
    (by intro i _; rw [plankFrame, frameOfPoints_score]; norm_num)
  exact ⟨h1, h2, h3⟩

theorem calculateAngle_vertical_shin (knee ankle : Point ℝ) (hx : knee.x = ankle.x)
    (hy : knee.y < ankle.y) :
    calculateAngle realMath knee ankle ⟨ankle.x, ankle.y + 100⟩ = 180 := by
  have hne : knee.y - ankle.y ≠ 0 := by intro h; linarith
  have hneg : knee.y - ankle.y < 0 := by linarith
  apply calculateAngle_of_neg_mul knee ankle _ (100 / (knee.y - ankle.y))
  · intro h
    rw [h] at hy
    exact lt_irrefl _ hy
  · exact div_neg_of_pos_of_neg (by norm_num) hneg
  · show ankle.x - ankle.x = 100 / (knee.y - ankle.y) * (knee.x - ankle.x)
    rw [hx]; ring
  · show ankle.y + 100 - ankle.y = 100 / (knee.y - ankle.y) * (knee.y - ankle.y)
    field_simp

/-- C18: for every frame that passes the squat gate in which each knee is
straight above its ankle in image coordinates, the floor point 100 below the
ankle makes each ankle angle exactly 180, so the averaged ankle angle is 180:
`analyzeSquat` adds the issue "Lean Forward", gives no ankle point, and the
score is at most 9. -/
theorem vertical_shins_lean_forward (kps : Frame ℝ)
    (hgate : ∀ i ∈ squatRequired, (kps i).score > 0.3)
    (hlx : (kps KEYPOINTS.LEFT_KNEE).x = (kps KEYPOINTS.LEFT_ANKLE).x)
    (hly : (kps KEYPOINTS.LEFT_KNEE).y < (kps KEYPOINTS.LEFT_ANKLE).y)
    (hrx : (kps KEYPOINTS.RIGHT_KNEE).x = (kps KEYPOINTS.RIGHT_ANKLE).x)
    (hry : (kps KEYPOINTS.RIGHT_KNEE).y < (kps KEYPOINTS.RIGHT_ANKLE).y) :
    calculateAngle realMath (kps KEYPOINTS.LEFT_KNEE).toPoint (kps KEYPOINTS.LEFT_ANKLE).toPoint
      ⟨(kps KEYPOINTS.LEFT_ANKLE).x, (kps KEYPOINTS.LEFT_ANKLE).y + 100⟩ = 180 ∧
    calculateAngle realMath (kps KEYPOINTS.RIGHT_KNEE).toPoint
      (kps KEYPOINTS.RIGHT_ANKLE).toPoint
      ⟨(kps KEYPOINTS.RIGHT_ANKLE).x, (kps KEYPOINTS.RIGHT_ANKLE).y + 100⟩ = 180 ∧
    (squatMetrics realMath kps).avgAnkleAngle = 180 ∧
    SquatSpec.anklePts (squatMetrics realMath kps).avgAnkleAngle = 0 ∧
    ∃ r : Assessment, squatAssessment realMath kps = some r ∧
      "⚠️ Lean Forward" ∈ r.formIssues ∧ r.formScore ≤ 9 := by
  have hl := calculateAngle_vertical_shin (kps KEYPOINTS.LEFT_KNEE).toPoint
    (kps KEYPOINTS.LEFT_ANKLE).toPoint hlx hly
  have hr := calculateAngle_vertical_shin (kps KEYPOINTS.RIGHT_KNEE).toPoint
    (kps KEYPOINTS.RIGHT_ANKLE).toPoint hrx hry
  have hA : (squatMetrics realMath kps).avgAnkleAngle = 180 := by
    show (calculateAngle realMath (kps KEYPOINTS.LEFT_KNEE).toPoint
        (kps KEYPOINTS.LEFT_ANKLE).toPoint
        ⟨(kps KEYPOINTS.LEFT_ANKLE).x, (kps KEYPOINTS.LEFT_ANKLE).y + 100⟩ +
      calculateAngle realMath (kps KEYPOINTS.RIGHT_KNEE).toPoint
        (kps KEYPOINTS.RIGHT_ANKLE).toPoint
        ⟨(kps KEYPOINTS.RIGHT_ANKLE).x, (kps KEYPOINTS.RIGHT_ANKLE).y + 100⟩) / 2 = 180
    rw [hl, hr]; norm_num
  have hpts : SquatSpec.anklePts (squatMetrics realMath kps).avgAnkleAngle = 0 := by
    rw [hA]; norm_num [SquatSpec.anklePts]
  have hiss : SquatSpec.ankleIssue (squatMetrics realMath kps).avgAnkleAngle =
      ["⚠️ Lean Forward"] := by
    rw [hA]; norm_num [SquatSpec.ankleIssue, warning]
    rfl
  refine ⟨hl, hr, hA, hpts, _,
    squatAssessment_of_gate realMath kps ((squatGate_iff kps).mpr hgate), ?_, ?_⟩
  · simp only [squatForm_eq, hiss, List.mem_append, List.mem_singleton]
    left; right; trivial
  · have h1 : SquatSpec.kneePts (squatMetrics realMath kps).avgKneeAngle ≤ 3 := by
      unfold SquatSpec.kneePts; split_ifs <;> decide
    have h2 : SquatSpec.hipPts (squatMetrics realMath kps).avgHipAngle ≤ 2 := by
      unfold SquatSpec.hipPts; split_ifs <;> decide
    have h3 : SquatSpec.backPts (squatMetrics realMath kps).backLeanAngle ≤ 2 := by
      unfold SquatSpec.backPts; split_ifs <;> decide
    have h5 : SquatSpec.trackPts (squatMetrics realMath kps).kneeTracking ≤ 2 := by
      unfold SquatSpec.trackPts; split_ifs <;> decide
    simp only [squatForm_eq, hpts]
    omega

end DeadBranches

section KeepGoing

variable {α : Type} [LinearOrderedField α]

theorem String.append_ne_keep_going (s x : String) (c : Char) (cs : List Char)
    (hs : s.data = c :: cs) (hc : c ≠ 'K') : s ++ x ≠ "Keep going!" := by
  intro h
  have h2 := congrArg String.data h
  rw [String.data_append, hs] at h2
  have h3 : "Keep going!".data = 'K' :: "eep going!".data := rfl
  rw [h3, List.cons_append] at h2
  exact hc (List.cons.inj h2).1

theorem join_ne_keep_going (s : String) (rest : List String) (c : Char) (cs : List Char)
    (hs : s.data = c :: cs) (hc : c ≠ 'K') : join " • " (s :: rest) ≠ "Keep going!" := by
  cases rest with
  | nil =>
    have h := String.append_ne_keep_going s "" c cs hs hc
    rw [String.append_empty] at h
    exact h
  | cons u v =>
    show s ++ " • " ++ join " • " (u :: v) ≠ "Keep going!"
    rw [String.append_assoc]
    exact String.append_ne_keep_going s _ c cs hs hc

theorem squatForm_formIssues_head (m : SquatMetrics α) :
    ∃ (s : String) (rest : List String) (c : Char) (cs : List Char),
      (squatForm m).formIssues = s :: rest ∧ s.data = c :: cs ∧ c ≠ 'K' := by
  rw [squatForm_eq]
  unfold SquatSpec.kneeIssue
  split_ifs
  · exact ⟨"Great depth", _, 'G', "reat depth".data, rfl, rfl, by decide⟩
  · exact ⟨"Go lower", _, 'G', "o lower".data, rfl, rfl, by decide⟩
  · exact ⟨"Start squatting", _, 'S', "tart squatting".data, rfl, rfl, by decide⟩

theorem pushupForm_formIssues_head (m : PushupMetrics α) :
    ∃ (s : String) (rest : List String) (c : Char) (cs : List Char),
      (pushupForm m).formIssues = s :: rest ∧ s.data = c :: cs ∧ c ≠ 'K' := by
  rw [pushupForm_eq]
  unfold PushupSpec.elbowIssue
  split_ifs
  · exact ⟨"Perfect depth", _, 'P', "erfect depth".data, rfl, rfl, by decide⟩
  · exact ⟨"Good depth", _, 'G', "ood depth".data, rfl, rfl, by decide⟩
  · exact ⟨"Go lower", _, 'G', "o lower".data, rfl, rfl, by decide⟩
  · exact ⟨"Start push-up", _, 'S', "tart push-up".data, rfl, rfl, by decide⟩

theorem join_cons_append (sep x y : String) (rest : List String) :
    join sep ((x ++ y) :: rest) = x ++ join sep (y :: rest) := by
  cases rest with
  | nil => rfl
  | cons u v =>
    show x ++ y ++ sep ++ join sep (u :: v) = x ++ (y ++ sep ++ join sep (u :: v))
    simp only [String.append_assoc]

theorem intercalate_go_eq_join (sep : String) (rest : List String) (first : String) :
    String.intercalate.go first sep rest = join sep (first :: rest) := by
  induction rest generalizing first with
  | nil => rfl
  | cons u v ih =>
    show String.intercalate.go (first ++ sep ++ u) sep v = first ++ sep ++ join sep (u :: v)
    rw [ih, String.append_assoc, join_cons_append, join_cons_append, String.append_assoc]

theorem join_eq_intercalate (sep : String) (issues : List String) :
    join sep issues = String.intercalate sep issues := by
  cases issues with
  | nil => rfl
  | cons first rest => exact (intercalate_go_eq_join sep rest first).symm

theorem squatFeedback_cases (m : SquatMetrics α) :
    (∃ knee ∈ ["Great depth", "Go lower", "Start squatting"], ∃ rest : List String,
      (squatForm m).formIssues = knee :: rest) ∧
    (squatForm m).formIssues ≠ [] ∧
    ((squatFeedback m (squatForm m)).2 ≠ "start" → (squatFeedback m (squatForm m)).2 ≠ "good" →
      (squatFeedback m (squatForm m)).2 = "lower" ∧
      (squatFeedback m (squatForm m)).1 = String.intercalate " • " (squatForm m).formIssues) ∧
    (squatFeedback m (squatForm m)).1 ≠ "Keep going!" := by
  obtain ⟨s, rest, c, cs, hi, hs, hc⟩ := squatForm_formIssues_head m
  have hlen : (squatForm m).formIssues.length > 0 := by rw [hi]; simp
  refine ⟨?_, by rw [hi]; simp, ?_, ?_⟩
  · rw [squatForm_eq]
    unfold SquatSpec.kneeIssue
    split_ifs
    · exact ⟨"Great depth", by simp, _, rfl⟩
    · exact ⟨"Go lower", by simp, _, rfl⟩
    · exact ⟨"Start squatting", by simp, _, rfl⟩
  · rw [← join_eq_intercalate]
    unfold squatFeedback
    split_ifs
    · intro h; exact absurd rfl h
    · intro _ h; exact absurd rfl h
    · intro _ _; exact ⟨rfl, rfl⟩
  · unfold squatFeedback
    split_ifs
    · decide
    · decide
    · show join " • " (squatForm m).formIssues ≠ "Keep going!"
      rw [hi]
      exact join_ne_keep_going s rest c cs hs hc

theorem pushupFeedback_cases (m : PushupMetrics α) :
    (∃ elbow ∈ ["Perfect depth", "Good depth", "Go lower", "Start push-up"],
      ∃ rest : List String, (pushupForm m).formIssues = elbow :: rest) ∧
    (pushupForm m).formIssues ≠ [] ∧
    ((pushupFeedback m (pushupForm m)).2 ≠ "start" →
      (pushupFeedback m (pushupForm m)).2 ≠ "good" →
      (pushupFeedback m (pushupForm m)).2 = "lower" ∧
      (pushupFeedback m (pushupForm m)).1 =
        String.intercalate " • " (pushupForm m).formIssues) ∧
    (pushupFeedback m (pushupForm m)).1 ≠ "Keep going!" := by
  obtain ⟨s, rest, c, cs, hi, hs, hc⟩ := pushupForm_formIssues_head m
  have hlen : (pushupForm m).formIssues.length > 0 := by rw [hi]; simp
  refine ⟨?_, by rw [hi]; simp, ?_, ?_⟩
  · rw [pushupForm_eq]
    unfold PushupSpec.elbowIssue
    split_ifs
    · exact ⟨"Perfect depth", by simp, _, rfl⟩
    · exact ⟨"Good depth", by simp, _, rfl⟩
    · exact ⟨"Go lower", by simp, _, rfl⟩
    · exact ⟨"Start push-up", by simp, _, rfl⟩
  · rw [← join_eq_intercalate]
    unfold pushupFeedback
    split_ifs
    · intro h; exact absurd rfl h
    · intro _ h; exact absurd rfl h
    · intro _ _; exact ⟨rfl, rfl⟩
  · unfold pushupFeedback
    split_ifs
    · decide
    · decide
    · show join " • " (pushupForm m).formIssues ≠ "Keep going!"
      rw [hi]
      exact join_ne_keep_going s rest c cs hs hc

/-- C17: the "Keep going!" fallback is unreachable in both analyzers: for every
frame that passes the gate the issue list is not empty, its first entry being the
message of the knee-depth check (squat) or of the elbow-depth check (push-up), so
whenever the class is neither "start" nor "good" it is "lower" and the feedback
text is the issues joined by " • ", and the text is never "Keep going!". -/
theorem keep_going_unreachable (M : JSMath α) (kps : Frame α) :
    ((∀ i ∈ squatRequired, (kps i).score > 0.3) →
      ∃ r : Assessment, squatAssessment M kps = some r ∧
        (∃ knee ∈ ["Great depth", "Go lower", "Start squatting"], ∃ rest : List String,
          r.formIssues = knee :: rest) ∧
        r.formIssues ≠ [] ∧
        (r.className ≠ "start" → r.className ≠ "good" →
          r.className = "lower" ∧
          r.textContent = String.intercalate " • " r.formIssues) ∧
        r.textContent ≠ "Keep going!") ∧
    ((∀ i ∈ pushupRequired, (kps i).score > 0.3) →
      ∃ r : Assessment, pushupAssessment M kps = some r ∧
        (∃ elbow ∈ ["Perfect depth", "Good depth", "Go lower", "Start push-up"],
          ∃ rest : List String, r.formIssues = elbow :: rest) ∧
        r.formIssues ≠ [] ∧
        (r.className ≠ "start" → r.className ≠ "good" →
          r.className = "lower" ∧
          r.textContent = String.intercalate " • " r.formIssues) ∧
        r.textContent ≠ "Keep going!") := by
  constructor
  · intro h
    exact ⟨_, squatAssessment_of_gate M kps ((squatGate_iff kps).mpr h),
      squatFeedback_cases (squatMetrics M kps)⟩
  · intro h
    exact ⟨_, pushupAssessment_of_gate M kps ((pushupGate_iff kps).mpr h),
      pushupFeedback_cases (pushupMetrics M kps)⟩

theorem halfSquatFrame_K : SquatSpec.K realMath (halfSquatFrame : Frame ℝ) = 135 := by
  have h1 : calculateAngle realMath ⟨0, 0⟩ ⟨1, -1⟩ ⟨4, -1⟩ = |(-(3 / 4) : ℝ)| * 180 := by
    apply calculateAngle_of_diff
    · show atan2 (-1 - -1) (4 - 1) - atan2 (0 - -1) (0 - 1) = -(3 / 4) * Real.pi
      rw [show ((-1 : ℝ) - -1) = 0 by norm_num, show ((4 : ℝ) - 1) = 3 by norm_num,
        show ((0 : ℝ) - -1) = 1 by norm_num, show ((0 : ℝ) - 1) = -1 by norm_num,
        atan2_zero_of_pos _ (by norm_num), atan2_one_neg_one]
      ring
    · rw [abs_neg, abs_of_pos (by norm_num)]; norm_num
  have h2 : calculateAngle realMath ⟨2, 0⟩ ⟨3, -1⟩ ⟨6, -1⟩ = |(-(3 / 4) : ℝ)| * 180 := by
    apply calculateAngle_of_diff
    · show atan2 (-1 - -1) (6 - 3) - atan2 (0 - -1) (2 - 3) = -(3 / 4) * Real.pi
      rw [show ((-1 : ℝ) - -1) = 0 by norm_num, show ((6 : ℝ) - 3) = 3 by norm_num,
        show ((0 : ℝ) - -1) = 1 by norm_num, show ((2 : ℝ) - 3) = -1 by norm_num,
        atan2_zero_of_pos _ (by norm_num), atan2_one_neg_one]
      ring
    · rw [abs_neg, abs_of_pos (by norm_num)]; norm_num
  show (calculateAngle realMath ⟨0, 0⟩ ⟨1, -1⟩ ⟨4, -1⟩ +
    calculateAngle realMath ⟨2, 0⟩ ⟨3, -1⟩ ⟨6, -1⟩) / 2 = 135
  rw [h1, h2, abs_neg, abs_of_pos (by norm_num)]; norm_num

theorem halfSquatFrame_H : SquatSpec.H realMath (halfSquatFrame : Frame ℝ) = 45 :=
  deepSquatFrame_H

theorem halfSquatFrame_B : SquatSpec.B realMath (halfSquatFrame : Frame ℝ) = 0 :=
  deepSquatFrame_B

theorem halfSquatFrame_tracking :
    SquatSpec.trackingGood (analyzeKneeTracking realMath (halfSquatFrame : Frame ℝ)) = true :=
  deepSquatFrame_tracking

theorem halfSquatFrame_A : SquatSpec.A realMath (halfSquatFrame : Frame ℝ) = 90 := by
  have h1 : calculateAngle realMath ⟨1, -1⟩ ⟨4, -1⟩ ⟨4 + 0, -1 + 100⟩ =
      |(-(1 / 2) : ℝ)| * 180 := by
    apply calculateAngle_of_diff
    · show atan2 (-1 + 100 - -1) (4 + 0 - 4) - atan2 (-1 - -1) (1 - 4) = -(1 / 2) * Real.pi
      rw [show ((-1 : ℝ) + 100 - -1) = 100 by norm_num, show ((4 : ℝ) + 0 - 4) = 0 by norm_num,
        show ((-1 : ℝ) - -1) = 0 by norm_num, show ((1 : ℝ) - 4) = -3 by norm_num,
        atan2_of_pos_zero _ (by norm_num), atan2_zero_of_neg _ (by norm_num)]
      ring
    · rw [abs_neg, abs_of_pos (by norm_num)]; norm_num
  have h2 : calculateAngle realMath ⟨3, -1⟩ ⟨6, -1⟩ ⟨6 + 0, -1 + 100⟩ =
      |(-(1 / 2) : ℝ)| * 180 := by
    apply calculateAngle_of_diff
    · show atan2 (-1 + 100 - -1) (6 + 0 - 6) - atan2 (-1 - -1) (3 - 6) = -(1 / 2) * Real.pi
      rw [show ((-1 : ℝ) + 100 - -1) = 100 by norm_num, show ((6 : ℝ) + 0 - 6) = 0 by norm_num,
        show ((-1 : ℝ) - -1) = 0 by norm_num, show ((3 : ℝ) - 6) = -3 by norm_num,
        atan2_of_pos_zero _ (by norm_num), atan2_zero_of_neg _ (by norm_num)]
      ring
    · rw [abs_neg, abs_of_pos (by norm_num)]; norm_num
  show (calculateAngle realMath ⟨1, -1⟩ ⟨4, -1⟩ ⟨4 + 0, -1 + 100⟩ +
    calculateAngle realMath ⟨3, -1⟩ ⟨6, -1⟩ ⟨6 + 0, -1 + 100⟩) / 2 = 90
  rw [h1, h2, abs_neg, abs_of_pos (by norm_num)]; norm_num

theorem halfSquatFrame_form :
    squatForm (squatMetrics realMath (halfSquatFrame : Frame ℝ)) =
      { formIssues := ["Go lower", "✓ Good back position"], formScore := 8 } := by
  have ht : SquatSpec.trackIssue (analyzeKneeTracking realMath (halfSquatFrame : Frame ℝ)) =
      [] := by
    have := halfSquatFrame_tracking
    unfold SquatSpec.trackingGood at this
    unfold SquatSpec.trackIssue
    split
    · rename_i t heq
      rw [heq] at this
      simp only at this
      simp [this]
    · rfl
  rw [squatForm_eq, squatMetrics_avgKneeAngle, squatMetrics_avgHipAngle,
    squatMetrics_backLeanAngle, squatMetrics_avgAnkleAngle, squatMetrics_kneeTracking,
    halfSquatFrame_K, halfSquatFrame_H, halfSquatFrame_B, halfSquatFrame_A, ht]
  simp only [SquatSpec.trackPts, halfSquatFrame_tracking]
  norm_num [SquatSpec.kneeIssue, SquatSpec.hipIssue, SquatSpec.backIssue,
    SquatSpec.ankleIssue, SquatSpec.kneePts, SquatSpec.hipPts, SquatSpec.backPts,
    SquatSpec.anklePts, positive]
  rfl

theorem bentKneePlankFrame_K :
    PushupSpec.K realMath (bentKneePlankFrame : Frame ℝ) = 90 := by
  have h1 : calculateAngle realMath ⟨4, 0⟩ ⟨7, 0⟩ ⟨7, 3⟩ = |(-(1 / 2) : ℝ)| * 180 := by
    apply calculateAngle_of_diff
    · show atan2 (3 - 0) (7 - 7) - atan2 (0 - 0) (4 - 7) = -(1 / 2) * Real.pi
      rw [show ((3 : ℝ) - 0) = 3 by norm_num, show ((7 : ℝ) - 7) = 0 by norm_num,
        show ((0 : ℝ) - 0) = 0 by norm_num, show ((4 : ℝ) - 7) = -3 by norm_num,
        atan2_of_pos_zero _ (by norm_num), atan2_zero_of_neg _ (by norm_num)]
      ring
    · rw [abs_neg, abs_of_pos (by norm_num)]; norm_num
  show (calculateAngle realMath ⟨4, 0⟩ ⟨7, 0⟩ ⟨7, 3⟩ +
    calculateAngle realMath ⟨4, 0⟩ ⟨7, 0⟩ ⟨7, 3⟩) / 2 = 90
  rw [h1, abs_neg, abs_of_pos (by norm_num)]; norm_num

theorem bentKneePlankFrame_E :
    PushupSpec.E realMath (bentKneePlankFrame : Frame ℝ) = 90 := by
  show (calculateAngle realMath ⟨0, 0⟩ ⟨0, 2⟩ ⟨2, 2⟩ +
    calculateAngle realMath ⟨0, 0⟩ ⟨0, 2⟩ ⟨2, 2⟩) / 2 = 90
  exact plankFrame_E

theorem bentKneePlankFrame_S :
    PushupSpec.S realMath (bentKneePlankFrame : Frame ℝ) = 90 := by
  show (calculateAngle realMath ⟨0, 2⟩ ⟨0, 0⟩ ⟨4, 0⟩ +
    calculateAngle realMath ⟨0, 2⟩ ⟨0, 0⟩ ⟨4, 0⟩) / 2 = 90
  exact plankFrame_S

theorem bentKneePlankFrame_Bk :
    PushupSpec.Bk realMath (bentKneePlankFrame : Frame ℝ) = 180 := by
  show (calculateAngle realMath ⟨0, 0⟩ ⟨4, 0⟩ ⟨7, 0⟩ +
    calculateAngle realMath ⟨0, 0⟩ ⟨4, 0⟩ ⟨7, 0⟩) / 2 = 180
  exact plankFrame_Bk

theorem bentKneePlankFrame_form :
    (pushupForm (pushupMetrics realMath (bentKneePlankFrame : Frame ℝ))).formIssues =
      ["Good depth", "✓ Good shoulder position", "✓ Straight back", "⚠️ Knees bent"] ∧
    (pushupForm (pushupMetrics realMath (bentKneePlankFrame : Frame ℝ))).formScore < 9 := by
  have hal : PushupSpec.alignPts (PushupSpec.Al realMath (bentKneePlankFrame : Frame ℝ)) ≤ 1 := by
    unfold PushupSpec.alignPts; split_ifs <;> decide
  rw [pushupForm_eq, pushupMetrics_eq]
  simp only [bentKneePlankFrame_E, bentKneePlankFrame_S, bentKneePlankFrame_Bk,
    bentKneePlankFrame_K]
  constructor
  · norm_num [PushupSpec.elbowIssue, PushupSpec.shoulderIssue, PushupSpec.backIssue,
      PushupSpec.kneeIssue, positive, warning]
    refine ⟨rfl, rfl, rfl⟩
  · have h1 : PushupSpec.elbowPts (90 : ℝ) = 2 := by norm_num [PushupSpec.elbowPts]
    have h2 : PushupSpec.shoulderPts (90 : ℝ) = 2 := by norm_num [PushupSpec.shoulderPts]
    have h3 : PushupSpec.backPts (180 : ℝ) = 2 := by norm_num [PushupSpec.backPts]
    have h4 : PushupSpec.kneePts (90 : ℝ) = 0 := by norm_num [PushupSpec.kneePts]
    rw [h1, h2, h3, h4]
    omega

/-- Witness for C17: a half squat at knee angle 135 and a push-up on bent knees
both land in the class "lower", the branch that holds the fallback, and are shown
their issues joined by " • ". -/
theorem keep_going_unreachable_witness :
    (∃ r : Assessment, squatAssessment realMath (halfSquatFrame : Frame ℝ) = some r ∧
      r.className = "lower" ∧ r.formIssues = ["Go lower", "✓ Good back position"] ∧
      r.textContent = "Go lower • ✓ Good back position") ∧
    (∃ r : Assessment, pushupAssessment realMath (bentKneePlankFrame : Frame ℝ) = some r ∧
      r.className = "lower" ∧
      r.formIssues =
        ["Good depth", "✓ Good shoulder position", "✓ Straight back", "⚠️ Knees bent"] ∧
      r.textContent =
        "Good depth • ✓ Good shoulder position • ✓ Straight back • ⚠️ Knees bent") := by
  have gs : ∀ i ∈ squatRequired, ((halfSquatFrame : Frame ℝ) i).score > 0.3 := by
    intro i _; rw [halfSquatFrame, frameOfPoints_score]; norm_num
  have gp : ∀ i ∈ pushupRequired, ((bentKneePlankFrame : Frame ℝ) i).score > 0.3 := by
    intro i _; rw [bentKneePlankFrame, frameOfPoints_score]; norm_num
  obtain ⟨r, hr, -, -, hcl, -⟩ :=
    (keep_going_unreachable realMath (halfSquatFrame : Frame ℝ)).1 gs
  obtain ⟨q, hq, -, -, hcq, -⟩ :=
    (keep_going_unreachable realMath (bentKneePlankFrame : Frame ℝ)).2 gp
  have er := Option.some.inj
    (hr.symm.trans (squatAssessment_of_gate realMath _ ((squatGate_iff _).mpr gs)))
  have eq := Option.some.inj
    (hq.symm.trans (pushupAssessment_of_gate realMath _ ((pushupGate_iff _).mpr gp)))
  constructor
  · have hi : r.formIssues = ["Go lower", "✓ Good back position"] := by
      rw [er]
      show (squatForm (squatMetrics realMath (halfSquatFrame : Frame ℝ))).formIssues = _
      rw [halfSquatFrame_form]
    have hc : r.className = "lower" := by
      rw [er]
      show (squatFeedback (squatMetrics realMath (halfSquatFrame : Frame ℝ))
        (squatForm (squatMetrics realMath (halfSquatFrame : Frame ℝ)))).2 = "lower"
      unfold squatFeedback
      rw [squatMetrics_avgKneeAngle, halfSquatFrame_K, halfSquatFrame_form,
        if_neg (by norm_num), if_neg (by decide)]
    obtain ⟨-, ht⟩ := hcl (by rw [hc]; decide) (by rw [hc]; decide)
    refine ⟨r, hr, hc, hi, ?_⟩
    rw [ht, hi]
    decide
  · obtain ⟨fi, fs⟩ := bentKneePlankFrame_form
    have hi : q.formIssues =
        ["Good depth", "✓ Good shoulder position", "✓ Straight back", "⚠️ Knees bent"] := by
      rw [eq]
      exact fi
    have hc : q.className = "lower" := by
      rw [eq]
      show (pushupFeedback (pushupMetrics realMath (bentKneePlankFrame : Frame ℝ))
        (pushupForm (pushupMetrics realMath (bentKneePlankFrame : Frame ℝ)))).2 = "lower"
      unfold pushupFeedback
      have he : (pushupMetrics realMath (bentKneePlankFrame : Frame ℝ)).avgElbowAngle = 90 := by
        rw [pushupMetrics_eq]
        exact bentKneePlankFrame_E
      rw [he, if_neg (by norm_num), if_neg (by omega)]
    obtain ⟨-, ht⟩ := hcq (by rw [hc]; decide) (by rw [hc]; decide)
    refine ⟨q, hq, hc, hi, ?_⟩
    rw [ht, hi]
    decide

end KeepGoing

section PerfectWithFault

variable {α : Type} [LinearOrderedField α]

theorem squatFeedback_good (m : SquatMetrics α) (h : (squatFeedback m (squatForm m)).2 = "good") :
    ¬ m.avgKneeAngle > 160 ∧ (squatForm m).formScore ≥ 9 := by
  unfold squatFeedback at h
  by_cases h1 : m.avgKneeAngle > 160
  · rw [if_pos h1] at h
    have h3 : "start" = "good" := h
    exact absurd h3 (by decide)
  · rw [if_neg h1] at h
    by_cases h2 : (squatForm m).formScore ≥ 9
    · exact ⟨h1, h2⟩
    · rw [if_neg h2] at h
      have h3 : "lower" = "good" := h
      exact absurd h3 (by decide)

theorem squatForm_score_ge_nine (m : SquatMetrics α) (h : (squatForm m).formScore ≥ 9) :
    m.avgKneeAngle < 90 ∧ (45 ≤ m.avgHipAngle ∧ m.avgHipAngle ≤ 100) ∧ m.backLeanAngle ≤ 45 ∧
      SquatSpec.trackingGood m.kneeTracking = true := by
  rw [squatForm_eq] at h
  have h9 : SquatSpec.kneePts m.avgKneeAngle + SquatSpec.hipPts m.avgHipAngle +
      SquatSpec.backPts m.backLeanAngle + SquatSpec.anklePts m.avgAnkleAngle +
      SquatSpec.trackPts m.kneeTracking ≥ 9 := h
  have b1 : SquatSpec.kneePts m.avgKneeAngle ≤ 3 := by
    unfold SquatSpec.kneePts; split_ifs <;> decide
  have b2 : SquatSpec.hipPts m.avgHipAngle ≤ 2 := by
    unfold SquatSpec.hipPts; split_ifs <;> decide
  have b3 : SquatSpec.backPts m.backLeanAngle ≤ 2 := by
    unfold SquatSpec.backPts; split_ifs <;> decide
  have b4 : SquatSpec.anklePts m.avgAnkleAngle ≤ 1 := by
    unfold SquatSpec.anklePts; split_ifs <;> decide
  have b5 : SquatSpec.trackPts m.kneeTracking ≤ 2 := by
    unfold SquatSpec.trackPts; split_ifs <;> decide
  refine ⟨?_, ?_, ?_, ?_⟩
  · by_contra hK
    have : SquatSpec.kneePts m.avgKneeAngle ≤ 1 := by
      unfold SquatSpec.kneePts; rw [if_neg hK]; split_ifs <;> decide
    omega
  · by_contra hH
    have : SquatSpec.hipPts m.avgHipAngle = 0 := by
      unfold SquatSpec.hipPts; rw [if_neg hH]
    omega
  · by_contra hB
    have : SquatSpec.backPts m.backLeanAngle = 0 := by
      unfold SquatSpec.backPts; rw [if_pos (not_le.mp hB)]
    omega
  · by_contra hT
    have : SquatSpec.trackPts m.kneeTracking = 0 := by
      unfold SquatSpec.trackPts; rw [if_neg hT]
    omega

/-- C19: `analyzeSquat` can announce perfect form while listing a fault: for a
frame that passes the gate with knee angle below 90, hip angle in `[45, 100]`,
back lean below 10, good knee tracking and ankle angle below 70 (or above 110)
the score is 9, the text is "🏆 Perfect Form!" with class "good", and the issue
list holds the warning "Heels lifting" (respectively "Lean Forward").
Conversely, whenever the class is "good" the knee angle is below 90, the hip
angle is in `[45, 100]`, the back lean is at most 45 and knee tracking is
good. -/
theorem perfect_form_with_fault (M : JSMath α) (kps : Frame α)
    (hgate : ∀ i ∈ squatRequired, (kps i).score > 0.3) :
    (SquatSpec.K M kps < 90 → (45 ≤ SquatSpec.H M kps ∧ SquatSpec.H M kps ≤ 100) →
      SquatSpec.B M kps < 10 → SquatSpec.trackingGood (analyzeKneeTracking M kps) = true →
      (SquatSpec.A M kps < 70 ∨ SquatSpec.A M kps > 110) →
      ∃ r : Assessment, squatAssessment M kps = some r ∧ r.formScore = 9 ∧
        r.textContent = "🏆 Perfect Form!" ∧ r.className = "good" ∧
        (SquatSpec.A M kps < 70 → "⚠️ Heels lifting" ∈ r.formIssues) ∧
        (SquatSpec.A M kps > 110 → "⚠️ Lean Forward" ∈ r.formIssues)) ∧
    (∀ r : Assessment, squatAssessment M kps = some r → r.className = "good" →
      SquatSpec.K M kps < 90 ∧ (45 ≤ SquatSpec.H M kps ∧ SquatSpec.H M kps ≤ 100) ∧
      SquatSpec.B M kps ≤ 45 ∧ SquatSpec.trackingGood (analyzeKneeTracking M kps) = true) := by
  have hg := (squatGate_iff kps).mpr hgate
  constructor
  · intro hK hH hB hT hA
    have hApts : SquatSpec.anklePts (SquatSpec.A M kps) = 0 := by
      unfold SquatSpec.anklePts
      rw [if_neg]
      rintro ⟨h1, h2⟩
      rcases hA with h | h <;> linarith
    have hscore : (squatForm (squatMetrics M kps)).formScore = 9 := by
      rw [squatForm_eq]
      simp only [squatMetrics_avgKneeAngle, squatMetrics_avgHipAngle,
        squatMetrics_backLeanAngle, squatMetrics_avgAnkleAngle, squatMetrics_kneeTracking, hApts]
      have hB2 : ¬ SquatSpec.B M kps > 45 := by intro h; linarith
      simp only [SquatSpec.kneePts, SquatSpec.hipPts, SquatSpec.backPts, SquatSpec.trackPts,
        if_pos hK, if_pos hH, if_neg hB2, if_pos hB, if_pos hT]
    have hK2 : ¬ (squatMetrics M kps).avgKneeAngle > 160 := by
      rw [squatMetrics_avgKneeAngle]; intro h; linarith
    have h9 : (squatForm (squatMetrics M kps)).formScore ≥ 9 := by rw [hscore]
    refine ⟨_, squatAssessment_of_gate M kps hg, hscore, ?_, ?_, ?_, ?_⟩
    · simp only [squatFeedback, if_neg hK2, if_pos h9]
    · simp only [squatFeedback, if_neg hK2, if_pos h9]
    · intro h
      have hiss : SquatSpec.ankleIssue (SquatSpec.A M kps) = ["⚠️ Heels lifting"] := by
        unfold SquatSpec.ankleIssue
        rw [if_pos h]
        rfl
      simp only [squatForm_eq, squatMetrics_avgAnkleAngle, hiss, List.mem_append,
        List.mem_singleton]
      left; right; trivial
    · intro h
      have h70 : ¬ SquatSpec.A M kps < 70 := by intro h2; linarith
      have hiss : SquatSpec.ankleIssue (SquatSpec.A M kps) = ["⚠️ Lean Forward"] := by
        unfold SquatSpec.ankleIssue
        rw [if_neg h70, if_pos h]
        rfl
      simp only [squatForm_eq, squatMetrics_avgAnkleAngle, hiss, List.mem_append,
        List.mem_singleton]
      left; right; trivial
  · intro r hr hc
    rw [squatAssessment_of_gate M kps hg, Option.some.injEq] at hr
    rw [← hr] at hc
    obtain ⟨-, h9⟩ := squatFeedback_good (squatMetrics M kps) hc
    have h := squatForm_score_ge_nine (squatMetrics M kps) h9
    rw [squatMetrics_avgKneeAngle, squatMetrics_avgHipAngle, squatMetrics_backLeanAngle,
      squatMetrics_kneeTracking] at h
    exact h

end PerfectWithFault

section UprightShin

theorem uprightShinFrame_score (i : Fin 17) : ((uprightShinFrame : Frame ℝ) i).score = 1 := rfl

theorem uprightShinFrame_K : SquatSpec.K realMath (uprightShinFrame : Frame ℝ) = 45 := by
  have h1 : calculateAngle realMath ⟨0, 0⟩ ⟨1, -1⟩ ⟨1, 2⟩ = |(-(1 / 4) : ℝ)| * 180 := by
    apply calculateAngle_of_diff
    · show atan2 (2 - -1) (1 - 1) - atan2 (0 - -1) (0 - 1) = -(1 / 4) * Real.pi
      rw [show ((2 : ℝ) - -1) = 3 by norm_num, show ((1 : ℝ) - 1) = 0 by norm_num,
        show ((0 : ℝ) - -1) = 1 by norm_num, show ((0 : ℝ) - 1) = -1 by norm_num,
        atan2_of_pos_zero _ (by norm_num), atan2_one_neg_one]
      ring
    · rw [abs_neg, abs_of_pos (by norm_num)]; norm_num
  have h2 : calculateAngle realMath ⟨2, 0⟩ ⟨3, -1⟩ ⟨3, 2⟩ = |(-(1 / 4) : ℝ)| * 180 := by
    apply calculateAngle_of_diff
    · show atan2 (2 - -1) (3 - 3) - atan2 (0 - -1) (2 - 3) = -(1 / 4) * Real.pi
      rw [show ((2 : ℝ) - -1) = 3 by norm_num, show ((3 : ℝ) - 3) = 0 by norm_num,
        show ((0 : ℝ) - -1) = 1 by norm_num, show ((2 : ℝ) - 3) = -1 by norm_num,
        atan2_of_pos_zero _ (by norm_num), atan2_one_neg_one]
      ring
    · rw [abs_neg, abs_of_pos (by norm_num)]; norm_num
  show (calculateAngle realMath ⟨0, 0⟩ ⟨1, -1⟩ ⟨1, 2⟩ +
    calculateAngle realMath ⟨2, 0⟩ ⟨3, -1⟩ ⟨3, 2⟩) / 2 = 45
  rw [h1, h2, abs_neg, abs_of_pos (by norm_num)]; norm_num

theorem uprightShinFrame_H : SquatSpec.H realMath (uprightShinFrame : Frame ℝ) = 45 :=
  deepSquatFrame_H

theorem uprightShinFrame_B : SquatSpec.B realMath (uprightShinFrame : Frame ℝ) = 0 :=
  deepSquatFrame_B

theorem uprightShinFrame_tracking :
    SquatSpec.trackingGood (analyzeKneeTracking realMath (uprightShinFrame : Frame ℝ)) = true :=
  deepSquatFrame_tracking

theorem uprightShinFrame_A : SquatSpec.A realMath (uprightShinFrame : Frame ℝ) = 180 := by
  have h1 : calculateAngle realMath ⟨1, -1⟩ ⟨1, 2⟩ ⟨1, 2 + 100⟩ = 180 :=
    calculateAngle_vertical_shin ⟨1, -1⟩ ⟨1, 2⟩ rfl (by show (-1 : ℝ) < 2; norm_num)
  have h2 : calculateAngle realMath ⟨3, -1⟩ ⟨3, 2⟩ ⟨3, 2 + 100⟩ = 180 :=
    calculateAngle_vertical_shin ⟨3, -1⟩ ⟨3, 2⟩ rfl (by show (-1 : ℝ) < 2; norm_num)
  rw [← squatMetrics_avgAnkleAngle]
  show (calculateAngle realMath ⟨1, -1⟩ ⟨1, 2⟩ ⟨1, 2 + 100⟩ +
    calculateAngle realMath ⟨3, -1⟩ ⟨3, 2⟩ ⟨3, 2 + 100⟩) / 2 = 180
  rw [h1, h2]; norm_num

/-- Witness for C18: the squat frame with vertical shins. -/
theorem vertical_shins_lean_forward_witness :
    (squatMetrics realMath (uprightShinFrame : Frame ℝ)).avgAnkleAngle = 180 ∧
    ∃ r : Assessment, squatAssessment realMath (uprightShinFrame : Frame ℝ) = some r ∧
      "⚠️ Lean Forward" ∈ r.formIssues ∧ r.formScore ≤ 9 := by
  obtain ⟨-, -, h3, -, h5⟩ := vertical_shins_lean_forward (uprightShinFrame : Frame ℝ)
    (by intro i _; rw [uprightShinFrame_score]; norm_num)
    rfl (by show (-1 : ℝ) < 2; norm_num) rfl (by show (-1 : ℝ) < 2; norm_num)
  exact ⟨h3, h5⟩

/-- Witness for C19: the squat frame with vertical shins has knee angle 45, hip
angle 45, back lean 0, good knee tracking and ankle angle 180; it scores 9 and
is told "🏆 Perfect Form!" while "Lean Forward" is among its issues. -/
theorem perfect_form_with_fault_witness :
    ∃ r : Assessment, squatAssessment realMath (uprightShinFrame : Frame ℝ) = some r ∧
      r.formScore = 9 ∧ r.textContent = "🏆 Perfect Form!" ∧ r.className = "good" ∧
      "⚠️ Lean Forward" ∈ r.formIssues := by
  obtain ⟨r, hr, hs, ht, hc, -, hl⟩ :=
    (perfect_form_with_fault realMath (uprightShinFrame : Frame ℝ)
      (by intro i _; rw [uprightShinFrame_score]; norm_num)).1
      (by rw [uprightShinFrame_K]; norm_num)
      (by rw [uprightShinFrame_H]; norm_num)
      (by rw [uprightShinFrame_B]; norm_num)
      uprightShinFrame_tracking
      (Or.inr (by rw [uprightShinFrame_A]; norm_num))
  exact ⟨r, hr, hs, ht, hc, hl (by rw [uprightShinFrame_A]; norm_num)⟩

end UprightShin

section SideSwap

variable {α : Type} [LinearOrderedField α]

theorem calculateAngle_comm (M : JSMath α) (a b c : Point α) :
    calculateAngle M a b c = calculateAngle M c b a := by
  have h : (M.atan2 (c.y - b.y) (c.x - b.x) - M.atan2 (a.y - b.y) (a.x - b.x)) * 180 / M.PI =
      -((M.atan2 (a.y - b.y) (a.x - b.x) - M.atan2 (c.y - b.y) (c.x - b.x)) * 180 / M.PI) := by
    ring
  simp only [calculateAngle]
  rw [h, abs_neg]

theorem sub_mul_self_comm (x y : α) : (x - y) * (x - y) = (y - x) * (y - x) := by ring

theorem analyzeKneeTracking_swapSides (M : JSMath α) (kps : Frame α) :
    analyzeKneeTracking M (swapSides kps) = analyzeKneeTracking M kps := by
  have e1 : swapSides kps KEYPOINTS.LEFT_KNEE = kps KEYPOINTS.RIGHT_KNEE := rfl
  have e2 : swapSides kps KEYPOINTS.RIGHT_KNEE = kps KEYPOINTS.LEFT_KNEE := rfl
  have e3 : swapSides kps KEYPOINTS.LEFT_HIP = kps KEYPOINTS.RIGHT_HIP := rfl
  have e4 : swapSides kps KEYPOINTS.RIGHT_HIP = kps KEYPOINTS.LEFT_HIP := rfl
  simp only [analyzeKneeTracking, e1, e2, e3, e4]
  rw [sub_mul_self_comm (kps KEYPOINTS.LEFT_KNEE).x (kps KEYPOINTS.RIGHT_KNEE).x,
    sub_mul_self_comm (kps KEYPOINTS.LEFT_KNEE).y (kps KEYPOINTS.RIGHT_KNEE).y,
    sub_mul_self_comm (kps KEYPOINTS.LEFT_HIP).x (kps KEYPOINTS.RIGHT_HIP).x,
    sub_mul_self_comm (kps KEYPOINTS.LEFT_HIP).y (kps KEYPOINTS.RIGHT_HIP).y]
  by_cases hg : (kps KEYPOINTS.LEFT_KNEE).score > 0.3 ∧ (kps KEYPOINTS.RIGHT_KNEE).score > 0.3 ∧
      (kps KEYPOINTS.LEFT_HIP).score > 0.3 ∧ (kps KEYPOINTS.RIGHT_HIP).score > 0.3
  · rw [if_pos hg, if_pos ⟨hg.2.1, hg.1, hg.2.2.2, hg.2.2.1⟩]
  · rw [if_neg hg, if_neg (fun h => hg ⟨h.2.1, h.1, h.2.2.2, h.2.2.1⟩)]

theorem squatGate_swapSides (kps : Frame α) : squatGate (swapSides kps) ↔ squatGate kps := by
  have e1 : swapSides kps KEYPOINTS.LEFT_HIP = kps KEYPOINTS.RIGHT_HIP := rfl
  have e2 : swapSides kps KEYPOINTS.RIGHT_HIP = kps KEYPOINTS.LEFT_HIP := rfl
  have e3 : swapSides kps KEYPOINTS.LEFT_KNEE = kps KEYPOINTS.RIGHT_KNEE := rfl
  have e4 : swapSides kps KEYPOINTS.RIGHT_KNEE = kps KEYPOINTS.LEFT_KNEE := rfl
  have e5 : swapSides kps KEYPOINTS.LEFT_ANKLE = kps KEYPOINTS.RIGHT_ANKLE := rfl
  have e6 : swapSides kps KEYPOINTS.RIGHT_ANKLE = kps KEYPOINTS.LEFT_ANKLE := rfl
  have e7 : swapSides kps KEYPOINTS.LEFT_SHOULDER = kps KEYPOINTS.RIGHT_SHOULDER := rfl
  have e8 : swapSides kps KEYPOINTS.RIGHT_SHOULDER = kps KEYPOINTS.LEFT_SHOULDER := rfl
  simp only [squatGate, e1, e2, e3, e4, e5, e6, e7, e8]
  tauto

theorem pushupGate_swapSides (kps : Frame α) : pushupGate (swapSides kps) ↔ pushupGate kps := by
  have e1 : swapSides kps KEYPOINTS.LEFT_HIP = kps KEYPOINTS.RIGHT_HIP := rfl
  have e2 : swapSides kps KEYPOINTS.RIGHT_HIP = kps KEYPOINTS.LEFT_HIP := rfl
  have e3 : swapSides kps KEYPOINTS.LEFT_KNEE = kps KEYPOINTS.RIGHT_KNEE := rfl
  have e4 : swapSides kps KEYPOINTS.RIGHT_KNEE = kps KEYPOINTS.LEFT_KNEE := rfl
  have e5 : swapSides kps KEYPOINTS.LEFT_ANKLE = kps KEYPOINTS.RIGHT_ANKLE := rfl
  have e6 : swapSides kps KEYPOINTS.RIGHT_ANKLE = kps KEYPOINTS.LEFT_ANKLE := rfl
  have e7 : swapSides kps KEYPOINTS.LEFT_SHOULDER = kps KEYPOINTS.RIGHT_SHOULDER := rfl
  have e8 : swapSides kps KEYPOINTS.RIGHT_SHOULDER = kps KEYPOINTS.LEFT_SHOULDER := rfl
  have e9 : swapSides kps KEYPOINTS.LEFT_ELBOW = kps KEYPOINTS.RIGHT_ELBOW := rfl
  have e10 : swapSides kps KEYPOINTS.RIGHT_ELBOW = kps KEYPOINTS.LEFT_ELBOW := rfl
  have e11 : swapSides kps KEYPOINTS.LEFT_WRIST = kps KEYPOINTS.RIGHT_WRIST := rfl
  have e12 : swapSides kps KEYPOINTS.RIGHT_WRIST = kps KEYPOINTS.LEFT_WRIST := rfl
  simp only [pushupGate, e1, e2, e3, e4, e5, e6, e7, e8, e9, e10, e11, e12]
  tauto

theorem squatMetrics_swapSides (M : JSMath α) (kps : Frame α) :
    squatMetrics M (swapSides kps) = squatMetrics M kps := by
  have e1 : swapSides kps KEYPOINTS.LEFT_HIP = kps KEYPOINTS.RIGHT_HIP := rfl
  have e2 : swapSides kps KEYPOINTS.RIGHT_HIP = kps KEYPOINTS.LEFT_HIP := rfl
  have e3 : swapSides kps KEYPOINTS.LEFT_KNEE = kps KEYPOINTS.RIGHT_KNEE := rfl
  have e4 : swapSides kps KEYPOINTS.RIGHT_KNEE = kps KEYPOINTS.LEFT_KNEE := rfl
  have e5 : swapSides kps KEYPOINTS.LEFT_ANKLE = kps KEYPOINTS.RIGHT_ANKLE := rfl
  have e6 : swapSides kps KEYPOINTS.RIGHT_ANKLE = kps KEYPOINTS.LEFT_ANKLE := rfl
  have e7 : swapSides kps KEYPOINTS.LEFT_SHOULDER = kps KEYPOINTS.RIGHT_SHOULDER := rfl
  have e8 : swapSides kps KEYPOINTS.RIGHT_SHOULDER = kps KEYPOINTS.LEFT_SHOULDER := rfl
  simp only [squatMetrics, e1, e2, e3, e4, e5, e6, e7, e8, analyzeKneeTracking_swapSides]
  rw [SquatMetrics.mk.injEq]
  refine ⟨by rw [add_comm], by rw [add_comm], ?_, by rw [add_comm], rfl⟩
  rw [add_comm (kps KEYPOINTS.RIGHT_SHOULDER).x, add_comm (kps KEYPOINTS.RIGHT_HIP).x,
    add_comm (kps KEYPOINTS.RIGHT_HIP).y, add_comm (kps KEYPOINTS.RIGHT_SHOULDER).y]

theorem pushupMetrics_swapSides (M : JSMath α) (kps : Frame α) :
    pushupMetrics M (swapSides kps) = pushupMetrics M kps := by
  have e1 : swapSides kps KEYPOINTS.LEFT_HIP = kps KEYPOINTS.RIGHT_HIP := rfl
  have e2 : swapSides kps KEYPOINTS.RIGHT_HIP = kps KEYPOINTS.LEFT_HIP := rfl
  have e3 : swapSides kps KEYPOINTS.LEFT_KNEE = kps KEYPOINTS.RIGHT_KNEE := rfl
  have e4 : swapSides kps KEYPOINTS.RIGHT_KNEE = kps KEYPOINTS.LEFT_KNEE := rfl
  have e5 : swapSides kps KEYPOINTS.LEFT_ANKLE = kps KEYPOINTS.RIGHT_ANKLE := rfl
  have e6 : swapSides kps KEYPOINTS.RIGHT_ANKLE = kps KEYPOINTS.LEFT_ANKLE := rfl
  have e7 : swapSides kps KEYPOINTS.LEFT_SHOULDER = kps KEYPOINTS.RIGHT_SHOULDER := rfl
  have e8 : swapSides kps KEYPOINTS.RIGHT_SHOULDER = kps KEYPOINTS.LEFT_SHOULDER := rfl
  have e9 : swapSides kps KEYPOINTS.LEFT_ELBOW = kps KEYPOINTS.RIGHT_ELBOW := rfl
  have e10 : swapSides kps KEYPOINTS.RIGHT_ELBOW = kps KEYPOINTS.LEFT_ELBOW := rfl
  have e11 : swapSides kps KEYPOINTS.LEFT_WRIST = kps KEYPOINTS.RIGHT_WRIST := rfl
  have e12 : swapSides kps KEYPOINTS.RIGHT_WRIST = kps KEYPOINTS.LEFT_WRIST := rfl
  simp only [pushupMetrics, e1, e2, e3, e4, e5, e6, e7, e8, e9, e10, e11, e12]
  rw [PushupMetrics.mk.injEq]
  exact ⟨by rw [add_comm], by rw [add_comm], by rw [add_comm], by rw [add_comm],
    by rw [add_comm]⟩

theorem squatAssessment_swapSides (M : JSMath α) (kps : Frame α) :
    squatAssessment M (swapSides kps) = squatAssessment M kps := by
  unfold squatAssessment
  by_cases hg : squatGate kps
  · rw [if_pos hg, if_pos ((squatGate_swapSides kps).mpr hg), squatMetrics_swapSides]
  · rw [if_neg hg, if_neg (fun h => hg ((squatGate_swapSides kps).mp h))]

theorem pushupAssessment_swapSides (M : JSMath α) (kps : Frame α) :
    pushupAssessment M (swapSides kps) = pushupAssessment M kps := by
  unfold pushupAssessment
  by_cases hg : pushupGate kps
  · rw [if_pos hg, if_pos ((pushupGate_swapSides kps).mpr hg), pushupMetrics_swapSides]
  · rw [if_neg hg, if_neg (fun h => hg ((pushupGate_swapSides kps).mp h))]

/-- C20: `calculateAngle` is symmetric in its outer arguments, and exchanging
each left keypoint with its right counterpart leaves the gate outcome, the
assessment (score, issue list, feedback text, class and metrics) and the effect
on the page of `analyzeSquat` and of `analyzePushup`, and the result of
`analyzeKneeTracking`, unchanged. -/
theorem side_swap_invariance (M : JSMath α) (a b c : Point α) (kps : Frame α) (d : Display) :
    calculateAngle M a b c = calculateAngle M c b a ∧
    (squatGate (swapSides kps) ↔ squatGate kps) ∧
    (pushupGate (swapSides kps) ↔ pushupGate kps) ∧
    squatAssessment M (swapSides kps) = squatAssessment M kps ∧
    pushupAssessment M (swapSides kps) = pushupAssessment M kps ∧
    analyzeSquat M (swapSides kps) d = analyzeSquat M kps d ∧
    analyzePushup M (swapSides kps) d = analyzePushup M kps d ∧
    analyzeKneeTracking M (swapSides kps) = analyzeKneeTracking M kps := by
  refine ⟨calculateAngle_comm M a b c, squatGate_swapSides kps, pushupGate_swapSides kps,
    squatAssessment_swapSides M kps, pushupAssessment_swapSides M kps, ?_, ?_,
    analyzeKneeTracking_swapSides M kps⟩
  · rw [analyzeSquat, analyzeSquat, squatAssessment_swapSides]
  · rw [analyzePushup, analyzePushup, pushupAssessment_swapSides]

end SideSwap

end PositionTracker
